import Mathlib

/-!
Verification of the `strptime`/`strftime` core of `src/time.rs` (the
erickt/rust-time library, pre-1.0 Rust).

Shallow embedding conventions:
* Rust strings are `List Char`; cursor positions are indices into that list
  (the source indexes bytes / uses `str::char_range_at`; for the ASCII
  strings manipulated here the two coincide and `char_range_at` advances by
  one position).
* An out-of-bounds access (`s[i]` or `str::char_range_at(s, pos)` with
  `pos ≥ len`) is a bounds-check task failure in the source; it is modelled
  as the outer `Option` being `none` ("abort").  A parse error surfaced via
  `result::err` is `some (Except.error msg)`.
* `c_int`/`c_long`/`i32` fields are modelled as `Int` (no arithmetic in the
  reachable paths overflows 32 bits); the null-or-string `tm_zone : *c_char`
  is `Option String` with `none` for the null pointer.
* Rust `/` and `%` on signed integers truncate toward zero: `Int.tdiv` and
  `Int.tmod`.
* The externally-linked `to_timespec` conversion (used only by the `%s`
  formatting specifier) is an explicit functional parameter `ext : Tm → Int`
  supplied by the caller, mirroring its role as an external collaborator.
-/

/-- The `tm` record of `src/time.rs` (broken-down time). -/
structure Tm where
  tm_sec : Int := 0
  tm_min : Int := 0
  tm_hour : Int := 0
  tm_mday : Int := 0
  tm_mon : Int := 0
  tm_year : Int := 0
  tm_wday : Int := 0
  tm_yday : Int := 0
  tm_isdst : Int := 0
  tm_gmtoff : Int := 0
  tm_zone : Option String := none
  tm_nsec : Int := 0
deriving Repr, DecidableEq

/-- `empty_tm()`: the all-zero record with a null zone pointer. -/
def empty_tm : Tm := {}

instance {α β : Type} [DecidableEq α] [DecidableEq β] : DecidableEq (Except α β)
  | Except.error x, Except.error y =>
    match decEq x y with
    | isTrue h => isTrue (h ▸ rfl)
    | isFalse h => isFalse fun hh => h (Except.error.inj hh)
  | Except.error _, Except.ok _ => isFalse Except.noConfusion
  | Except.ok _, Except.error _ => isFalse Except.noConfusion
  | Except.ok x, Except.ok y =>
    match decEq x y with
    | isTrue h => isTrue (h ▸ rfl)
    | isFalse h => isFalse fun hh => h (Except.ok.inj hh)

/-! ### Decimal rendering (the `#fmt "%d" / "%0Nd" / "%Nd"` primitives)

`nat_chars` renders a natural number in decimal (most significant digit
first); the fuel argument `n+1` always suffices since a number shrinks
strictly under division by ten. -/

/-- Decimal digit character (only invoked with `n < 10`). -/
def digit_char (n : Nat) : Char := Char.ofNat (48 + n)

def nat_chars_go : Nat → Nat → List Char → List Char
  | 0, _, acc => acc
  | fuel + 1, n, acc =>
    if n < 10 then digit_char n :: acc
    else nat_chars_go fuel (n / 10) (digit_char (n % 10) :: acc)

def nat_chars (n : Nat) : List Char := nat_chars_go (n + 1) n []

/-- `int::str` rendering of a signed integer. -/
def int_str (i : Int) : List Char :=
  if i < 0 then '-' :: nat_chars i.natAbs else nat_chars i.toNat

/-- `#fmt "%0Nd"`: zero padding to width `w` (zeros go after the sign). -/
def pad_zero (w : Nat) (i : Int) : List Char :=
  if i < 0 then
    '-' :: (List.replicate (w - 1 - (nat_chars i.natAbs).length) '0' ++ nat_chars i.natAbs)
  else
    List.replicate (w - (nat_chars i.toNat).length) '0' ++ nat_chars i.toNat

/-- `#fmt "%Nd"`: space padding to width `w`. -/
def pad_space (w : Nat) (i : Int) : List Char :=
  List.replicate (w - (int_str i).length) ' ' ++ int_str i

/-! ### Name tables (shared by parser and formatter literals) -/

def weekdays_full : List (List Char × Int) :=
  [("Sunday".toList, 0), ("Monday".toList, 1), ("Tuesday".toList, 2),
   ("Wednesday".toList, 3), ("Thursday".toList, 4), ("Friday".toList, 5),
   ("Saturday".toList, 6)]

def weekdays_abbrev : List (List Char × Int) :=
  [("Sun".toList, 0), ("Mon".toList, 1), ("Tue".toList, 2), ("Wed".toList, 3),
   ("Thu".toList, 4), ("Fri".toList, 5), ("Sat".toList, 6)]

def months_full : List (List Char × Int) :=
  [("January".toList, 0), ("February".toList, 1), ("March".toList, 2),
   ("April".toList, 3), ("May".toList, 4), ("June".toList, 5),
   ("July".toList, 6), ("August".toList, 7), ("September".toList, 8),
   ("October".toList, 9), ("November".toList, 10), ("December".toList, 11)]

def months_abbrev : List (List Char × Int) :=
  [("Jan".toList, 0), ("Feb".toList, 1), ("Mar".toList, 2), ("Apr".toList, 3),
   ("May".toList, 4), ("Jun".toList, 5), ("Jul".toList, 6), ("Aug".toList, 7),
   ("Sep".toList, 8), ("Oct".toList, 9), ("Nov".toList, 10), ("Dec".toList, 11)]

def ampm_lower : List (List Char × Int) := [("am".toList, 0), ("pm".toList, 12)]

def ampm_upper : List (List Char × Int) := [("AM".toList, 0), ("PM".toList, 12)]

/-! ### `strptime` helpers -/

/-- `str::char_range_at(s, pos)` restricted to the character it yields
(`next` is always `pos + 1` here); `none` models the bounds-check failure
at `pos ≥ len`. -/
def char_range_at (s : List Char) (pos : Nat) : Option Char := s.get? pos

/-- `match_str`: compares `needle` against `s` starting at byte `pos`.
Reads `s[i]` before comparing, so running past the end of `s` aborts
(`none`), exactly like the source's bounds-checked indexing. -/
def match_str (s : List Char) (pos : Nat) (needle : List Char) : Option Bool :=
  match needle with
  | [] => some true
  | c :: rest =>
    match char_range_at s pos with
    | none => none
    | some c2 => if c2 ≠ c then some false else match_str s (pos + 1) rest

/-- `match_strs`: first needle that matches wins, returning its value and the
advanced position; `some none` when no needle matches. -/
def match_strs (s : List Char) (pos : Nat) :
    List (List Char × Int) → Option (Option (Int × Nat))
  | [] => some none
  | (needle, value) :: rest =>
    match match_str s pos needle with
    | none => none
    | some true => some (some (value, pos + needle.length))
    | some false => match_strs s pos rest

/-- Inner loop of `match_digits`: `digits` iterations, each reading one
character via `char_range_at` (aborting at end of input), accumulating
digits most-significant-first; a blank is skipped when `ws` is set. -/
def match_digits_go (s : List Char) (ws : Bool) : Nat → Int → Nat → Option (Option (Int × Nat))
  | pos, value, 0 => some (some (value, pos))
  | pos, value, d + 1 =>
    match char_range_at s pos with
    | none => none
    | some ch =>
      if '0' ≤ ch ∧ ch ≤ '9' then
        match_digits_go s ws (pos + 1) (value * 10 + ((ch.toNat : Int) - ('0'.toNat : Int))) d
      else if ch = ' ' ∧ ws then
        match_digits_go s ws (pos + 1) value d
      else some none

def match_digits (s : List Char) (pos : Nat) (digits : Nat) (ws : Bool) :
    Option (Option (Int × Nat)) :=
  match_digits_go s ws pos 0 digits

/-- `parse_char`: reads one character (aborting at end of input) and
compares it with `c`. -/
def parse_char (s : List Char) (pos : Nat) (c : Char) : Option (Except String Nat) :=
  match char_range_at s pos with
  | none => none
  | some ch =>
    if c = ch then some (Except.ok (pos + 1))
    else some (Except.error ("Expected " ++ String.mk [c] ++ ", found " ++ String.mk [ch]))

/-- Error/abort-propagating sequencing used to model `.chain { ... }`. -/
def pbind {α β : Type} (x : Option (Except String α))
    (f : α → Option (Except String β)) : Option (Except String β) :=
  match x with
  | none => none
  | some (Except.error e) => some (Except.error e)
  | some (Except.ok a) => f a

/-- `parse_char` lifted to thread the working record alongside the cursor. -/
def parse_char_t (s : List Char) (pos : Nat) (c : Char) (tm : Tm) :
    Option (Except String (Nat × Tm)) :=
  match parse_char s pos c with
  | none => none
  | some (Except.error e) => some (Except.error e)
  | some (Except.ok p) => some (Except.ok (p, tm))

/-! Leaf specifier parsers: each is one arm of `strptime::parse_type`.
The source's single recursive function is stratified here (leaves first,
then the composite specifiers that chain them, then the dispatcher);
each definition is the corresponding `alt` arm verbatim. -/

def parse_A (s : List Char) (pos : Nat) (tm : Tm) : Option (Except String (Nat × Tm)) :=
  match match_strs s pos weekdays_full with
  | none => none
  | some (some (v, p)) => some (Except.ok (p, { tm with tm_wday := v }))
  | some none => some (Except.error "Invalid day")

def parse_a (s : List Char) (pos : Nat) (tm : Tm) : Option (Except String (Nat × Tm)) :=
  match match_strs s pos weekdays_abbrev with
  | none => none
  | some (some (v, p)) => some (Except.ok (p, { tm with tm_wday := v }))
  | some none => some (Except.error "Invalid day")

def parse_B (s : List Char) (pos : Nat) (tm : Tm) : Option (Except String (Nat × Tm)) :=
  match match_strs s pos months_full with
  | none => none
  | some (some (v, p)) => some (Except.ok (p, { tm with tm_mon := v }))
  | some none => some (Except.error "Invalid month")

def parse_b (s : List Char) (pos : Nat) (tm : Tm) : Option (Except String (Nat × Tm)) :=
  match match_strs s pos months_abbrev with
  | none => none
  | some (some (v, p)) => some (Except.ok (p, { tm with tm_mon := v }))
  | some none => some (Except.error "Invalid month")

def parse_C (s : List Char) (pos : Nat) (tm : Tm) : Option (Except String (Nat × Tm)) :=
  match match_digits s pos 2 false with
  | none => none
  | some (some (v, p)) =>
    some (Except.ok (p, { tm with tm_year := tm.tm_year + (v * 100 - 1900) }))
  | some none => some (Except.error "Invalid year")

def parse_d (s : List Char) (pos : Nat) (tm : Tm) : Option (Except String (Nat × Tm)) :=
  match match_digits s pos 2 false with
  | none => none
  | some (some (v, p)) => some (Except.ok (p, { tm with tm_mday := v }))
  | some none => some (Except.error "Invalid day of the month")

def parse_e (s : List Char) (pos : Nat) (tm : Tm) : Option (Except String (Nat × Tm)) :=
  match match_digits s pos 2 true with
  | none => none
  | some (some (v, p)) => some (Except.ok (p, { tm with tm_mday := v }))
  | some none => some (Except.error "Invalid day of the month")

def parse_H (s : List Char) (pos : Nat) (tm : Tm) : Option (Except String (Nat × Tm)) :=
  match match_digits s pos 2 false with
  | none => none
  | some (some (v, p)) => some (Except.ok (p, { tm with tm_hour := v }))
  | some none => some (Except.error "Invalid hour")

def parse_I (s : List Char) (pos : Nat) (tm : Tm) : Option (Except String (Nat × Tm)) :=
  match match_digits s pos 2 false with
  | none => none
  | some (some (v, p)) =>
    some (Except.ok (p, { tm with tm_hour := if v = 12 then 0 else v }))
  | some none => some (Except.error "Invalid hour")

def parse_j (s : List Char) (pos : Nat) (tm : Tm) : Option (Except String (Nat × Tm)) :=
  match match_digits s pos 3 false with
  | none => none
  | some (some (v, p)) => some (Except.ok (p, { tm with tm_yday := v - 1 }))
  | some none => some (Except.error "Invalid year")

def parse_k (s : List Char) (pos : Nat) (tm : Tm) : Option (Except String (Nat × Tm)) :=
  match match_digits s pos 2 true with
  | none => none
  | some (some (v, p)) => some (Except.ok (p, { tm with tm_hour := v }))
  | some none => some (Except.error "Invalid hour")

def parse_l (s : List Char) (pos : Nat) (tm : Tm) : Option (Except String (Nat × Tm)) :=
  match match_digits s pos 2 true with
  | none => none
  | some (some (v, p)) =>
    some (Except.ok (p, { tm with tm_hour := if v = 12 then 0 else v }))
  | some none => some (Except.error "Invalid hour")

def parse_M (s : List Char) (pos : Nat) (tm : Tm) : Option (Except String (Nat × Tm)) :=
  match match_digits s pos 2 false with
  | none => none
  | some (some (v, p)) => some (Except.ok (p, { tm with tm_min := v }))
  | some none => some (Except.error "Invalid minute")

def parse_m (s : List Char) (pos : Nat) (tm : Tm) : Option (Except String (Nat × Tm)) :=
  match match_digits s pos 2 false with
  | none => none
  | some (some (v, p)) => some (Except.ok (p, { tm with tm_mon := v - 1 }))
  | some none => some (Except.error "Invalid month")

def parse_P (s : List Char) (pos : Nat) (tm : Tm) : Option (Except String (Nat × Tm)) :=
  match match_strs s pos ampm_lower with
  | none => none
  | some (some (v, p)) => some (Except.ok (p, { tm with tm_hour := tm.tm_hour + v }))
  | some none => some (Except.error "Invalid hour")

def parse_p (s : List Char) (pos : Nat) (tm : Tm) : Option (Except String (Nat × Tm)) :=
  match match_strs s pos ampm_upper with
  | none => none
  | some (some (v, p)) => some (Except.ok (p, { tm with tm_hour := tm.tm_hour + v }))
  | some none => some (Except.error "Invalid hour")

def parse_S (s : List Char) (pos : Nat) (tm : Tm) : Option (Except String (Nat × Tm)) :=
  match match_digits s pos 2 false with
  | none => none
  | some (some (v, p)) => some (Except.ok (p, { tm with tm_sec := v }))
  | some none => some (Except.error "Invalid second")

def parse_u (s : List Char) (pos : Nat) (tm : Tm) : Option (Except String (Nat × Tm)) :=
  match match_digits s pos 1 false with
  | none => none
  | some (some (v, p)) => some (Except.ok (p, { tm with tm_wday := v }))
  | some none => some (Except.error "Invalid weekday")

def parse_w (s : List Char) (pos : Nat) (tm : Tm) : Option (Except String (Nat × Tm)) :=
  match match_digits s pos 1 false with
  | none => none
  | some (some (v, p)) => some (Except.ok (p, { tm with tm_wday := v }))
  | some none => some (Except.error "Invalid weekday")

def parse_Y (s : List Char) (pos : Nat) (tm : Tm) : Option (Except String (Nat × Tm)) :=
  match match_digits s pos 4 false with
  | none => none
  | some (some (v, p)) => some (Except.ok (p, { tm with tm_year := v - 1900 }))
  | some none => some (Except.error "Invalid weekday")

def parse_y (s : List Char) (pos : Nat) (tm : Tm) : Option (Except String (Nat × Tm)) :=
  match match_digits s pos 2 false with
  | none => none
  | some (some (v, p)) => some (Except.ok (p, { tm with tm_year := v - 1900 }))
  | some none => some (Except.error "Invalid weekday")

/-- The fallback loop of the `'Z'` arm: `while pos < len { pos = next;
if ch == ' ' break }` — note it advances past the space before breaking.
Implemented on the remaining suffix so that the recursion is structural;
`rem = s.drop pos` and `pos < len ↔ rem ≠ []`. -/
def z_skip_go : List Char → Nat → Nat
  | [], pos => pos
  | c :: rest, pos => if c = ' ' then pos + 1 else z_skip_go rest (pos + 1)

def z_skip (s : List Char) (pos : Nat) : Nat := z_skip_go (s.drop pos) pos

def parse_Z (s : List Char) (pos : Nat) (tm : Tm) : Option (Except String (Nat × Tm)) :=
  match match_str s pos "UTC".toList with
  | none => none
  | some true => some (Except.ok (pos + 3, { tm with tm_gmtoff := 0, tm_zone := none }))
  | some false =>
    match match_str s pos "GMT".toList with
    | none => none
    | some true => some (Except.ok (pos + 3, { tm with tm_gmtoff := 0, tm_zone := none }))
    | some false => some (Except.ok (z_skip s pos, tm))

def parse_z (s : List Char) (pos : Nat) (tm : Tm) : Option (Except String (Nat × Tm)) :=
  match char_range_at s pos with
  | none => none
  | some ch =>
    if ch = '+' ∨ ch = '-' then
      match match_digits s (pos + 1) 4 false with
      | none => none
      | some (some (v, p)) =>
        if v = 0 then some (Except.ok (p, { tm with tm_gmtoff := 0, tm_zone := none }))
        else some (Except.ok (p, tm))
      | some none => some (Except.error "Invalid zone offset")
    else some (Except.error "Invalid zone offset")

/-! Composite specifier parsers (`.chain` sequences from the source). -/

def parse_T (s : List Char) (pos : Nat) (tm : Tm) : Option (Except String (Nat × Tm)) :=
  pbind (parse_H s pos tm) fun a =>
  pbind (parse_char_t s a.1 ':' a.2) fun b =>
  pbind (parse_M s b.1 b.2) fun c =>
  pbind (parse_char_t s c.1 ':' c.2) fun d =>
  parse_S s d.1 d.2

def parse_R (s : List Char) (pos : Nat) (tm : Tm) : Option (Except String (Nat × Tm)) :=
  pbind (parse_H s pos tm) fun a =>
  pbind (parse_char_t s a.1 ':' a.2) fun b =>
  parse_M s b.1 b.2

def parse_r (s : List Char) (pos : Nat) (tm : Tm) : Option (Except String (Nat × Tm)) :=
  pbind (parse_I s pos tm) fun a =>
  pbind (parse_char_t s a.1 ':' a.2) fun b =>
  pbind (parse_M s b.1 b.2) fun c =>
  pbind (parse_char_t s c.1 ':' c.2) fun d =>
  pbind (parse_S s d.1 d.2) fun e =>
  pbind (parse_char_t s e.1 ' ' e.2) fun f =>
  parse_p s f.1 f.2

def parse_D (s : List Char) (pos : Nat) (tm : Tm) : Option (Except String (Nat × Tm)) :=
  pbind (parse_m s pos tm) fun a =>
  pbind (parse_char_t s a.1 '/' a.2) fun b =>
  pbind (parse_d s b.1 b.2) fun c =>
  pbind (parse_char_t s c.1 '/' c.2) fun d =>
  parse_y s d.1 d.2

def parse_F (s : List Char) (pos : Nat) (tm : Tm) : Option (Except String (Nat × Tm)) :=
  pbind (parse_Y s pos tm) fun a =>
  pbind (parse_char_t s a.1 '-' a.2) fun b =>
  pbind (parse_m s b.1 b.2) fun c =>
  pbind (parse_char_t s c.1 '-' c.2) fun d =>
  parse_d s d.1 d.2

def parse_v (s : List Char) (pos : Nat) (tm : Tm) : Option (Except String (Nat × Tm)) :=
  pbind (parse_e s pos tm) fun a =>
  pbind (parse_char_t s a.1 '-' a.2) fun b =>
  pbind (parse_b s b.1 b.2) fun c =>
  pbind (parse_char_t s c.1 '-' c.2) fun d =>
  parse_Y s d.1 d.2

def parse_c (s : List Char) (pos : Nat) (tm : Tm) : Option (Except String (Nat × Tm)) :=
  pbind (parse_a s pos tm) fun a =>
  pbind (parse_char_t s a.1 ' ' a.2) fun b =>
  pbind (parse_b s b.1 b.2) fun c =>
  pbind (parse_char_t s c.1 ' ' c.2) fun d =>
  pbind (parse_e s d.1 d.2) fun e =>
  pbind (parse_char_t s e.1 ' ' e.2) fun f =>
  pbind (parse_T s f.1 f.2) fun g =>
  pbind (parse_char_t s g.1 ' ' g.2) fun h =>
  parse_Y s h.1 h.2

/-- `strptime::parse_type`: dispatch over the specifier letter. -/
def parse_type (s : List Char) (pos : Nat) (ch : Char) (tm : Tm) :
    Option (Except String (Nat × Tm)) :=
  match ch with
  | 'A' => parse_A s pos tm
  | 'a' => parse_a s pos tm
  | 'B' => parse_B s pos tm
  | 'b' => parse_b s pos tm
  | 'h' => parse_b s pos tm
  | 'C' => parse_C s pos tm
  | 'c' => parse_c s pos tm
  | 'D' => parse_D s pos tm
  | 'x' => parse_D s pos tm
  | 'd' => parse_d s pos tm
  | 'e' => parse_e s pos tm
  | 'F' => parse_F s pos tm
  | 'H' => parse_H s pos tm
  | 'I' => parse_I s pos tm
  | 'j' => parse_j s pos tm
  | 'k' => parse_k s pos tm
  | 'l' => parse_l s pos tm
  | 'M' => parse_M s pos tm
  | 'm' => parse_m s pos tm
  | 'n' => parse_char_t s pos '\n' tm
  | 'P' => parse_P s pos tm
  | 'p' => parse_p s pos tm
  | 'R' => parse_R s pos tm
  | 'r' => parse_r s pos tm
  | 'S' => parse_S s pos tm
  | 'T' => parse_T s pos tm
  | 'X' => parse_T s pos tm
  | 't' => parse_char_t s pos '\t' tm
  | 'u' => parse_u s pos tm
  | 'v' => parse_v s pos tm
  | 'w' => parse_w s pos tm
  | 'Y' => parse_Y s pos tm
  | 'y' => parse_y s pos tm
  | 'Z' => parse_Z s pos tm
  | 'z' => parse_z s pos tm
  | '%' => parse_char_t s pos '%' tm
  | c => some (Except.error ("unknown formatting type: " ++ String.mk [c]))

/-- The main `strptime` loop: walks the format string (the reader) and the
input cursor in lockstep.  On a specifier error or a literal mismatch, the
source breaks and then returns via `if pos == len && rdr.eof()`, whose else
branch yields the pending error (initially `"Invalid time"`); since the
loop is entered only with `pos < len` and a failing specifier does not
advance `pos`, the broken-out error is returned directly here. -/
def strptime_loop (s : List Char) : List Char → Nat → Tm → Option (Except String Tm)
  | [], pos, tm =>
    if pos = s.length then some (Except.ok tm) else some (Except.error "Invalid time")
  | c :: rest, pos, tm =>
    if pos < s.length then
      if c = '%' then
        match rest with
        | [] =>
          -- `rdr.read_char()` at eof yields an invalid character that can
          -- only hit the dispatcher's default (unknown specifier) arm.
          some (Except.error "unknown formatting type: ")
        | f :: rest2 =>
          match parse_type s pos f tm with
          | none => none
          | some (Except.error e) => some (Except.error e)
          | some (Except.ok (p, t)) => strptime_loop s rest2 p t
      else
        match char_range_at s pos with
        | none => none
        | some ch => if c = ch then strptime_loop s rest (pos + 1) tm
                     else some (Except.error "Invalid time")
    else some (Except.error "Invalid time")

/-- `strptime(s, format)`. -/
def strptime (s format : List Char) : Option (Except String Tm) :=
  strptime_loop s format 0 empty_tm

/-! ### `strftime` -/

/-! Leaf formatting arms of `strftime::parse_type`.  The source dispatches
with `alt check`: a value outside the listed alternatives is a check
failure (task abort), modelled as `none`. -/

def format_A (tm : Tm) : Option (List Char) :=
  if tm.tm_wday = 0 then some "Sunday".toList
  else if tm.tm_wday = 1 then some "Monday".toList
  else if tm.tm_wday = 2 then some "Tuesday".toList
  else if tm.tm_wday = 3 then some "Wednesday".toList
  else if tm.tm_wday = 4 then some "Thursday".toList
  else if tm.tm_wday = 5 then some "Friday".toList
  else if tm.tm_wday = 6 then some "Saturday".toList
  else none

def format_a (tm : Tm) : Option (List Char) :=
  if tm.tm_wday = 0 then some "Sun".toList
  else if tm.tm_wday = 1 then some "Mon".toList
  else if tm.tm_wday = 2 then some "Tue".toList
  else if tm.tm_wday = 3 then some "Wed".toList
  else if tm.tm_wday = 4 then some "Thu".toList
  else if tm.tm_wday = 5 then some "Fri".toList
  else if tm.tm_wday = 6 then some "Sat".toList
  else none

def format_B (tm : Tm) : Option (List Char) :=
  if tm.tm_mon = 0 then some "January".toList
  else if tm.tm_mon = 1 then some "February".toList
  else if tm.tm_mon = 2 then some "March".toList
  else if tm.tm_mon = 3 then some "April".toList
  else if tm.tm_mon = 4 then some "May".toList
  else if tm.tm_mon = 5 then some "June".toList
  else if tm.tm_mon = 6 then some "July".toList
  else if tm.tm_mon = 7 then some "August".toList
  else if tm.tm_mon = 8 then some "September".toList
  else if tm.tm_mon = 9 then some "October".toList
  else if tm.tm_mon = 10 then some "November".toList
  else if tm.tm_mon = 11 then some "December".toList
  else none

def format_b (tm : Tm) : Option (List Char) :=
  if tm.tm_mon = 0 then some "Jan".toList
  else if tm.tm_mon = 1 then some "Feb".toList
  else if tm.tm_mon = 2 then some "Mar".toList
  else if tm.tm_mon = 3 then some "Apr".toList
  else if tm.tm_mon = 4 then some "May".toList
  else if tm.tm_mon = 5 then some "Jun".toList
  else if tm.tm_mon = 6 then some "Jul".toList
  else if tm.tm_mon = 7 then some "Aug".toList
  else if tm.tm_mon = 8 then some "Sep".toList
  else if tm.tm_mon = 9 then some "Oct".toList
  else if tm.tm_mon = 10 then some "Nov".toList
  else if tm.tm_mon = 11 then some "Dec".toList
  else none

def format_C (tm : Tm) : List Char := pad_zero 2 (Int.tdiv (tm.tm_year + 1900) 100)

def format_d (tm : Tm) : List Char := pad_zero 2 tm.tm_mday

def format_e (tm : Tm) : List Char := pad_space 2 tm.tm_mday

def format_H (tm : Tm) : List Char := pad_zero 2 tm.tm_hour

def format_I (tm : Tm) : List Char :=
  pad_zero 2 (if tm.tm_hour = 0 then 12
              else if tm.tm_hour > 12 then tm.tm_hour - 12 else tm.tm_hour)

def format_j (tm : Tm) : List Char := pad_zero 3 (tm.tm_yday + 1)

def format_k (tm : Tm) : List Char := pad_space 2 tm.tm_hour

def format_l (tm : Tm) : List Char :=
  pad_space 2 (if tm.tm_hour = 0 then 12
               else if tm.tm_hour > 12 then tm.tm_hour - 12 else tm.tm_hour)

def format_M (tm : Tm) : List Char := pad_zero 2 tm.tm_min

def format_m (tm : Tm) : List Char := pad_zero 2 (tm.tm_mon + 1)

def format_P (tm : Tm) : List Char :=
  if tm.tm_hour < 12 then "am".toList else "pm".toList

def format_p (tm : Tm) : List Char :=
  if tm.tm_hour < 12 then "AM".toList else "PM".toList

def format_S (tm : Tm) : List Char := pad_zero 2 tm.tm_sec

def format_u (tm : Tm) : List Char :=
  int_str (if tm.tm_wday = 0 then 7 else tm.tm_wday)

def format_w (tm : Tm) : List Char := int_str tm.tm_wday

def format_Y (tm : Tm) : List Char := int_str (tm.tm_year + 1900)

def format_y (tm : Tm) : List Char := pad_zero 2 (Int.tmod (tm.tm_year + 1900) 100)

def format_Z (tm : Tm) : List Char :=
  match tm.tm_zone with
  | none => []
  | some z => z.toList

def format_z (tm : Tm) : List Char :=
  let gmtoff := tm.tm_gmtoff
  let sign := if gmtoff > 0 then '+' else '-'
  let m := Int.tdiv (Int.natAbs gmtoff : Int) 60
  let h := Int.tdiv m 60
  let m2 := m - h * 60
  sign :: (pad_zero 2 h ++ pad_zero 2 m2)

/-- `strftime::parse_type`, stratified exactly like the parser: leaves
above, composite arms spelled out as the `#fmt` concatenations they are,
and `alt check`'s escape (an unlisted letter) as `none`.  `ext` supplies
the external `to_timespec().sec` conversion consumed by `%s`. -/
def format_type (ext : Tm → Int) (ch : Char) (tm : Tm) : Option (List Char) :=
  match ch with
  | 'A' => format_A tm
  | 'a' => format_a tm
  | 'B' => format_B tm
  | 'b' => format_b tm
  | 'h' => format_b tm
  | 'C' => some (format_C tm)
  | 'c' =>
    match format_a tm, format_b tm with
    | some xa, some xb =>
      some (xa ++ [' '] ++ xb ++ [' '] ++ format_e tm ++ [' '] ++
            (format_H tm ++ [':'] ++ format_M tm ++ [':'] ++ format_S tm) ++ [' '] ++
            format_Y tm)
    | _, _ => none
  | 'D' => some (format_m tm ++ ['/'] ++ format_d tm ++ ['/'] ++ format_y tm)
  | 'x' => some (format_m tm ++ ['/'] ++ format_d tm ++ ['/'] ++ format_y tm)
  | 'd' => some (format_d tm)
  | 'e' => some (format_e tm)
  | 'F' => some (format_Y tm ++ ['-'] ++ format_m tm ++ ['-'] ++ format_d tm)
  | 'H' => some (format_H tm)
  | 'I' => some (format_I tm)
  | 'j' => some (format_j tm)
  | 'k' => some (format_k tm)
  | 'l' => some (format_l tm)
  | 'M' => some (format_M tm)
  | 'm' => some (format_m tm)
  | 'n' => some ['\n']
  | 'P' => some (format_P tm)
  | 'p' => some (format_p tm)
  | 'R' => some (format_H tm ++ [':'] ++ format_M tm)
  | 'r' =>
    some (format_I tm ++ [':'] ++ format_M tm ++ [':'] ++ format_S tm ++ [' '] ++
          format_p tm)
  | 'S' => some (format_S tm)
  | 's' => some (int_str (ext tm))
  | 'T' => some (format_H tm ++ [':'] ++ format_M tm ++ [':'] ++ format_S tm)
  | 'X' => some (format_H tm ++ [':'] ++ format_M tm ++ [':'] ++ format_S tm)
  | 't' => some ['\t']
  | 'u' => some (format_u tm)
  | 'v' =>
    match format_b tm with
    | some xb => some (format_e tm ++ ['-'] ++ xb ++ ['-'] ++ format_Y tm)
    | none => none
  | 'w' => some (format_w tm)
  | 'Y' => some (format_Y tm)
  | 'y' => some (format_y tm)
  | 'Z' => some (format_Z tm)
  | 'z' => some (format_z tm)
  | '%' => some ['%']
  | _ => none

/-- The `strftime` loop over the format reader. -/
def strftime_go (ext : Tm → Int) : List Char → Tm → Option (List Char)
  | [], _ => some []
  | c :: rest, tm =>
    if c = '%' then
      match rest with
      | [] => none  -- `read_char` at eof feeds `alt check` an invalid char
      | f :: rest2 =>
        match format_type ext f tm with
        | none => none
        | some out =>
          match strftime_go ext rest2 tm with
          | none => none
          | some tail => some (out ++ tail)
    else
      match strftime_go ext rest tm with
      | none => none
      | some out => some (c :: out)

/-- `strftime(format, tm)` (external conversion `ext` threaded for `%s`). -/
def strftime (ext : Tm → Int) (format : List Char) (tm : Tm) : Option (List Char) :=
  strftime_go ext format tm

/-- The specifier letters listed in `strftime::parse_type`'s `alt check`
(the formatting table of the source). -/
def format_table : List Char :=
  ['A', 'a', 'B', 'b', 'h', 'C', 'c', 'D', 'x', 'd', 'e', 'F', 'H', 'I', 'j', 'k', 'l',
   'M', 'm', 'n', 'P', 'p', 'R', 'r', 'S', 's', 'T', 'X', 't', 'u', 'v', 'w', 'Y', 'y',
   'Z', 'z', '%']

/-- A format string in which every `'%'` is followed by a specifier letter
present in the formatting table (the precondition named by the spec for
`strftime`'s totality). -/
def well_formed_format : List Char → Bool
  | [] => true
  | c :: rest =>
    if c = '%' then
      match rest with
      | [] => false
      | f :: rest2 => format_table.contains f && well_formed_format rest2
    else well_formed_format rest

/-- The twelve fields of `Tm`, used to state which fields a specifier
writes. -/
inductive TmField
  | sec | min | hour | mday | mon | year | wday | yday | isdst | gmtoff | zone | nsec
deriving DecidableEq, Repr

/-- `tm_field_eq a b f`: records `a` and `b` agree on field `f`. -/
def tm_field_eq (a b : Tm) : TmField → Prop
  | TmField.sec => a.tm_sec = b.tm_sec
  | TmField.min => a.tm_min = b.tm_min
  | TmField.hour => a.tm_hour = b.tm_hour
  | TmField.mday => a.tm_mday = b.tm_mday
  | TmField.mon => a.tm_mon = b.tm_mon
  | TmField.year => a.tm_year = b.tm_year
  | TmField.wday => a.tm_wday = b.tm_wday
  | TmField.yday => a.tm_yday = b.tm_yday
  | TmField.isdst => a.tm_isdst = b.tm_isdst
  | TmField.gmtoff => a.tm_gmtoff = b.tm_gmtoff
  | TmField.zone => a.tm_zone = b.tm_zone
  | TmField.nsec => a.tm_nsec = b.tm_nsec

/-- The record fields each `strptime::parse_type` arm stores to: exactly
the fields updated by the record-update expressions of that arm of the
source (composite arms take the union of the arms they chain; the `%Z`
and `%z` arms store the offset and the (null) zone pointer). -/
def spec_writes : Char → List TmField
  | 'A' => [TmField.wday]
  | 'a' => [TmField.wday]
  | 'B' => [TmField.mon]
  | 'b' => [TmField.mon]
  | 'h' => [TmField.mon]
  | 'C' => [TmField.year]
  | 'c' => [TmField.wday, TmField.mon, TmField.mday, TmField.hour, TmField.min,
            TmField.sec, TmField.year]
  | 'D' => [TmField.mon, TmField.mday, TmField.year]
  | 'x' => [TmField.mon, TmField.mday, TmField.year]
  | 'd' => [TmField.mday]
  | 'e' => [TmField.mday]
  | 'F' => [TmField.year, TmField.mon, TmField.mday]
  | 'H' => [TmField.hour]
  | 'I' => [TmField.hour]
  | 'j' => [TmField.yday]
  | 'k' => [TmField.hour]
  | 'l' => [TmField.hour]
  | 'M' => [TmField.min]
  | 'm' => [TmField.mon]
  | 'n' => []
  | 'P' => [TmField.hour]
  | 'p' => [TmField.hour]
  | 'R' => [TmField.hour, TmField.min]
  | 'r' => [TmField.hour, TmField.min, TmField.sec]
  | 'S' => [TmField.sec]
  | 'T' => [TmField.hour, TmField.min, TmField.sec]
  | 'X' => [TmField.hour, TmField.min, TmField.sec]
  | 't' => []
  | 'u' => [TmField.wday]
  | 'v' => [TmField.mday, TmField.mon, TmField.year]
  | 'w' => [TmField.wday]
  | 'Y' => [TmField.year]
  | 'y' => [TmField.year]
  | 'Z' => [TmField.gmtoff, TmField.zone]
  | 'z' => [TmField.gmtoff, TmField.zone]
  | _ => []

/-- Which fields the specifiers occurring in a format string may write,
following the main loop's `'%'`-dispatch structure (a letter not preceded
by `'%'` is a literal and writes nothing). -/
def format_writes : List Char → TmField → Bool
  | [], _ => false
  | c :: rest, fl =>
    if c = '%' then
      match rest with
      | [] => false
      | f :: rest2 => decide (fl ∈ spec_writes f) || format_writes rest2 fl
    else format_writes rest fl

/-! ## Lemmas about decimal rendering -/

theorem nat_chars_go_acc (f : Nat) : ∀ (n : Nat) (acc : List Char),
    nat_chars_go f n acc = nat_chars_go f n [] ++ acc := by
  induction f with
  | zero => intro n acc; simp [nat_chars_go]
  | succ f ih =>
    intro n acc
    by_cases h : n < 10
    · simp [nat_chars_go, h]
    · simp only [nat_chars_go, if_neg h]
      rw [ih (n / 10) (digit_char (n % 10) :: acc), ih (n / 10) [digit_char (n % 10)]]
      simp

theorem nat_chars_go_fuel : ∀ (n f : Nat), n < f → nat_chars_go f n [] = nat_chars n := by
  intro n
  induction n using Nat.strong_induction_on with
  | _ n ih =>
    intro f hf
    obtain ⟨f', rfl⟩ : ∃ f', f = f' + 1 := ⟨f - 1, by omega⟩
    by_cases h : n < 10
    · simp [nat_chars_go, nat_chars, h]
    · have hdiv : n / 10 < n := Nat.div_lt_self (by omega) (by omega)
      simp only [nat_chars_go, if_neg h]
      rw [nat_chars_go_acc, ih (n / 10) hdiv f' (by omega)]
      conv_rhs => rw [nat_chars]
      simp only [nat_chars_go, if_neg h]
      rw [nat_chars_go_acc, ih (n / 10) hdiv n (by omega)]

theorem nat_chars_unfold (n : Nat) :
    nat_chars n = if n < 10 then [digit_char n]
                  else nat_chars (n / 10) ++ [digit_char (n % 10)] := by
  by_cases h : n < 10
  · simp [nat_chars, nat_chars_go, h]
  · have hdiv : n / 10 < n := Nat.div_lt_self (by omega) (by omega)
    rw [nat_chars]
    simp only [nat_chars_go, if_neg h, if_neg h]
    rw [nat_chars_go_acc, nat_chars_go_fuel (n / 10) n (by omega)]

theorem nat_chars_one {n : Nat} (h : n < 10) : nat_chars n = [digit_char n] := by
  rw [nat_chars_unfold, if_pos h]

theorem nat_chars_two {n : Nat} (h1 : 10 ≤ n) (h2 : n < 100) :
    nat_chars n = [digit_char (n / 10), digit_char (n % 10)] := by
  rw [nat_chars_unfold, if_neg (by omega), nat_chars_one (by omega)]
  simp

theorem nat_chars_three {n : Nat} (h1 : 100 ≤ n) (h2 : n < 1000) :
    nat_chars n = [digit_char (n / 100), digit_char (n / 10 % 10), digit_char (n % 10)] := by
  rw [nat_chars_unfold, if_neg (by omega)]
  have e10 : 10 ≤ n / 10 := by omega
  have e99 : n / 10 < 100 := by omega
  rw [nat_chars_two e10 e99, Nat.div_div_eq_div_mul]
  simp

theorem nat_chars_four {n : Nat} (h1 : 1000 ≤ n) (h2 : n < 10000) :
    nat_chars n = [digit_char (n / 1000), digit_char (n / 100 % 10),
                   digit_char (n / 10 % 10), digit_char (n % 10)] := by
  rw [nat_chars_unfold, if_neg (by omega)]
  have e1 : 100 ≤ n / 10 := by omega
  have e2 : n / 10 < 1000 := by omega
  rw [nat_chars_three e1 e2, Nat.div_div_eq_div_mul, Nat.div_div_eq_div_mul]
  simp

theorem digit_char_toNat : ∀ x : Nat, x < 10 → (digit_char x).toNat = 48 + x := by decide

theorem digit_char_is_digit : ∀ x : Nat, x < 10 → '0' ≤ digit_char x ∧ digit_char x ≤ '9' := by
  decide

theorem pad_zero_two {n : Nat} (h : n < 100) :
    pad_zero 2 (n : Int) = [digit_char (n / 10), digit_char (n % 10)] := by
  have hn : ¬ ((n : Int) < 0) := by omega
  rw [pad_zero, if_neg hn, Int.toNat_natCast]
  by_cases h10 : n < 10
  · rw [nat_chars_one h10]
    have e1 : n / 10 = 0 := by omega
    have e2 : n % 10 = n := by omega
    simp [e1, e2, List.replicate]
    decide
  · rw [nat_chars_two (by omega) h]
    simp

theorem pad_zero_three {n : Nat} (h : n < 1000) :
    pad_zero 3 (n : Int) = [digit_char (n / 100), digit_char (n / 10 % 10),
                            digit_char (n % 10)] := by
  have hn : ¬ ((n : Int) < 0) := by omega
  rw [pad_zero, if_neg hn, Int.toNat_natCast]
  by_cases h10 : n < 10
  · rw [nat_chars_one h10]
    have e1 : n / 100 = 0 := by omega
    have e2 : n / 10 % 10 = 0 := by omega
    have e3 : n % 10 = n := by omega
    simp [e1, e2, e3, List.replicate]
    decide
  · by_cases h100 : n < 100
    · rw [nat_chars_two (by omega) h100]
      have e1 : n / 100 = 0 := by omega
      have e2 : n / 10 % 10 = n / 10 := by omega
      simp [e1, e2, List.replicate]
      decide
    · rw [nat_chars_three (by omega) h]
      simp

theorem pad_space_two_small {n : Nat} (h : n < 10) :
    pad_space 2 (n : Int) = [' ', digit_char n] := by
  rw [pad_space, int_str, if_neg (by omega : ¬ ((n : Int) < 0)), Int.toNat_natCast,
      nat_chars_one h]
  simp [List.replicate]

theorem pad_space_two_large {n : Nat} (h1 : 10 ≤ n) (h2 : n < 100) :
    pad_space 2 (n : Int) = [digit_char (n / 10), digit_char (n % 10)] := by
  rw [pad_space, int_str, if_neg (by omega : ¬ ((n : Int) < 0)), Int.toNat_natCast,
      nat_chars_two h1 h2]
  simp

/-! ## Lemmas about `match_digits` -/

theorem match_digits_go_step_digit {s : List Char} {ws : Bool} {p : Nat} {v : Int} {d : Nat}
    {c : Char} (hc : char_range_at s p = some c) (h0 : '0' ≤ c) (h9 : c ≤ '9') :
    match_digits_go s ws p v (d + 1) =
      match_digits_go s ws (p + 1) (v * 10 + ((c.toNat : Int) - ('0'.toNat : Int))) d := by
  simp [match_digits_go, hc, h0, h9]

theorem match_digits_go_step_blank {s : List Char} {p : Nat} {v : Int} {d : Nat}
    (hc : char_range_at s p = some ' ') :
    match_digits_go s true p v (d + 1) = match_digits_go s true (p + 1) v d := by
  have : ¬ ('0' ≤ ' ' ∧ ' ' ≤ '9') := by decide
  simp [match_digits_go, hc, this]

/-- `match_digits` advances the cursor by exactly the requested width on
success (every iteration advances by one). -/
theorem match_digits_go_pos {s : List Char} {ws : Bool} : ∀ {d p v v' p'},
    match_digits_go s ws p v d = some (some (v', p')) → p' = p + d := by
  intro d
  induction d with
  | zero => intro p v v' p' h; simp [match_digits_go] at h; omega
  | succ d ih =>
    intro p v v' p' h
    rw [match_digits_go] at h
    match hc : char_range_at s p with
    | none => rw [hc] at h; simp at h
    | some ch =>
      rw [hc] at h
      simp only at h
      split at h
      · have := ih h; omega
      · split at h
        · have := ih h; omega
        · simp at h

theorem match_digits_pos {s : List Char} {pos digits : Nat} {ws : Bool} {v : Int} {p : Nat}
    (h : match_digits s pos digits ws = some (some (v, p))) : p = pos + digits :=
  match_digits_go_pos h

/-- Shifting a digit scan across a fixed prefix. -/
theorem match_digits_go_shift (xs ys : List Char) (ws : Bool) : ∀ (d : Nat) (p : Nat) (v : Int),
    match_digits_go (xs ++ ys) ws (xs.length + p) v d =
      (match_digits_go ys ws p v d).map (Option.map (fun q => (q.1, xs.length + q.2))) := by
  intro d
  induction d with
  | zero => intro p v; simp [match_digits_go]
  | succ d ih =>
    intro p v
    have hg : char_range_at (xs ++ ys) (xs.length + p) = char_range_at ys p := by
      rw [char_range_at, char_range_at, List.get?_eq_getElem?, List.get?_eq_getElem?,
          List.getElem?_append_right (by omega)]
      congr 1
      omega
    rw [match_digits_go, match_digits_go, hg]
    match hc : char_range_at ys p with
    | none => simp
    | some ch =>
      simp only
      split
      · rw [show xs.length + p + 1 = xs.length + (p + 1) by omega, ih]
      · split
        · rw [show xs.length + p + 1 = xs.length + (p + 1) by omega, ih]
        · simp

theorem match_digits_shift (xs ys : List Char) (k digits : Nat) (ws : Bool)
    (hk : xs.length = k) :
    match_digits (xs ++ ys) k digits ws =
      (match_digits ys 0 digits ws).map (Option.map (fun q => (q.1, k + q.2))) := by
  subst hk
  rw [match_digits, match_digits,
      show xs.length = xs.length + 0 by omega, match_digits_go_shift]
  simp

/-- Parsing back a two-digit zero-padded field recovers the value, regardless
of what follows. -/
theorem match_digits_pad_zero_two {n : Nat} (h : n < 100) (r : List Char) :
    match_digits (pad_zero 2 (n : Int) ++ r) 0 2 false = some (some ((n : Int), 2)) := by
  rw [pad_zero_two h]
  have d1 : n / 10 < 10 := by omega
  have d2 : n % 10 < 10 := by omega
  have e0 : char_range_at (digit_char (n / 10) :: digit_char (n % 10) :: r) 0 = some (digit_char (n / 10)) := rfl
  have e1 : char_range_at (digit_char (n / 10) :: digit_char (n % 10) :: r) 1 = some (digit_char (n % 10)) := rfl
  rw [match_digits, List.cons_append, List.cons_append, List.nil_append,
      match_digits_go_step_digit e0 (digit_char_is_digit _ d1).1 (digit_char_is_digit _ d1).2,
      match_digits_go_step_digit e1 (digit_char_is_digit _ d2).1 (digit_char_is_digit _ d2).2,
      match_digits_go]
  rw [digit_char_toNat _ d1, digit_char_toNat _ d2]
  have hv : ((0 : Int) * 10 + (((48 + n / 10 : Nat) : Int) - ('0'.toNat : Int))) * 10 +
      (((48 + n % 10 : Nat) : Int) - ('0'.toNat : Int)) = (n : Int) := by
    have k1 := Nat.div_add_mod n 10
    have : ('0'.toNat : Int) = 48 := by decide
    rw [this]
    push_cast
    omega
  rw [hv]

/-- Parsing back a two-digit space-padded field (`ws = true`). -/
theorem match_digits_pad_space_two {n : Nat} (h : n < 100) (r : List Char) :
    match_digits (pad_space 2 (n : Int) ++ r) 0 2 true = some (some ((n : Int), 2)) := by
  by_cases h10 : n < 10
  · rw [pad_space_two_small h10]
    have e0 : char_range_at ((' ' : Char) :: digit_char n :: r) 0 = some ' ' := rfl
    have e1 : char_range_at ((' ' : Char) :: digit_char n :: r) 1 = some (digit_char n) := rfl
    rw [match_digits, List.cons_append, List.cons_append, List.nil_append,
        match_digits_go_step_blank e0,
        match_digits_go_step_digit e1 (digit_char_is_digit _ h10).1 (digit_char_is_digit _ h10).2,
        match_digits_go]
    rw [digit_char_toNat _ h10]
    have hv : (0 : Int) * 10 + (((48 + n : Nat) : Int) - ('0'.toNat : Int)) = (n : Int) := by
      have : ('0'.toNat : Int) = 48 := by decide
      rw [this]; push_cast; omega
    rw [hv]
  · rw [pad_space_two_large (by omega) h]
    have d1 : n / 10 < 10 := by omega
    have d2 : n % 10 < 10 := by omega
    have e0 : char_range_at (digit_char (n / 10) :: digit_char (n % 10) :: r) 0 = some (digit_char (n / 10)) := rfl
    have e1 : char_range_at (digit_char (n / 10) :: digit_char (n % 10) :: r) 1 = some (digit_char (n % 10)) := rfl
    rw [match_digits, List.cons_append, List.cons_append, List.nil_append,
        match_digits_go_step_digit e0 (digit_char_is_digit _ d1).1 (digit_char_is_digit _ d1).2,
        match_digits_go_step_digit e1 (digit_char_is_digit _ d2).1 (digit_char_is_digit _ d2).2,
        match_digits_go]
    rw [digit_char_toNat _ d1, digit_char_toNat _ d2]
    have hv : ((0 : Int) * 10 + (((48 + n / 10 : Nat) : Int) - ('0'.toNat : Int))) * 10 +
        (((48 + n % 10 : Nat) : Int) - ('0'.toNat : Int)) = (n : Int) := by
      have k1 := Nat.div_add_mod n 10
      have : ('0'.toNat : Int) = 48 := by decide
      rw [this]; push_cast; omega
    rw [hv]

/-- Parsing back a three-digit zero-padded field. -/
theorem match_digits_pad_zero_three {n : Nat} (h : n < 1000) (r : List Char) :
    match_digits (pad_zero 3 (n : Int) ++ r) 0 3 false = some (some ((n : Int), 3)) := by
  rw [pad_zero_three h]
  have d1 : n / 100 < 10 := by omega
  have d2 : n / 10 % 10 < 10 := by omega
  have d3 : n % 10 < 10 := by omega
  have e0 : char_range_at (digit_char (n / 100) :: digit_char (n / 10 % 10) :: digit_char (n % 10) :: r) 0
      = some (digit_char (n / 100)) := rfl
  have e1 : char_range_at (digit_char (n / 100) :: digit_char (n / 10 % 10) :: digit_char (n % 10) :: r) 1
      = some (digit_char (n / 10 % 10)) := rfl
  have e2 : char_range_at (digit_char (n / 100) :: digit_char (n / 10 % 10) :: digit_char (n % 10) :: r) 2
      = some (digit_char (n % 10)) := rfl
  rw [match_digits, List.cons_append, List.cons_append, List.cons_append, List.nil_append,
      match_digits_go_step_digit e0 (digit_char_is_digit _ d1).1 (digit_char_is_digit _ d1).2,
      match_digits_go_step_digit e1 (digit_char_is_digit _ d2).1 (digit_char_is_digit _ d2).2,
      match_digits_go_step_digit e2 (digit_char_is_digit _ d3).1 (digit_char_is_digit _ d3).2,
      match_digits_go]
  rw [digit_char_toNat _ d1, digit_char_toNat _ d2, digit_char_toNat _ d3]
  have hv : (((0 : Int) * 10 + (((48 + n / 100 : Nat) : Int) - ('0'.toNat : Int))) * 10 +
      (((48 + n / 10 % 10 : Nat) : Int) - ('0'.toNat : Int))) * 10 +
      (((48 + n % 10 : Nat) : Int) - ('0'.toNat : Int)) = (n : Int) := by
    have k1 := Nat.div_add_mod n 10
    have k2 := Nat.div_add_mod (n / 10) 10
    have e : n / 10 / 10 = n / 100 := by rw [Nat.div_div_eq_div_mul]
    have : ('0'.toNat : Int) = 48 := by decide
    rw [this]; push_cast; omega
  rw [hv]

/-- Parsing back a four-digit year rendered by `int::str`. -/
theorem match_digits_nat_four {n : Nat} (h1 : 1000 ≤ n) (h2 : n < 10000) (r : List Char) :
    match_digits (nat_chars n ++ r) 0 4 false = some (some ((n : Int), 4)) := by
  rw [nat_chars_four h1 h2]
  have d1 : n / 1000 < 10 := by omega
  have d2 : n / 100 % 10 < 10 := by omega
  have d3 : n / 10 % 10 < 10 := by omega
  have d4 : n % 10 < 10 := by omega
  have e0 : char_range_at (digit_char (n / 1000) :: digit_char (n / 100 % 10) :: digit_char (n / 10 % 10) ::
      digit_char (n % 10) :: r) 0 = some (digit_char (n / 1000)) := rfl
  have e1 : char_range_at (digit_char (n / 1000) :: digit_char (n / 100 % 10) :: digit_char (n / 10 % 10) ::
      digit_char (n % 10) :: r) 1 = some (digit_char (n / 100 % 10)) := rfl
  have e2 : char_range_at (digit_char (n / 1000) :: digit_char (n / 100 % 10) :: digit_char (n / 10 % 10) ::
      digit_char (n % 10) :: r) 2 = some (digit_char (n / 10 % 10)) := rfl
  have e3 : char_range_at (digit_char (n / 1000) :: digit_char (n / 100 % 10) :: digit_char (n / 10 % 10) ::
      digit_char (n % 10) :: r) 3 = some (digit_char (n % 10)) := rfl
  rw [match_digits, List.cons_append, List.cons_append, List.cons_append, List.cons_append,
      List.nil_append,
      match_digits_go_step_digit e0 (digit_char_is_digit _ d1).1 (digit_char_is_digit _ d1).2,
      match_digits_go_step_digit e1 (digit_char_is_digit _ d2).1 (digit_char_is_digit _ d2).2,
      match_digits_go_step_digit e2 (digit_char_is_digit _ d3).1 (digit_char_is_digit _ d3).2,
      match_digits_go_step_digit e3 (digit_char_is_digit _ d4).1 (digit_char_is_digit _ d4).2,
      match_digits_go]
  rw [digit_char_toNat _ d1, digit_char_toNat _ d2, digit_char_toNat _ d3, digit_char_toNat _ d4]
  have hv : ((((0 : Int) * 10 + (((48 + n / 1000 : Nat) : Int) - ('0'.toNat : Int))) * 10 +
      (((48 + n / 100 % 10 : Nat) : Int) - ('0'.toNat : Int))) * 10 +
      (((48 + n / 10 % 10 : Nat) : Int) - ('0'.toNat : Int))) * 10 +
      (((48 + n % 10 : Nat) : Int) - ('0'.toNat : Int)) = (n : Int) := by
    have k1 := Nat.div_add_mod n 10
    have k2 := Nat.div_add_mod (n / 10) 10
    have k3 := Nat.div_add_mod (n / 100) 10
    have e1 : n / 10 / 10 = n / 100 := by rw [Nat.div_div_eq_div_mul]
    have e2 : n / 100 / 10 = n / 1000 := by rw [Nat.div_div_eq_div_mul]
    have : ('0'.toNat : Int) = 48 := by decide
    rw [this]; push_cast; omega
  rw [hv]

/-! ## Length and positioning helpers for round-trip proofs -/

theorem pad_zero_two_length {n : Nat} (h : n < 100) : (pad_zero 2 (n : Int)).length = 2 := by
  rw [pad_zero_two h]; rfl

theorem pad_space_two_length {n : Nat} (h : n < 100) : (pad_space 2 (n : Int)).length = 2 := by
  by_cases h10 : n < 10
  · rw [pad_space_two_small h10]; rfl
  · rw [pad_space_two_large (by omega) h]; rfl

theorem pad_zero_three_length {n : Nat} (h : n < 1000) : (pad_zero 3 (n : Int)).length = 3 := by
  rw [pad_zero_three h]; rfl

theorem nat_chars_four_length {n : Nat} (h1 : 1000 ≤ n) (h2 : n < 10000) :
    (nat_chars n).length = 4 := by
  rw [nat_chars_four h1 h2]; rfl

theorem int_str_nat (n : Nat) : int_str (n : Int) = nat_chars n := by
  rw [int_str, if_neg (by omega : ¬ ((n : Int) < 0)), Int.toNat_natCast]

/-- The character sitting right after a prefix of known length. -/
theorem char_range_at_sep (xs ys : List Char) (c : Char) (k : Nat) (hk : xs.length = k) :
    char_range_at (xs ++ (c :: ys)) k = some c := by
  subst hk
  rw [char_range_at, List.get?_eq_getElem?, List.getElem?_append_right (le_refl _)]
  simp

theorem match_digits_at2 (xs ys : List Char) (k : Nat) (hk : xs.length = k) {n : Nat}
    (hn : n < 100) :
    match_digits (xs ++ (pad_zero 2 (n : Int) ++ ys)) k 2 false =
      some (some ((n : Int), k + 2)) := by
  rw [match_digits_shift xs _ k 2 false hk, match_digits_pad_zero_two hn]
  rfl

theorem match_digits_at2s (xs ys : List Char) (k : Nat) (hk : xs.length = k) {n : Nat}
    (hn : n < 100) :
    match_digits (xs ++ (pad_space 2 (n : Int) ++ ys)) k 2 true =
      some (some ((n : Int), k + 2)) := by
  rw [match_digits_shift xs _ k 2 true hk, match_digits_pad_space_two hn]
  rfl

theorem match_digits_at4 (xs ys : List Char) (k : Nat) (hk : xs.length = k) {n : Nat}
    (h1 : 1000 ≤ n) (h2 : n < 10000) :
    match_digits (xs ++ (nat_chars n ++ ys)) k 4 false =
      some (some ((n : Int), k + 4)) := by
  rw [match_digits_shift xs _ k 4 false hk, match_digits_nat_four h1 h2]
  rfl

/-- Parsing back a single rendered digit (`%w`-style one-digit fields). -/
theorem match_digits_digit1 {n : Nat} (h : n < 10) (r : List Char) :
    match_digits (digit_char n :: r) 0 1 false = some (some ((n : Int), 1)) := by
  have e0 : char_range_at (digit_char n :: r) 0 = some (digit_char n) := rfl
  rw [match_digits,
      match_digits_go_step_digit e0 (digit_char_is_digit _ h).1 (digit_char_is_digit _ h).2,
      match_digits_go]
  rw [digit_char_toNat _ h]
  have hv : (0 : Int) * 10 + (((48 + n : Nat) : Int) - ('0'.toNat : Int)) = (n : Int) := by
    have : ('0'.toNat : Int) = 48 := by decide
    rw [this]; push_cast; omega
  rw [hv]

/-! ## Shifting name matching across a prefix -/

theorem match_str_shift (xs ys : List Char) : ∀ (needle : List Char) (p : Nat),
    match_str (xs ++ ys) (xs.length + p) needle = match_str ys p needle := by
  intro needle
  induction needle with
  | nil => intro p; simp [match_str]
  | cons c rest ih =>
    intro p
    have hg : char_range_at (xs ++ ys) (xs.length + p) = char_range_at ys p := by
      rw [char_range_at, char_range_at, List.get?_eq_getElem?, List.get?_eq_getElem?,
          List.getElem?_append_right (by omega)]
      congr 1
      omega
    rw [match_str, match_str, hg]
    match char_range_at ys p with
    | none => rfl
    | some c2 =>
      simp only
      split
      · rfl
      · rw [show xs.length + p + 1 = xs.length + (p + 1) by omega, ih]

theorem match_strs_shift (xs ys : List Char) (p : Nat) :
    ∀ tbl : List (List Char × Int),
      match_strs (xs ++ ys) (xs.length + p) tbl =
        (match_strs ys p tbl).map (Option.map (fun q => (q.1, xs.length + q.2))) := by
  intro tbl
  induction tbl with
  | nil => simp [match_strs]
  | cons hd rest ih =>
    obtain ⟨needle, value⟩ := hd
    rw [match_strs, match_strs, match_str_shift]
    match match_str ys p needle with
    | none => rfl
    | some true => simp; omega
    | some false => simpa using ih

theorem match_strs_at (xs ys nm : List Char) (tbl : List (List Char × Int)) (k : Nat)
    (hk : xs.length = k) (v : Int) (L : Nat)
    (h : match_strs (nm ++ ys) 0 tbl = some (some (v, L))) :
    match_strs (xs ++ (nm ++ ys)) k tbl = some (some (v, k + L)) := by
  subst hk
  rw [show xs.length = xs.length + 0 by omega, match_strs_shift, h]
  rfl

/-! ## The fixed name tables round-trip, with arbitrary trailing input -/

theorem abbrev_wday_rt (tm : Tm) (w : Nat) (hw : w < 7) (htm : tm.tm_wday = (w : Int)) :
    ∃ nm : List Char, format_a tm = some nm ∧ nm.length = 3 ∧
      ∀ r, match_strs (nm ++ r) 0 weekdays_abbrev = some (some ((w : Int), 3)) := by
  interval_cases w
  · exact ⟨"Sun".toList, by simp [format_a, htm], rfl, fun r => rfl⟩
  · exact ⟨"Mon".toList, by simp [format_a, htm], rfl, fun r => rfl⟩
  · exact ⟨"Tue".toList, by simp [format_a, htm], rfl, fun r => rfl⟩
  · exact ⟨"Wed".toList, by simp [format_a, htm], rfl, fun r => rfl⟩
  · exact ⟨"Thu".toList, by simp [format_a, htm], rfl, fun r => rfl⟩
  · exact ⟨"Fri".toList, by simp [format_a, htm], rfl, fun r => rfl⟩
  · exact ⟨"Sat".toList, by simp [format_a, htm], rfl, fun r => rfl⟩

theorem abbrev_mon_rt (tm : Tm) (mo : Nat) (hmo : mo < 12) (htm : tm.tm_mon = (mo : Int)) :
    ∃ nm : List Char, format_b tm = some nm ∧ nm.length = 3 ∧
      ∀ r, match_strs (nm ++ r) 0 months_abbrev = some (some ((mo : Int), 3)) := by
  interval_cases mo
  · exact ⟨"Jan".toList, by simp [format_b, htm], rfl, fun r => rfl⟩
  · exact ⟨"Feb".toList, by simp [format_b, htm], rfl, fun r => rfl⟩
  · exact ⟨"Mar".toList, by simp [format_b, htm], rfl, fun r => rfl⟩
  · exact ⟨"Apr".toList, by simp [format_b, htm], rfl, fun r => rfl⟩
  · exact ⟨"May".toList, by simp [format_b, htm], rfl, fun r => rfl⟩
  · exact ⟨"Jun".toList, by simp [format_b, htm], rfl, fun r => rfl⟩
  · exact ⟨"Jul".toList, by simp [format_b, htm], rfl, fun r => rfl⟩
  · exact ⟨"Aug".toList, by simp [format_b, htm], rfl, fun r => rfl⟩
  · exact ⟨"Sep".toList, by simp [format_b, htm], rfl, fun r => rfl⟩
  · exact ⟨"Oct".toList, by simp [format_b, htm], rfl, fun r => rfl⟩
  · exact ⟨"Nov".toList, by simp [format_b, htm], rfl, fun r => rfl⟩
  · exact ⟨"Dec".toList, by simp [format_b, htm], rfl, fun r => rfl⟩

theorem full_wday_rt (tm : Tm) (w : Nat) (hw : w < 7) (htm : tm.tm_wday = (w : Int)) :
    ∃ nm : List Char, format_A tm = some nm ∧ 0 < nm.length ∧
      ∀ r, match_strs (nm ++ r) 0 weekdays_full = some (some ((w : Int), nm.length)) := by
  interval_cases w
  · exact ⟨"Sunday".toList, by simp [format_A, htm], by decide, fun r => rfl⟩
  · exact ⟨"Monday".toList, by simp [format_A, htm], by decide, fun r => rfl⟩
  · exact ⟨"Tuesday".toList, by simp [format_A, htm], by decide, fun r => rfl⟩
  · exact ⟨"Wednesday".toList, by simp [format_A, htm], by decide, fun r => rfl⟩
  · exact ⟨"Thursday".toList, by simp [format_A, htm], by decide, fun r => rfl⟩
  · exact ⟨"Friday".toList, by simp [format_A, htm], by decide, fun r => rfl⟩
  · exact ⟨"Saturday".toList, by simp [format_A, htm], by decide, fun r => rfl⟩

theorem full_mon_rt (tm : Tm) (mo : Nat) (hmo : mo < 12) (htm : tm.tm_mon = (mo : Int)) :
    ∃ nm : List Char, format_B tm = some nm ∧ 0 < nm.length ∧
      ∀ r, match_strs (nm ++ r) 0 months_full = some (some ((mo : Int), nm.length)) := by
  interval_cases mo
  · exact ⟨"January".toList, by simp [format_B, htm], by decide, fun r => rfl⟩
  · exact ⟨"February".toList, by simp [format_B, htm], by decide, fun r => rfl⟩
  · exact ⟨"March".toList, by simp [format_B, htm], by decide, fun r => rfl⟩
  · exact ⟨"April".toList, by simp [format_B, htm], by decide, fun r => rfl⟩
  · exact ⟨"May".toList, by simp [format_B, htm], by decide, fun r => rfl⟩
  · exact ⟨"June".toList, by simp [format_B, htm], by decide, fun r => rfl⟩
  · exact ⟨"July".toList, by simp [format_B, htm], by decide, fun r => rfl⟩
  · exact ⟨"August".toList, by simp [format_B, htm], by decide, fun r => rfl⟩
  · exact ⟨"September".toList, by simp [format_B, htm], by decide, fun r => rfl⟩
  · exact ⟨"October".toList, by simp [format_B, htm], by decide, fun r => rfl⟩
  · exact ⟨"November".toList, by simp [format_B, htm], by decide, fun r => rfl⟩
  · exact ⟨"December".toList, by simp [format_B, htm], by decide, fun r => rfl⟩

theorem match_strs_AM (r : List Char) :
    match_strs ("AM".toList ++ r) 0 ampm_upper = some (some (0, 2)) := rfl

theorem match_strs_PM (r : List Char) :
    match_strs ("PM".toList ++ r) 0 ampm_upper = some (some (12, 2)) := rfl

/-! ## Round-trip: numeric leaf specifiers (parse side at position 0) -/

theorem rt_H_core {n : Nat} (h : n < 100) :
    strptime (pad_zero 2 (n : Int)) ['%', 'H'] =
      some (Except.ok { empty_tm with tm_hour := (n : Int) }) := by
  have e : match_digits (pad_zero 2 (n : Int)) 0 2 false = some (some ((n : Int), 2)) := by
    simpa using match_digits_pad_zero_two h []
  have hlen := pad_zero_two_length h
  simp [strptime, strptime_loop, parse_type, parse_H, e, hlen]

theorem rt_M_core {n : Nat} (h : n < 100) :
    strptime (pad_zero 2 (n : Int)) ['%', 'M'] =
      some (Except.ok { empty_tm with tm_min := (n : Int) }) := by
  have e : match_digits (pad_zero 2 (n : Int)) 0 2 false = some (some ((n : Int), 2)) := by
    simpa using match_digits_pad_zero_two h []
  have hlen := pad_zero_two_length h
  simp [strptime, strptime_loop, parse_type, parse_M, e, hlen]

theorem rt_S_core {n : Nat} (h : n < 100) :
    strptime (pad_zero 2 (n : Int)) ['%', 'S'] =
      some (Except.ok { empty_tm with tm_sec := (n : Int) }) := by
  have e : match_digits (pad_zero 2 (n : Int)) 0 2 false = some (some ((n : Int), 2)) := by
    simpa using match_digits_pad_zero_two h []
  have hlen := pad_zero_two_length h
  simp [strptime, strptime_loop, parse_type, parse_S, e, hlen]

theorem rt_d_core {n : Nat} (h : n < 100) :
    strptime (pad_zero 2 (n : Int)) ['%', 'd'] =
      some (Except.ok { empty_tm with tm_mday := (n : Int) }) := by
  have e : match_digits (pad_zero 2 (n : Int)) 0 2 false = some (some ((n : Int), 2)) := by
    simpa using match_digits_pad_zero_two h []
  have hlen := pad_zero_two_length h
  simp [strptime, strptime_loop, parse_type, parse_d, e, hlen]

theorem rt_e_core {n : Nat} (h : n < 100) :
    strptime (pad_space 2 (n : Int)) ['%', 'e'] =
      some (Except.ok { empty_tm with tm_mday := (n : Int) }) := by
  have e : match_digits (pad_space 2 (n : Int)) 0 2 true = some (some ((n : Int), 2)) := by
    simpa using match_digits_pad_space_two h []
  have hlen := pad_space_two_length h
  simp [strptime, strptime_loop, parse_type, parse_e, e, hlen]

theorem rt_k_core {n : Nat} (h : n < 100) :
    strptime (pad_space 2 (n : Int)) ['%', 'k'] =
      some (Except.ok { empty_tm with tm_hour := (n : Int) }) := by
  have e : match_digits (pad_space 2 (n : Int)) 0 2 true = some (some ((n : Int), 2)) := by
    simpa using match_digits_pad_space_two h []
  have hlen := pad_space_two_length h
  simp [strptime, strptime_loop, parse_type, parse_k, e, hlen]

theorem rt_m_core {n : Nat} (h : n < 99) :
    strptime (pad_zero 2 ((n : Int) + 1)) ['%', 'm'] =
      some (Except.ok { empty_tm with tm_mon := (n : Int) }) := by
  have hc : ((n + 1 : Nat) : Int) = (n : Int) + 1 := by push_cast; ring
  have e : match_digits (pad_zero 2 ((n : Int) + 1)) 0 2 false =
      some (some ((n : Int) + 1, 2)) := by
    have := @match_digits_pad_zero_two (n + 1) (by omega) []
    rw [hc] at this
    simpa using this
  have hlen : (pad_zero 2 ((n : Int) + 1)).length = 2 := by
    have := @pad_zero_two_length (n + 1) (by omega)
    rwa [hc] at this
  have hv : ((n : Int) + 1) - 1 = (n : Int) := by omega
  simp [strptime, strptime_loop, parse_type, parse_m, e, hlen, hv]

theorem rt_j_core {n : Nat} (h : n < 999) :
    strptime (pad_zero 3 ((n : Int) + 1)) ['%', 'j'] =
      some (Except.ok { empty_tm with tm_yday := (n : Int) }) := by
  have hc : ((n + 1 : Nat) : Int) = (n : Int) + 1 := by push_cast; ring
  have e : match_digits (pad_zero 3 ((n : Int) + 1)) 0 3 false =
      some (some ((n : Int) + 1, 3)) := by
    have := @match_digits_pad_zero_three (n + 1) (by omega) []
    rw [hc] at this
    simpa using this
  have hlen : (pad_zero 3 ((n : Int) + 1)).length = 3 := by
    have := @pad_zero_three_length (n + 1) (by omega)
    rwa [hc] at this
  have hv : ((n : Int) + 1) - 1 = (n : Int) := by omega
  simp [strptime, strptime_loop, parse_type, parse_j, e, hlen, hv]

theorem rt_w_core {n : Nat} (h : n < 10) :
    strptime [digit_char n] ['%', 'w'] =
      some (Except.ok { empty_tm with tm_wday := (n : Int) }) := by
  have e : match_digits [digit_char n] 0 1 false = some (some ((n : Int), 1)) :=
    match_digits_digit1 h []
  simp [strptime, strptime_loop, parse_type, parse_w, e]

theorem rt_Y_core {n : Nat} (h1 : 1000 ≤ n) (h2 : n < 10000) :
    strptime (nat_chars n) ['%', 'Y'] =
      some (Except.ok { empty_tm with tm_year := (n : Int) - 1900 }) := by
  have e : match_digits (nat_chars n) 0 4 false = some (some ((n : Int), 4)) := by
    simpa using match_digits_nat_four h1 h2 []
  have hlen := nat_chars_four_length h1 h2
  simp [strptime, strptime_loop, parse_type, parse_Y, e, hlen]

/-! ## Round-trip: full format-then-parse lemmas for leaf specifiers -/

theorem roundtrip_A (ext : Tm → Int) (t : Tm) (h1 : 0 ≤ t.tm_wday) (h2 : t.tm_wday < 7) :
    (strftime ext "%A".toList t).bind (fun out => strptime out "%A".toList) =
      some (Except.ok { empty_tm with tm_wday := t.tm_wday }) := by
  obtain ⟨w, hw, hlt⟩ : ∃ w : Nat, t.tm_wday = (w : Int) ∧ w < 7 :=
    ⟨t.tm_wday.toNat, by omega, by omega⟩
  obtain ⟨nm, hfa, hpos, hms⟩ := full_wday_rt t w hlt hw
  have hf : strftime ext "%A".toList t = some nm := by
    simp [strftime, strftime_go, format_type, hfa]
  rw [hf, Option.some_bind, hw]
  have e : match_strs nm 0 weekdays_full = some (some ((w : Int), nm.length)) := by
    simpa using hms []
  simp [strptime, strptime_loop, parse_type, parse_A, e, hpos]

theorem roundtrip_a (ext : Tm → Int) (t : Tm) (h1 : 0 ≤ t.tm_wday) (h2 : t.tm_wday < 7) :
    (strftime ext "%a".toList t).bind (fun out => strptime out "%a".toList) =
      some (Except.ok { empty_tm with tm_wday := t.tm_wday }) := by
  obtain ⟨w, hw, hlt⟩ : ∃ w : Nat, t.tm_wday = (w : Int) ∧ w < 7 :=
    ⟨t.tm_wday.toNat, by omega, by omega⟩
  obtain ⟨nm, hfa, hlen, hms⟩ := abbrev_wday_rt t w hlt hw
  have hf : strftime ext "%a".toList t = some nm := by
    simp [strftime, strftime_go, format_type, hfa]
  rw [hf, Option.some_bind, hw]
  have e : match_strs nm 0 weekdays_abbrev = some (some ((w : Int), 3)) := by
    simpa using hms []
  simp [strptime, strptime_loop, parse_type, parse_a, e, hlen]

theorem roundtrip_B (ext : Tm → Int) (t : Tm) (h1 : 0 ≤ t.tm_mon) (h2 : t.tm_mon < 12) :
    (strftime ext "%B".toList t).bind (fun out => strptime out "%B".toList) =
      some (Except.ok { empty_tm with tm_mon := t.tm_mon }) := by
  obtain ⟨mo, hmo, hlt⟩ : ∃ mo : Nat, t.tm_mon = (mo : Int) ∧ mo < 12 :=
    ⟨t.tm_mon.toNat, by omega, by omega⟩
  obtain ⟨nm, hfb, hpos, hms⟩ := full_mon_rt t mo hlt hmo
  have hf : strftime ext "%B".toList t = some nm := by
    simp [strftime, strftime_go, format_type, hfb]
  rw [hf, Option.some_bind, hmo]
  have e : match_strs nm 0 months_full = some (some ((mo : Int), nm.length)) := by
    simpa using hms []
  simp [strptime, strptime_loop, parse_type, parse_B, e, hpos]

theorem roundtrip_b (ext : Tm → Int) (t : Tm) (h1 : 0 ≤ t.tm_mon) (h2 : t.tm_mon < 12) :
    (strftime ext "%b".toList t).bind (fun out => strptime out "%b".toList) =
      some (Except.ok { empty_tm with tm_mon := t.tm_mon }) := by
  obtain ⟨mo, hmo, hlt⟩ : ∃ mo : Nat, t.tm_mon = (mo : Int) ∧ mo < 12 :=
    ⟨t.tm_mon.toNat, by omega, by omega⟩
  obtain ⟨nm, hfb, hlen, hms⟩ := abbrev_mon_rt t mo hlt hmo
  have hf : strftime ext "%b".toList t = some nm := by
    simp [strftime, strftime_go, format_type, hfb]
  rw [hf, Option.some_bind, hmo]
  have e : match_strs nm 0 months_abbrev = some (some ((mo : Int), 3)) := by
    simpa using hms []
  simp [strptime, strptime_loop, parse_type, parse_b, e, hlen]

theorem roundtrip_h (ext : Tm → Int) (t : Tm) (h1 : 0 ≤ t.tm_mon) (h2 : t.tm_mon < 12) :
    (strftime ext "%h".toList t).bind (fun out => strptime out "%h".toList) =
      some (Except.ok { empty_tm with tm_mon := t.tm_mon }) := by
  obtain ⟨mo, hmo, hlt⟩ : ∃ mo : Nat, t.tm_mon = (mo : Int) ∧ mo < 12 :=
    ⟨t.tm_mon.toNat, by omega, by omega⟩
  obtain ⟨nm, hfb, hlen, hms⟩ := abbrev_mon_rt t mo hlt hmo
  have hf : strftime ext "%h".toList t = some nm := by
    simp [strftime, strftime_go, format_type, hfb]
  rw [hf, Option.some_bind, hmo]
  have e : match_strs nm 0 months_abbrev = some (some ((mo : Int), 3)) := by
    simpa using hms []
  simp [strptime, strptime_loop, parse_type, parse_b, e, hlen]

theorem roundtrip_H (ext : Tm → Int) (t : Tm) (h1 : 0 ≤ t.tm_hour) (h2 : t.tm_hour < 24) :
    (strftime ext "%H".toList t).bind (fun out => strptime out "%H".toList) =
      some (Except.ok { empty_tm with tm_hour := t.tm_hour }) := by
  obtain ⟨n, hn, hlt⟩ : ∃ n : Nat, t.tm_hour = (n : Int) ∧ n < 24 :=
    ⟨t.tm_hour.toNat, by omega, by omega⟩
  have hf : strftime ext "%H".toList t = some (pad_zero 2 t.tm_hour) := by
    simp [strftime, strftime_go, format_type, format_H]
  rw [hf, Option.some_bind, hn]
  exact rt_H_core (by omega)

theorem roundtrip_k (ext : Tm → Int) (t : Tm) (h1 : 0 ≤ t.tm_hour) (h2 : t.tm_hour < 24) :
    (strftime ext "%k".toList t).bind (fun out => strptime out "%k".toList) =
      some (Except.ok { empty_tm with tm_hour := t.tm_hour }) := by
  obtain ⟨n, hn, hlt⟩ : ∃ n : Nat, t.tm_hour = (n : Int) ∧ n < 24 :=
    ⟨t.tm_hour.toNat, by omega, by omega⟩
  have hf : strftime ext "%k".toList t = some (pad_space 2 t.tm_hour) := by
    simp [strftime, strftime_go, format_type, format_k]
  rw [hf, Option.some_bind, hn]
  exact rt_k_core (by omega)

theorem roundtrip_M (ext : Tm → Int) (t : Tm) (h1 : 0 ≤ t.tm_min) (h2 : t.tm_min < 60) :
    (strftime ext "%M".toList t).bind (fun out => strptime out "%M".toList) =
      some (Except.ok { empty_tm with tm_min := t.tm_min }) := by
  obtain ⟨n, hn, hlt⟩ : ∃ n : Nat, t.tm_min = (n : Int) ∧ n < 60 :=
    ⟨t.tm_min.toNat, by omega, by omega⟩
  have hf : strftime ext "%M".toList t = some (pad_zero 2 t.tm_min) := by
    simp [strftime, strftime_go, format_type, format_M]
  rw [hf, Option.some_bind, hn]
  exact rt_M_core (by omega)

theorem roundtrip_S (ext : Tm → Int) (t : Tm) (h1 : 0 ≤ t.tm_sec) (h2 : t.tm_sec < 61) :
    (strftime ext "%S".toList t).bind (fun out => strptime out "%S".toList) =
      some (Except.ok { empty_tm with tm_sec := t.tm_sec }) := by
  obtain ⟨n, hn, hlt⟩ : ∃ n : Nat, t.tm_sec = (n : Int) ∧ n < 61 :=
    ⟨t.tm_sec.toNat, by omega, by omega⟩
  have hf : strftime ext "%S".toList t = some (pad_zero 2 t.tm_sec) := by
    simp [strftime, strftime_go, format_type, format_S]
  rw [hf, Option.some_bind, hn]
  exact rt_S_core (by omega)

theorem roundtrip_d (ext : Tm → Int) (t : Tm) (h1 : 1 ≤ t.tm_mday) (h2 : t.tm_mday ≤ 31) :
    (strftime ext "%d".toList t).bind (fun out => strptime out "%d".toList) =
      some (Except.ok { empty_tm with tm_mday := t.tm_mday }) := by
  obtain ⟨n, hn, hlt⟩ : ∃ n : Nat, t.tm_mday = (n : Int) ∧ n < 32 :=
    ⟨t.tm_mday.toNat, by omega, by omega⟩
  have hf : strftime ext "%d".toList t = some (pad_zero 2 t.tm_mday) := by
    simp [strftime, strftime_go, format_type, format_d]
  rw [hf, Option.some_bind, hn]
  exact rt_d_core (by omega)

theorem roundtrip_e (ext : Tm → Int) (t : Tm) (h1 : 1 ≤ t.tm_mday) (h2 : t.tm_mday ≤ 31) :
    (strftime ext "%e".toList t).bind (fun out => strptime out "%e".toList) =
      some (Except.ok { empty_tm with tm_mday := t.tm_mday }) := by
  obtain ⟨n, hn, hlt⟩ : ∃ n : Nat, t.tm_mday = (n : Int) ∧ n < 32 :=
    ⟨t.tm_mday.toNat, by omega, by omega⟩
  have hf : strftime ext "%e".toList t = some (pad_space 2 t.tm_mday) := by
    simp [strftime, strftime_go, format_type, format_e]
  rw [hf, Option.some_bind, hn]
  exact rt_e_core (by omega)

theorem roundtrip_m (ext : Tm → Int) (t : Tm) (h1 : 0 ≤ t.tm_mon) (h2 : t.tm_mon < 12) :
    (strftime ext "%m".toList t).bind (fun out => strptime out "%m".toList) =
      some (Except.ok { empty_tm with tm_mon := t.tm_mon }) := by
  obtain ⟨n, hn, hlt⟩ : ∃ n : Nat, t.tm_mon = (n : Int) ∧ n < 12 :=
    ⟨t.tm_mon.toNat, by omega, by omega⟩
  have hf : strftime ext "%m".toList t = some (pad_zero 2 (t.tm_mon + 1)) := by
    simp [strftime, strftime_go, format_type, format_m]
  rw [hf, Option.some_bind, hn]
  exact rt_m_core (by omega)

theorem roundtrip_j (ext : Tm → Int) (t : Tm) (h1 : 0 ≤ t.tm_yday) (h2 : t.tm_yday ≤ 365) :
    (strftime ext "%j".toList t).bind (fun out => strptime out "%j".toList) =
      some (Except.ok { empty_tm with tm_yday := t.tm_yday }) := by
  obtain ⟨n, hn, hlt⟩ : ∃ n : Nat, t.tm_yday = (n : Int) ∧ n < 366 :=
    ⟨t.tm_yday.toNat, by omega, by omega⟩
  have hf : strftime ext "%j".toList t = some (pad_zero 3 (t.tm_yday + 1)) := by
    simp [strftime, strftime_go, format_type, format_j]
  rw [hf, Option.some_bind, hn]
  exact rt_j_core (by omega)

theorem roundtrip_w (ext : Tm → Int) (t : Tm) (h1 : 0 ≤ t.tm_wday) (h2 : t.tm_wday < 7) :
    (strftime ext "%w".toList t).bind (fun out => strptime out "%w".toList) =
      some (Except.ok { empty_tm with tm_wday := t.tm_wday }) := by
  obtain ⟨n, hn, hlt⟩ : ∃ n : Nat, t.tm_wday = (n : Int) ∧ n < 7 :=
    ⟨t.tm_wday.toNat, by omega, by omega⟩
  have hf : strftime ext "%w".toList t = some [digit_char n] := by
    simp [strftime, strftime_go, format_type, format_w, hn, int_str_nat,
          nat_chars_one (show n < 10 by omega)]
  rw [hf, Option.some_bind, hn]
  exact rt_w_core (by omega)

theorem roundtrip_Y (ext : Tm → Int) (t : Tm) (h1 : 1000 ≤ t.tm_year + 1900)
    (h2 : t.tm_year + 1900 < 10000) :
    (strftime ext "%Y".toList t).bind (fun out => strptime out "%Y".toList) =
      some (Except.ok { empty_tm with tm_year := t.tm_year }) := by
  obtain ⟨n, hn, hge, hlt⟩ : ∃ n : Nat, t.tm_year = (n : Int) - 1900 ∧ 1000 ≤ n ∧ n < 10000 :=
    ⟨(t.tm_year + 1900).toNat, by omega, by omega, by omega⟩
  have hf : strftime ext "%Y".toList t = some (int_str (t.tm_year + 1900)) := by
    simp [strftime, strftime_go, format_type, format_Y]
  rw [hf, Option.some_bind, hn]
  have hv : (n : Int) - 1900 + 1900 = (n : Int) := by omega
  rw [hv, int_str_nat]
  exact rt_Y_core hge hlt

theorem roundtrip_newline (ext : Tm → Int) (t : Tm) :
    (strftime ext "%n".toList t).bind (fun out => strptime out "%n".toList) =
      some (Except.ok empty_tm) := by
  have hf : strftime ext "%n".toList t = some ['\n'] := by
    simp [strftime, strftime_go, format_type]
  rw [hf, Option.some_bind]
  decide

theorem roundtrip_tab (ext : Tm → Int) (t : Tm) :
    (strftime ext "%t".toList t).bind (fun out => strptime out "%t".toList) =
      some (Except.ok empty_tm) := by
  have hf : strftime ext "%t".toList t = some ['\t'] := by
    simp [strftime, strftime_go, format_type]
  rw [hf, Option.some_bind]
  decide

theorem roundtrip_percent (ext : Tm → Int) (t : Tm) :
    (strftime ext "%%".toList t).bind (fun out => strptime out "%%".toList) =
      some (Except.ok empty_tm) := by
  have hf : strftime ext "%%".toList t = some ['%'] := by
    simp [strftime, strftime_go, format_type]
  rw [hf, Option.some_bind]
  decide

/-! ## Round-trip: composite specifiers -/

theorem rt_T_core {h m s : Nat} (hh : h < 100) (hm : m < 100) (hs : s < 100) :
    strptime (pad_zero 2 (h : Int) ++ ':' :: (pad_zero 2 (m : Int) ++ ':' :: pad_zero 2 (s : Int)))
      ['%', 'T'] =
      some (Except.ok { empty_tm with
                        tm_sec := (s : Int), tm_min := (m : Int), tm_hour := (h : Int) }) := by
  set A := pad_zero 2 (h : Int) with hA
  set B := pad_zero 2 (m : Int) with hB
  set C := pad_zero 2 (s : Int) with hC
  have lA : A.length = 2 := pad_zero_two_length hh
  have lB : B.length = 2 := pad_zero_two_length hm
  set str := A ++ ':' :: (B ++ ':' :: C) with hstr
  have hlen : str.length = 8 := by
    simp [hstr, lA, lB, hC.symm ▸ pad_zero_two_length hs]
  have eH : match_digits str 0 2 false = some (some ((h : Int), 2)) := by
    have h1 : str = A ++ (':' :: (B ++ ':' :: C)) := by simp [hstr]
    rw [h1, hA]
    simpa using match_digits_pad_zero_two hh (':' :: (B ++ ':' :: C))
  have c1 : char_range_at str 2 = some ':' := by
    rw [hstr]
    exact char_range_at_sep A _ ':' 2 lA
  have eM : match_digits str 3 2 false = some (some ((m : Int), 5)) := by
    have h1 : str = (A ++ [':']) ++ (B ++ (':' :: C)) := by simp [hstr]
    rw [h1, hB]
    exact match_digits_at2 _ _ 3 (by simp [lA]) hm
  have c2 : char_range_at str 5 = some ':' := by
    have h1 : str = (A ++ ':' :: B) ++ (':' :: C) := by simp [hstr]
    rw [h1]
    exact char_range_at_sep _ _ ':' 5 (by simp [lA, lB])
  have eS : match_digits str 6 2 false = some (some ((s : Int), 8)) := by
    have h1 : str = (A ++ ':' :: B ++ [':']) ++ (C ++ []) := by simp [hstr]
    rw [h1, hC]
    simpa using match_digits_at2 (A ++ ':' :: B ++ [':']) [] 6 (by simp [lA, lB]) hs
  simp [strptime, strptime_loop, parse_type, parse_T, parse_H, parse_M, parse_S,
        parse_char_t, parse_char, pbind, eH, eM, eS, c1, c2, hlen]

theorem rt_R_core {h m : Nat} (hh : h < 100) (hm : m < 100) :
    strptime (pad_zero 2 (h : Int) ++ ':' :: pad_zero 2 (m : Int)) ['%', 'R'] =
      some (Except.ok { empty_tm with tm_min := (m : Int), tm_hour := (h : Int) }) := by
  set A := pad_zero 2 (h : Int) with hA
  set B := pad_zero 2 (m : Int) with hB
  have lA : A.length = 2 := pad_zero_two_length hh
  have lB : B.length = 2 := pad_zero_two_length hm
  set str := A ++ ':' :: B with hstr
  have hlen : str.length = 5 := by simp [hstr, lA, lB]
  have eH : match_digits str 0 2 false = some (some ((h : Int), 2)) := by
    have h1 : str = A ++ (':' :: B) := by simp [hstr]
    rw [h1, hA]
    simpa using match_digits_pad_zero_two hh (':' :: B)
  have c1 : char_range_at str 2 = some ':' := by
    rw [hstr]
    exact char_range_at_sep A _ ':' 2 lA
  have eM : match_digits str 3 2 false = some (some ((m : Int), 5)) := by
    have h1 : str = (A ++ [':']) ++ (B ++ []) := by simp [hstr]
    rw [h1, hB]
    simpa using match_digits_at2 (A ++ [':']) [] 3 (by simp [lA]) hm
  simp [strptime, strptime_loop, parse_type, parse_R, parse_H, parse_M,
        parse_char_t, parse_char, pbind, eH, eM, c1, hlen]

theorem roundtrip_T (ext : Tm → Int) (t : Tm) (h1 : 0 ≤ t.tm_hour) (h2 : t.tm_hour < 24)
    (h3 : 0 ≤ t.tm_min) (h4 : t.tm_min < 60) (h5 : 0 ≤ t.tm_sec) (h6 : t.tm_sec < 61) :
    (strftime ext "%T".toList t).bind (fun out => strptime out "%T".toList) =
      some (Except.ok { empty_tm with
                        tm_sec := t.tm_sec, tm_min := t.tm_min, tm_hour := t.tm_hour }) := by
  obtain ⟨h, hh, hhlt⟩ : ∃ n : Nat, t.tm_hour = (n : Int) ∧ n < 24 :=
    ⟨t.tm_hour.toNat, by omega, by omega⟩
  obtain ⟨m, hm, hmlt⟩ : ∃ n : Nat, t.tm_min = (n : Int) ∧ n < 60 :=
    ⟨t.tm_min.toNat, by omega, by omega⟩
  obtain ⟨s, hs, hslt⟩ : ∃ n : Nat, t.tm_sec = (n : Int) ∧ n < 61 :=
    ⟨t.tm_sec.toNat, by omega, by omega⟩
  have hf : strftime ext "%T".toList t =
      some (pad_zero 2 t.tm_hour ++ ':' :: (pad_zero 2 t.tm_min ++ ':' :: pad_zero 2 t.tm_sec)) := by
    simp [strftime, strftime_go, format_type, format_H, format_M, format_S, List.append_assoc]
  rw [hf, Option.some_bind, hh, hm, hs]
  exact rt_T_core (by omega) (by omega) (by omega)

theorem roundtrip_X (ext : Tm → Int) (t : Tm) (h1 : 0 ≤ t.tm_hour) (h2 : t.tm_hour < 24)
    (h3 : 0 ≤ t.tm_min) (h4 : t.tm_min < 60) (h5 : 0 ≤ t.tm_sec) (h6 : t.tm_sec < 61) :
    (strftime ext "%X".toList t).bind (fun out => strptime out "%X".toList) =
      some (Except.ok { empty_tm with
                        tm_sec := t.tm_sec, tm_min := t.tm_min, tm_hour := t.tm_hour }) := by
  obtain ⟨h, hh, hhlt⟩ : ∃ n : Nat, t.tm_hour = (n : Int) ∧ n < 24 :=
    ⟨t.tm_hour.toNat, by omega, by omega⟩
  obtain ⟨m, hm, hmlt⟩ : ∃ n : Nat, t.tm_min = (n : Int) ∧ n < 60 :=
    ⟨t.tm_min.toNat, by omega, by omega⟩
  obtain ⟨s, hs, hslt⟩ : ∃ n : Nat, t.tm_sec = (n : Int) ∧ n < 61 :=
    ⟨t.tm_sec.toNat, by omega, by omega⟩
  have hf : strftime ext "%X".toList t =
      some (pad_zero 2 t.tm_hour ++ ':' :: (pad_zero 2 t.tm_min ++ ':' :: pad_zero 2 t.tm_sec)) := by
    simp [strftime, strftime_go, format_type, format_H, format_M, format_S, List.append_assoc]
  rw [hf, Option.some_bind, hh, hm, hs]
  have core := @rt_T_core h m s (by omega) (by omega) (by omega)
  have hfmt : strptime (pad_zero 2 (h : Int) ++ ':' ::
      (pad_zero 2 (m : Int) ++ ':' :: pad_zero 2 (s : Int))) "%X".toList =
      strptime (pad_zero 2 (h : Int) ++ ':' ::
      (pad_zero 2 (m : Int) ++ ':' :: pad_zero 2 (s : Int))) ['%', 'T'] := by
    simp [strptime, strptime_loop, parse_type]
  rw [hfmt]
  exact core

theorem roundtrip_R (ext : Tm → Int) (t : Tm) (h1 : 0 ≤ t.tm_hour) (h2 : t.tm_hour < 24)
    (h3 : 0 ≤ t.tm_min) (h4 : t.tm_min < 60) :
    (strftime ext "%R".toList t).bind (fun out => strptime out "%R".toList) =
      some (Except.ok { empty_tm with tm_min := t.tm_min, tm_hour := t.tm_hour }) := by
  obtain ⟨h, hh, hhlt⟩ : ∃ n : Nat, t.tm_hour = (n : Int) ∧ n < 24 :=
    ⟨t.tm_hour.toNat, by omega, by omega⟩
  obtain ⟨m, hm, hmlt⟩ : ∃ n : Nat, t.tm_min = (n : Int) ∧ n < 60 :=
    ⟨t.tm_min.toNat, by omega, by omega⟩
  have hf : strftime ext "%R".toList t =
      some (pad_zero 2 t.tm_hour ++ ':' :: pad_zero 2 t.tm_min) := by
    simp [strftime, strftime_go, format_type, format_H, format_M, List.append_assoc]
  rw [hf, Option.some_bind, hh, hm]
  exact rt_R_core (by omega) (by omega)

theorem rt_F_core {y mo dd : Nat} (hy1 : 1000 ≤ y) (hy2 : y < 10000) (hmo : mo < 99)
    (hdd : dd < 100) :
    strptime (nat_chars y ++ '-' :: (pad_zero 2 ((mo : Int) + 1) ++ '-' :: pad_zero 2 (dd : Int)))
      ['%', 'F'] =
      some (Except.ok { empty_tm with
                        tm_mday := (dd : Int), tm_mon := (mo : Int),
                        tm_year := (y : Int) - 1900 }) := by
  have hc : ((mo + 1 : Nat) : Int) = (mo : Int) + 1 := by push_cast; ring
  set A := nat_chars y with hA
  set B := pad_zero 2 ((mo : Int) + 1) with hB
  set C := pad_zero 2 (dd : Int) with hC
  have lA : A.length = 4 := nat_chars_four_length hy1 hy2
  have lB : B.length = 2 := by
    have := @pad_zero_two_length (mo + 1) (by omega)
    rwa [hc] at this
  set str := A ++ '-' :: (B ++ '-' :: C) with hstr
  have hlen : str.length = 10 := by
    simp [hstr, lA, lB, hC.symm ▸ pad_zero_two_length hdd]
  have eY : match_digits str 0 4 false = some (some ((y : Int), 4)) := by
    have h1 : str = A ++ ('-' :: (B ++ '-' :: C)) := by simp [hstr]
    rw [h1, hA]
    simpa using match_digits_nat_four hy1 hy2 ('-' :: (B ++ '-' :: C))
  have c1 : char_range_at str 4 = some '-' := by
    rw [hstr]
    exact char_range_at_sep A _ '-' 4 lA
  have eM : match_digits str 5 2 false = some (some ((mo : Int) + 1, 7)) := by
    have h1 : str = (A ++ ['-']) ++ (B ++ ('-' :: C)) := by simp [hstr]
    rw [h1, hB, ← hc]
    exact match_digits_at2 _ _ 5 (by simp [lA]) (by omega)
  have c2 : char_range_at str 7 = some '-' := by
    have h1 : str = (A ++ '-' :: B) ++ ('-' :: C) := by simp [hstr]
    rw [h1]
    exact char_range_at_sep _ _ '-' 7 (by simp [lA, lB])
  have eD : match_digits str 8 2 false = some (some ((dd : Int), 10)) := by
    have h1 : str = (A ++ '-' :: B ++ ['-']) ++ (C ++ []) := by simp [hstr]
    rw [h1, hC]
    simpa using match_digits_at2 (A ++ '-' :: B ++ ['-']) [] 8 (by simp [lA, lB]) hdd
  have hv : ((mo : Int) + 1) - 1 = (mo : Int) := by omega
  simp [strptime, strptime_loop, parse_type, parse_F, parse_Y, parse_m, parse_d,
        parse_char_t, parse_char, pbind, eY, eM, eD, c1, c2, hlen, hv]

theorem roundtrip_F (ext : Tm → Int) (t : Tm) (h1 : 1000 ≤ t.tm_year + 1900)
    (h2 : t.tm_year + 1900 < 10000) (h3 : 0 ≤ t.tm_mon) (h4 : t.tm_mon < 12)
    (h5 : 1 ≤ t.tm_mday) (h6 : t.tm_mday ≤ 31) :
    (strftime ext "%F".toList t).bind (fun out => strptime out "%F".toList) =
      some (Except.ok { empty_tm with
                        tm_mday := t.tm_mday, tm_mon := t.tm_mon,
                        tm_year := t.tm_year }) := by
  obtain ⟨y, hy, hyge, hylt⟩ : ∃ n : Nat, t.tm_year = (n : Int) - 1900 ∧ 1000 ≤ n ∧ n < 10000 :=
    ⟨(t.tm_year + 1900).toNat, by omega, by omega, by omega⟩
  obtain ⟨mo, hmo, hmolt⟩ : ∃ n : Nat, t.tm_mon = (n : Int) ∧ n < 12 :=
    ⟨t.tm_mon.toNat, by omega, by omega⟩
  obtain ⟨dd, hdd, hddlt⟩ : ∃ n : Nat, t.tm_mday = (n : Int) ∧ n < 32 :=
    ⟨t.tm_mday.toNat, by omega, by omega⟩
  have hf : strftime ext "%F".toList t =
      some (int_str (t.tm_year + 1900) ++ '-' ::
            (pad_zero 2 (t.tm_mon + 1) ++ '-' :: pad_zero 2 t.tm_mday)) := by
    simp [strftime, strftime_go, format_type, format_Y, format_m, format_d, List.append_assoc]
  rw [hf, Option.some_bind, hy, hmo, hdd]
  have hv : (y : Int) - 1900 + 1900 = (y : Int) := by omega
  rw [hv, int_str_nat]
  exact rt_F_core hyge hylt (by omega) (by omega)

theorem roundtrip_v (ext : Tm → Int) (t : Tm) (h1 : 1000 ≤ t.tm_year + 1900)
    (h2 : t.tm_year + 1900 < 10000) (h3 : 0 ≤ t.tm_mon) (h4 : t.tm_mon < 12)
    (h5 : 1 ≤ t.tm_mday) (h6 : t.tm_mday ≤ 31) :
    (strftime ext "%v".toList t).bind (fun out => strptime out "%v".toList) =
      some (Except.ok { empty_tm with
                        tm_mday := t.tm_mday, tm_mon := t.tm_mon,
                        tm_year := t.tm_year }) := by
  obtain ⟨y, hy, hyge, hylt⟩ : ∃ n : Nat, t.tm_year = (n : Int) - 1900 ∧ 1000 ≤ n ∧ n < 10000 :=
    ⟨(t.tm_year + 1900).toNat, by omega, by omega, by omega⟩
  obtain ⟨mo, hmo, hmolt⟩ : ∃ n : Nat, t.tm_mon = (n : Int) ∧ n < 12 :=
    ⟨t.tm_mon.toNat, by omega, by omega⟩
  obtain ⟨dd, hdd, hddlt⟩ : ∃ n : Nat, t.tm_mday = (n : Int) ∧ n < 32 :=
    ⟨t.tm_mday.toNat, by omega, by omega⟩
  obtain ⟨nm, hfb, hlnm, hms⟩ := abbrev_mon_rt t mo hmolt hmo
  have hf : strftime ext "%v".toList t =
      some (pad_space 2 t.tm_mday ++ '-' :: (nm ++ '-' :: int_str (t.tm_year + 1900))) := by
    simp [strftime, strftime_go, format_type, format_e, format_Y, hfb, List.append_assoc]
  rw [hf, Option.some_bind, hy, hdd]
  have hv : (y : Int) - 1900 + 1900 = (y : Int) := by omega
  rw [hv, int_str_nat]
  set A := pad_space 2 (dd : Int) with hA
  set C := nat_chars y with hC
  have lA : A.length = 2 := pad_space_two_length (by omega)
  have lC : C.length = 4 := nat_chars_four_length hyge hylt
  set str := A ++ '-' :: (nm ++ '-' :: C) with hstr
  have hlen : str.length = 11 := by simp [hstr, lA, lC, hlnm]
  have eE : match_digits str 0 2 true = some (some ((dd : Int), 2)) := by
    have hs1 : str = A ++ ('-' :: (nm ++ '-' :: C)) := by simp [hstr]
    rw [hs1, hA]
    simpa using match_digits_pad_space_two (show dd < 100 by omega) ('-' :: (nm ++ '-' :: C))
  have c1 : char_range_at str 2 = some '-' := by
    rw [hstr]
    exact char_range_at_sep A _ '-' 2 lA
  have eB : match_strs str 3 months_abbrev = some (some ((mo : Int), 6)) := by
    have hs1 : str = (A ++ ['-']) ++ (nm ++ ('-' :: C)) := by simp [hstr]
    rw [hs1]
    exact match_strs_at _ _ nm _ 3 (by simp [lA]) _ 3 (hms ('-' :: C))
  have c2 : char_range_at str 6 = some '-' := by
    have hs1 : str = (A ++ '-' :: nm) ++ ('-' :: C) := by simp [hstr]
    rw [hs1]
    exact char_range_at_sep _ _ '-' 6 (by simp [lA, hlnm])
  have eY : match_digits str 7 4 false = some (some ((y : Int), 11)) := by
    have hs1 : str = (A ++ '-' :: nm ++ ['-']) ++ (C ++ []) := by simp [hstr]
    rw [hs1, hC]
    simpa using match_digits_at4 (A ++ '-' :: nm ++ ['-']) [] 7 (by simp [lA, hlnm]) hyge hylt
  rw [hmo]
  simp [strptime, strptime_loop, parse_type, parse_v, parse_e, parse_b, parse_Y,
        parse_char_t, parse_char, pbind, eE, eB, eY, c1, c2, hlen]

theorem roundtrip_c (ext : Tm → Int) (t : Tm)
    (hw1 : 0 ≤ t.tm_wday) (hw2 : t.tm_wday < 7)
    (hb1 : 0 ≤ t.tm_mon) (hb2 : t.tm_mon < 12)
    (hd1 : 1 ≤ t.tm_mday) (hd2 : t.tm_mday ≤ 31)
    (hh1 : 0 ≤ t.tm_hour) (hh2 : t.tm_hour < 24)
    (hm1 : 0 ≤ t.tm_min) (hm2 : t.tm_min < 60)
    (hs1 : 0 ≤ t.tm_sec) (hs2 : t.tm_sec < 61)
    (hy1 : 1000 ≤ t.tm_year + 1900) (hy2 : t.tm_year + 1900 < 10000) :
    (strftime ext "%c".toList t).bind (fun out => strptime out "%c".toList) =
      some (Except.ok { empty_tm with
                        tm_sec := t.tm_sec, tm_min := t.tm_min, tm_hour := t.tm_hour,
                        tm_mday := t.tm_mday, tm_mon := t.tm_mon, tm_year := t.tm_year,
                        tm_wday := t.tm_wday }) := by
  obtain ⟨w, hw, hwlt⟩ : ∃ n : Nat, t.tm_wday = (n : Int) ∧ n < 7 :=
    ⟨t.tm_wday.toNat, by omega, by omega⟩
  obtain ⟨mo, hmo, hmolt⟩ : ∃ n : Nat, t.tm_mon = (n : Int) ∧ n < 12 :=
    ⟨t.tm_mon.toNat, by omega, by omega⟩
  obtain ⟨dd, hdd, hddlt⟩ : ∃ n : Nat, t.tm_mday = (n : Int) ∧ n < 32 :=
    ⟨t.tm_mday.toNat, by omega, by omega⟩
  obtain ⟨h, hh, hhlt⟩ : ∃ n : Nat, t.tm_hour = (n : Int) ∧ n < 24 :=
    ⟨t.tm_hour.toNat, by omega, by omega⟩
  obtain ⟨mi, hmi, hmilt⟩ : ∃ n : Nat, t.tm_min = (n : Int) ∧ n < 60 :=
    ⟨t.tm_min.toNat, by omega, by omega⟩
  obtain ⟨sec, hsec, hseclt⟩ : ∃ n : Nat, t.tm_sec = (n : Int) ∧ n < 61 :=
    ⟨t.tm_sec.toNat, by omega, by omega⟩
  obtain ⟨y, hy, hyge, hylt⟩ : ∃ n : Nat, t.tm_year = (n : Int) - 1900 ∧ 1000 ≤ n ∧ n < 10000 :=
    ⟨(t.tm_year + 1900).toNat, by omega, by omega, by omega⟩
  obtain ⟨nmA, hfa, hlA, hmsA⟩ := abbrev_wday_rt t w hwlt hw
  obtain ⟨nmB, hfb, hlB, hmsB⟩ := abbrev_mon_rt t mo hmolt hmo
  have hf : strftime ext "%c".toList t =
      some (nmA ++ ' ' :: (nmB ++ ' ' :: (pad_space 2 t.tm_mday ++ ' ' ::
            (pad_zero 2 t.tm_hour ++ ':' :: (pad_zero 2 t.tm_min ++ ':' ::
            (pad_zero 2 t.tm_sec ++ ' ' :: int_str (t.tm_year + 1900))))))) := by
    simp [strftime, strftime_go, format_type, hfa, hfb, format_e, format_H, format_M,
          format_S, format_Y, List.append_assoc]
  rw [hf, Option.some_bind, hdd, hh, hmi, hsec, hy]
  have hv : (y : Int) - 1900 + 1900 = (y : Int) := by omega
  rw [hv, int_str_nat]
  set E := pad_space 2 (dd : Int) with hE
  set Hc := pad_zero 2 (h : Int) with hHc
  set Mc := pad_zero 2 (mi : Int) with hMc
  set Sc := pad_zero 2 (sec : Int) with hSc
  set Y4 := nat_chars y with hY4
  have lE : E.length = 2 := pad_space_two_length (by omega)
  have lH : Hc.length = 2 := pad_zero_two_length (by omega)
  have lM : Mc.length = 2 := pad_zero_two_length (by omega)
  have lS : Sc.length = 2 := pad_zero_two_length (by omega)
  have lY : Y4.length = 4 := nat_chars_four_length hyge hylt
  set str := nmA ++ ' ' :: (nmB ++ ' ' :: (E ++ ' ' :: (Hc ++ ':' :: (Mc ++ ':' ::
      (Sc ++ ' ' :: Y4))))) with hstr
  have hlen : str.length = 24 := by simp [hstr, hlA, hlB, lE, lH, lM, lS, lY]
  have eA : match_strs str 0 weekdays_abbrev = some (some ((w : Int), 3)) := by
    rw [hstr]
    exact hmsA _
  have c1 : char_range_at str 3 = some ' ' := by
    rw [hstr]
    exact char_range_at_sep nmA _ ' ' 3 hlA
  have eB : match_strs str 4 months_abbrev = some (some ((mo : Int), 7)) := by
    have hs' : str = (nmA ++ [' ']) ++ (nmB ++ (' ' :: (E ++ ' ' :: (Hc ++ ':' :: (Mc ++ ':' ::
        (Sc ++ ' ' :: Y4)))))) := by simp [hstr]
    rw [hs']
    exact match_strs_at _ _ nmB _ 4 (by simp [hlA]) _ 3 (hmsB _)
  have c2 : char_range_at str 7 = some ' ' := by
    have hs' : str = (nmA ++ ' ' :: nmB) ++ (' ' :: (E ++ ' ' :: (Hc ++ ':' :: (Mc ++ ':' ::
        (Sc ++ ' ' :: Y4))))) := by simp [hstr]
    rw [hs']
    exact char_range_at_sep _ _ ' ' 7 (by simp [hlA, hlB])
  have eE : match_digits str 8 2 true = some (some ((dd : Int), 10)) := by
    have hs' : str = (nmA ++ ' ' :: nmB ++ [' ']) ++ (E ++ (' ' :: (Hc ++ ':' :: (Mc ++ ':' ::
        (Sc ++ ' ' :: Y4))))) := by simp [hstr]
    rw [hs', hE]
    exact match_digits_at2s _ _ 8 (by simp [hlA, hlB]) (by omega)
  have c3 : char_range_at str 10 = some ' ' := by
    have hs' : str = (nmA ++ ' ' :: nmB ++ ' ' :: E) ++ (' ' :: (Hc ++ ':' :: (Mc ++ ':' ::
        (Sc ++ ' ' :: Y4)))) := by simp [hstr]
    rw [hs']
    exact char_range_at_sep _ _ ' ' 10 (by simp [hlA, hlB, lE])
  have eH : match_digits str 11 2 false = some (some ((h : Int), 13)) := by
    have hs' : str = (nmA ++ ' ' :: nmB ++ ' ' :: E ++ [' ']) ++ (Hc ++ (':' :: (Mc ++ ':' ::
        (Sc ++ ' ' :: Y4)))) := by simp [hstr]
    rw [hs', hHc]
    exact match_digits_at2 _ _ 11 (by simp [hlA, hlB, lE]) (by omega)
  have c4 : char_range_at str 13 = some ':' := by
    have hs' : str = (nmA ++ ' ' :: nmB ++ ' ' :: E ++ ' ' :: Hc) ++ (':' :: (Mc ++ ':' ::
        (Sc ++ ' ' :: Y4))) := by simp [hstr]
    rw [hs']
    exact char_range_at_sep _ _ ':' 13 (by simp [hlA, hlB, lE, lH])
  have eM : match_digits str 14 2 false = some (some ((mi : Int), 16)) := by
    have hs' : str = (nmA ++ ' ' :: nmB ++ ' ' :: E ++ ' ' :: Hc ++ [':']) ++ (Mc ++ (':' ::
        (Sc ++ ' ' :: Y4))) := by simp [hstr]
    rw [hs', hMc]
    exact match_digits_at2 _ _ 14 (by simp [hlA, hlB, lE, lH]) (by omega)
  have c5 : char_range_at str 16 = some ':' := by
    have hs' : str = (nmA ++ ' ' :: nmB ++ ' ' :: E ++ ' ' :: Hc ++ ':' :: Mc) ++ (':' ::
        (Sc ++ ' ' :: Y4)) := by simp [hstr]
    rw [hs']
    exact char_range_at_sep _ _ ':' 16 (by simp [hlA, hlB, lE, lH, lM])
  have eS : match_digits str 17 2 false = some (some ((sec : Int), 19)) := by
    have hs' : str = (nmA ++ ' ' :: nmB ++ ' ' :: E ++ ' ' :: Hc ++ ':' :: Mc ++ [':']) ++
        (Sc ++ (' ' :: Y4)) := by simp [hstr]
    rw [hs', hSc]
    exact match_digits_at2 _ _ 17 (by simp [hlA, hlB, lE, lH, lM]) (by omega)
  have c6 : char_range_at str 19 = some ' ' := by
    have hs' : str = (nmA ++ ' ' :: nmB ++ ' ' :: E ++ ' ' :: Hc ++ ':' :: Mc ++ ':' :: Sc) ++
        (' ' :: Y4) := by simp [hstr]
    rw [hs']
    exact char_range_at_sep _ _ ' ' 19 (by simp [hlA, hlB, lE, lH, lM, lS])
  have eY : match_digits str 20 4 false = some (some ((y : Int), 24)) := by
    have hs' : str = (nmA ++ ' ' :: nmB ++ ' ' :: E ++ ' ' :: Hc ++ ':' :: Mc ++ ':' :: Sc ++
        [' ']) ++ (Y4 ++ []) := by simp [hstr]
    rw [hs', hY4]
    exact match_digits_at4 _ [] 20 (by simp [hlA, hlB, lE, lH, lM, lS]) hyge hylt
  rw [hw, hmo]
  simp [strptime, strptime_loop, parse_type, parse_c, parse_a, parse_b, parse_e, parse_T,
        parse_H, parse_M, parse_S, parse_Y, parse_char_t, parse_char, pbind,
        eA, eB, eE, eH, eM, eS, eY, c1, c2, c3, c4, c5, c6, hlen]

theorem rt_r_core {iv mi sec : Nat} (hiv : iv < 100) (hmi : mi < 100) (hsec : sec < 100)
    (AP : List Char) (hAP : AP.length = 2) (pd : Int)
    (hms : ∀ r, match_strs (AP ++ r) 0 ampm_upper = some (some (pd, 2))) :
    strptime (pad_zero 2 (iv : Int) ++ ':' :: (pad_zero 2 (mi : Int) ++ ':' ::
      (pad_zero 2 (sec : Int) ++ ' ' :: AP))) ['%', 'r'] =
      some (Except.ok { empty_tm with
                        tm_sec := (sec : Int), tm_min := (mi : Int),
                        tm_hour := (if (iv : Int) = 12 then 0 else (iv : Int)) + pd }) := by
  set Ic := pad_zero 2 (iv : Int) with hIc
  set Mc := pad_zero 2 (mi : Int) with hMc
  set Sc := pad_zero 2 (sec : Int) with hSc
  have lI : Ic.length = 2 := pad_zero_two_length hiv
  have lM : Mc.length = 2 := pad_zero_two_length hmi
  have lS : Sc.length = 2 := pad_zero_two_length hsec
  set str := Ic ++ ':' :: (Mc ++ ':' :: (Sc ++ ' ' :: AP)) with hstr
  have hlen : str.length = 11 := by simp [hstr, lI, lM, lS, hAP]
  have eI : match_digits str 0 2 false = some (some ((iv : Int), 2)) := by
    have hs' : str = Ic ++ (':' :: (Mc ++ ':' :: (Sc ++ ' ' :: AP))) := by simp [hstr]
    rw [hs', hIc]
    simpa using match_digits_pad_zero_two hiv (':' :: (Mc ++ ':' :: (Sc ++ ' ' :: AP)))
  have c1 : char_range_at str 2 = some ':' := by
    rw [hstr]
    exact char_range_at_sep Ic _ ':' 2 lI
  have eM : match_digits str 3 2 false = some (some ((mi : Int), 5)) := by
    have hs' : str = (Ic ++ [':']) ++ (Mc ++ (':' :: (Sc ++ ' ' :: AP))) := by simp [hstr]
    rw [hs', hMc]
    exact match_digits_at2 _ _ 3 (by simp [lI]) hmi
  have c2 : char_range_at str 5 = some ':' := by
    have hs' : str = (Ic ++ ':' :: Mc) ++ (':' :: (Sc ++ ' ' :: AP)) := by simp [hstr]
    rw [hs']
    exact char_range_at_sep _ _ ':' 5 (by simp [lI, lM])
  have eS : match_digits str 6 2 false = some (some ((sec : Int), 8)) := by
    have hs' : str = (Ic ++ ':' :: Mc ++ [':']) ++ (Sc ++ (' ' :: AP)) := by simp [hstr]
    rw [hs', hSc]
    exact match_digits_at2 _ _ 6 (by simp [lI, lM]) hsec
  have c3 : char_range_at str 8 = some ' ' := by
    have hs' : str = (Ic ++ ':' :: Mc ++ ':' :: Sc) ++ (' ' :: AP) := by simp [hstr]
    rw [hs']
    exact char_range_at_sep _ _ ' ' 8 (by simp [lI, lM, lS])
  have eP : match_strs str 9 ampm_upper = some (some (pd, 11)) := by
    have hs' : str = (Ic ++ ':' :: Mc ++ ':' :: Sc ++ [' ']) ++ (AP ++ []) := by simp [hstr]
    rw [hs']
    exact match_strs_at _ _ AP _ 9 (by simp [lI, lM, lS]) pd 2 (hms [])
  simp [strptime, strptime_loop, parse_type, parse_r, parse_I, parse_M, parse_S, parse_p,
        parse_char_t, parse_char, pbind, eI, eM, eS, eP, c1, c2, c3, hlen]

theorem roundtrip_r (ext : Tm → Int) (t : Tm) (h1 : 0 ≤ t.tm_hour) (h2 : t.tm_hour < 24)
    (h3 : 0 ≤ t.tm_min) (h4 : t.tm_min < 60) (h5 : 0 ≤ t.tm_sec) (h6 : t.tm_sec < 61) :
    (strftime ext "%r".toList t).bind (fun out => strptime out "%r".toList) =
      some (Except.ok { empty_tm with
                        tm_sec := t.tm_sec, tm_min := t.tm_min, tm_hour := t.tm_hour }) := by
  obtain ⟨h, hh, hhlt⟩ : ∃ n : Nat, t.tm_hour = (n : Int) ∧ n < 24 :=
    ⟨t.tm_hour.toNat, by omega, by omega⟩
  obtain ⟨mi, hmi, hmilt⟩ : ∃ n : Nat, t.tm_min = (n : Int) ∧ n < 60 :=
    ⟨t.tm_min.toNat, by omega, by omega⟩
  obtain ⟨sec, hsec, hseclt⟩ : ∃ n : Nat, t.tm_sec = (n : Int) ∧ n < 61 :=
    ⟨t.tm_sec.toNat, by omega, by omega⟩
  obtain ⟨iv, hivn, hiv1, hiv2⟩ : ∃ iv : Nat,
      (if t.tm_hour = 0 then (12 : Int)
       else if t.tm_hour > 12 then t.tm_hour - 12 else t.tm_hour) = (iv : Int) ∧
      1 ≤ iv ∧ iv ≤ 12 := by
    refine ⟨(if h = 0 then 12 else if h > 12 then h - 12 else h), ?_, ?_, ?_⟩
    · rw [hh]; split_ifs <;> push_cast <;> omega
    · split_ifs <;> omega
    · split_ifs <;> omega
  by_cases hampm : t.tm_hour < 12
  · have hf : strftime ext "%r".toList t =
        some (pad_zero 2 (iv : Int) ++ ':' :: (pad_zero 2 t.tm_min ++ ':' ::
              (pad_zero 2 t.tm_sec ++ ' ' :: "AM".toList))) := by
      simp [strftime, strftime_go, format_type, format_I, format_M, format_S, format_p,
            hampm, hivn, List.append_assoc]
    rw [hf, Option.some_bind, hmi, hsec]
    have core := @rt_r_core iv mi sec (by omega) (by omega) (by omega)
      "AM".toList rfl 0 match_strs_AM
    rw [show ("%r".toList : List Char) = ['%', 'r'] from rfl, core]
    have hfin : (if (iv : Int) = 12 then 0 else (iv : Int)) + 0 = t.tm_hour := by
      rw [hh]
      rw [hh] at hivn hampm
      split_ifs at hivn ⊢ <;> omega
    rw [hfin]
  · have hf : strftime ext "%r".toList t =
        some (pad_zero 2 (iv : Int) ++ ':' :: (pad_zero 2 t.tm_min ++ ':' ::
              (pad_zero 2 t.tm_sec ++ ' ' :: "PM".toList))) := by
      simp [strftime, strftime_go, format_type, format_I, format_M, format_S, format_p,
            hampm, hivn, List.append_assoc]
    rw [hf, Option.some_bind, hmi, hsec]
    have core := @rt_r_core iv mi sec (by omega) (by omega) (by omega)
      "PM".toList rfl 12 match_strs_PM
    rw [show ("%r".toList : List Char) = ['%', 'r'] from rfl, core]
    have hfin : (if (iv : Int) = 12 then 0 else (iv : Int)) + 12 = t.tm_hour := by
      rw [hh]
      rw [hh] at hivn hampm
      split_ifs at hivn ⊢ <;> omega
    rw [hfin]

/-! ## Claim C1 -/

/-- C1 counterexample: the claim fails as stated.  For the supported
specifier `%I` and the in-domain record with `tm_hour = 13`, formatting
yields `"01"`, which parses back with `tm_hour = 1 ≠ 13`, so
`strptime (strftime "%I" t) "%I"` does not agree with `t` on the field
`%I` touches. -/
theorem C1_counterexample :
    (strftime (fun _ => 0) "%I".toList { empty_tm with tm_hour := 13 }).bind
        (fun out => strptime out "%I".toList) =
      some (Except.ok { empty_tm with tm_hour := 1 }) ∧
    ¬ (({ empty_tm with tm_hour := 1 } : Tm).tm_hour =
       ({ empty_tm with tm_hour := 13 } : Tm).tm_hour) := by
  constructor
  · decide
  · decide

/-- C1 (amended): the round-trip `strptime (strftime "%X" t) "%X"` succeeds
and agrees with `t` on every field `%X` touches (all other fields zero) for
the specifiers `%A %a %B %b %h %c %d %e %F %H %j %k %M %m %n %R %r %S %T %t
%v %w %X %Y %%`, over the documented field domains, with the year restricted
so that `tm_year + 1900` renders as exactly four digits.  (The remaining
specifiers `%C %D %x %I %l %P %p %u %Y`-out-of-range `%y %Z %z %s` do not
round-trip; see the counterexample.) -/
theorem C1_roundtrip_amended :
    (∀ (ext : Tm → Int) (t : Tm), 0 ≤ t.tm_wday → t.tm_wday < 7 →
      (strftime ext "%A".toList t).bind (fun out => strptime out "%A".toList) =
        some (Except.ok { empty_tm with tm_wday := t.tm_wday })) ∧
    (∀ (ext : Tm → Int) (t : Tm), 0 ≤ t.tm_wday → t.tm_wday < 7 →
      (strftime ext "%a".toList t).bind (fun out => strptime out "%a".toList) =
        some (Except.ok { empty_tm with tm_wday := t.tm_wday })) ∧
    (∀ (ext : Tm → Int) (t : Tm), 0 ≤ t.tm_mon → t.tm_mon < 12 →
      (strftime ext "%B".toList t).bind (fun out => strptime out "%B".toList) =
        some (Except.ok { empty_tm with tm_mon := t.tm_mon })) ∧
    (∀ (ext : Tm → Int) (t : Tm), 0 ≤ t.tm_mon → t.tm_mon < 12 →
      (strftime ext "%b".toList t).bind (fun out => strptime out "%b".toList) =
        some (Except.ok { empty_tm with tm_mon := t.tm_mon })) ∧
    (∀ (ext : Tm → Int) (t : Tm), 0 ≤ t.tm_mon → t.tm_mon < 12 →
      (strftime ext "%h".toList t).bind (fun out => strptime out "%h".toList) =
        some (Except.ok { empty_tm with tm_mon := t.tm_mon })) ∧
    (∀ (ext : Tm → Int) (t : Tm),
      0 ≤ t.tm_wday → t.tm_wday < 7 → 0 ≤ t.tm_mon → t.tm_mon < 12 →
      1 ≤ t.tm_mday → t.tm_mday ≤ 31 → 0 ≤ t.tm_hour → t.tm_hour < 24 →
      0 ≤ t.tm_min → t.tm_min < 60 → 0 ≤ t.tm_sec → t.tm_sec < 61 →
      1000 ≤ t.tm_year + 1900 → t.tm_year + 1900 < 10000 →
      (strftime ext "%c".toList t).bind (fun out => strptime out "%c".toList) =
        some (Except.ok { empty_tm with
                          tm_sec := t.tm_sec, tm_min := t.tm_min, tm_hour := t.tm_hour,
                          tm_mday := t.tm_mday, tm_mon := t.tm_mon, tm_year := t.tm_year,
                          tm_wday := t.tm_wday })) ∧
    (∀ (ext : Tm → Int) (t : Tm), 1 ≤ t.tm_mday → t.tm_mday ≤ 31 →
      (strftime ext "%d".toList t).bind (fun out => strptime out "%d".toList) =
        some (Except.ok { empty_tm with tm_mday := t.tm_mday })) ∧
    (∀ (ext : Tm → Int) (t : Tm), 1 ≤ t.tm_mday → t.tm_mday ≤ 31 →
      (strftime ext "%e".toList t).bind (fun out => strptime out "%e".toList) =
        some (Except.ok { empty_tm with tm_mday := t.tm_mday })) ∧
    (∀ (ext : Tm → Int) (t : Tm),
      1000 ≤ t.tm_year + 1900 → t.tm_year + 1900 < 10000 →
      0 ≤ t.tm_mon → t.tm_mon < 12 → 1 ≤ t.tm_mday → t.tm_mday ≤ 31 →
      (strftime ext "%F".toList t).bind (fun out => strptime out "%F".toList) =
        some (Except.ok { empty_tm with
                          tm_mday := t.tm_mday, tm_mon := t.tm_mon,
                          tm_year := t.tm_year })) ∧
    (∀ (ext : Tm → Int) (t : Tm), 0 ≤ t.tm_hour → t.tm_hour < 24 →
      (strftime ext "%H".toList t).bind (fun out => strptime out "%H".toList) =
        some (Except.ok { empty_tm with tm_hour := t.tm_hour })) ∧
    (∀ (ext : Tm → Int) (t : Tm), 0 ≤ t.tm_yday → t.tm_yday ≤ 365 →
      (strftime ext "%j".toList t).bind (fun out => strptime out "%j".toList) =
        some (Except.ok { empty_tm with tm_yday := t.tm_yday })) ∧
    (∀ (ext : Tm → Int) (t : Tm), 0 ≤ t.tm_hour → t.tm_hour < 24 →
      (strftime ext "%k".toList t).bind (fun out => strptime out "%k".toList) =
        some (Except.ok { empty_tm with tm_hour := t.tm_hour })) ∧
    (∀ (ext : Tm → Int) (t : Tm), 0 ≤ t.tm_min → t.tm_min < 60 →
      (strftime ext "%M".toList t).bind (fun out => strptime out "%M".toList) =
        some (Except.ok { empty_tm with tm_min := t.tm_min })) ∧
    (∀ (ext : Tm → Int) (t : Tm), 0 ≤ t.tm_mon → t.tm_mon < 12 →
      (strftime ext "%m".toList t).bind (fun out => strptime out "%m".toList) =
        some (Except.ok { empty_tm with tm_mon := t.tm_mon })) ∧
    (∀ (ext : Tm → Int) (t : Tm),
      (strftime ext "%n".toList t).bind (fun out => strptime out "%n".toList) =
        some (Except.ok empty_tm)) ∧
    (∀ (ext : Tm → Int) (t : Tm), 0 ≤ t.tm_hour → t.tm_hour < 24 →
      0 ≤ t.tm_min → t.tm_min < 60 →
      (strftime ext "%R".toList t).bind (fun out => strptime out "%R".toList) =
        some (Except.ok { empty_tm with tm_min := t.tm_min, tm_hour := t.tm_hour })) ∧
    (∀ (ext : Tm → Int) (t : Tm), 0 ≤ t.tm_hour → t.tm_hour < 24 →
      0 ≤ t.tm_min → t.tm_min < 60 → 0 ≤ t.tm_sec → t.tm_sec < 61 →
      (strftime ext "%r".toList t).bind (fun out => strptime out "%r".toList) =
        some (Except.ok { empty_tm with
                          tm_sec := t.tm_sec, tm_min := t.tm_min,
                          tm_hour := t.tm_hour })) ∧
    (∀ (ext : Tm → Int) (t : Tm), 0 ≤ t.tm_sec → t.tm_sec < 61 →
      (strftime ext "%S".toList t).bind (fun out => strptime out "%S".toList) =
        some (Except.ok { empty_tm with tm_sec := t.tm_sec })) ∧
    (∀ (ext : Tm → Int) (t : Tm), 0 ≤ t.tm_hour → t.tm_hour < 24 →
      0 ≤ t.tm_min → t.tm_min < 60 → 0 ≤ t.tm_sec → t.tm_sec < 61 →
      (strftime ext "%T".toList t).bind (fun out => strptime out "%T".toList) =
        some (Except.ok { empty_tm with
                          tm_sec := t.tm_sec, tm_min := t.tm_min,
                          tm_hour := t.tm_hour })) ∧
    (∀ (ext : Tm → Int) (t : Tm),
      (strftime ext "%t".toList t).bind (fun out => strptime out "%t".toList) =
        some (Except.ok empty_tm)) ∧
    (∀ (ext : Tm → Int) (t : Tm),
      1000 ≤ t.tm_year + 1900 → t.tm_year + 1900 < 10000 →
      0 ≤ t.tm_mon → t.tm_mon < 12 → 1 ≤ t.tm_mday → t.tm_mday ≤ 31 →
      (strftime ext "%v".toList t).bind (fun out => strptime out "%v".toList) =
        some (Except.ok { empty_tm with
                          tm_mday := t.tm_mday, tm_mon := t.tm_mon,
                          tm_year := t.tm_year })) ∧
    (∀ (ext : Tm → Int) (t : Tm), 0 ≤ t.tm_wday → t.tm_wday < 7 →
      (strftime ext "%w".toList t).bind (fun out => strptime out "%w".toList) =
        some (Except.ok { empty_tm with tm_wday := t.tm_wday })) ∧
    (∀ (ext : Tm → Int) (t : Tm), 0 ≤ t.tm_hour → t.tm_hour < 24 →
      0 ≤ t.tm_min → t.tm_min < 60 → 0 ≤ t.tm_sec → t.tm_sec < 61 →
      (strftime ext "%X".toList t).bind (fun out => strptime out "%X".toList) =
        some (Except.ok { empty_tm with
                          tm_sec := t.tm_sec, tm_min := t.tm_min,
                          tm_hour := t.tm_hour })) ∧
    (∀ (ext : Tm → Int) (t : Tm),
      1000 ≤ t.tm_year + 1900 → t.tm_year + 1900 < 10000 →
      (strftime ext "%Y".toList t).bind (fun out => strptime out "%Y".toList) =
        some (Except.ok { empty_tm with tm_year := t.tm_year })) ∧
    (∀ (ext : Tm → Int) (t : Tm),
      (strftime ext "%%".toList t).bind (fun out => strptime out "%%".toList) =
        some (Except.ok empty_tm)) :=
  ⟨roundtrip_A, roundtrip_a, roundtrip_B, roundtrip_b, roundtrip_h, roundtrip_c,
   roundtrip_d, roundtrip_e, roundtrip_F, roundtrip_H, roundtrip_j, roundtrip_k,
   roundtrip_M, roundtrip_m, roundtrip_newline, roundtrip_R, roundtrip_r, roundtrip_S,
   roundtrip_T, roundtrip_tab, roundtrip_v, roundtrip_w, roundtrip_X, roundtrip_Y,
   roundtrip_percent⟩

/-- C1 witness: the amended round-trip property applied at a concrete
input (`%A` on the all-zero record, whose weekday 0 is in domain). -/
theorem C1_roundtrip_amended_witness :
    (strftime (fun _ => 0) "%A".toList empty_tm).bind
        (fun out => strptime out "%A".toList) =
      some (Except.ok { empty_tm with tm_wday := empty_tm.tm_wday }) :=
  C1_roundtrip_amended.1 (fun _ => 0) empty_tm (by decide) (by decide)

/-! ## Claim C2 -/

/-- C2: `strptime` succeeds exactly when format and input are exhausted
together.  (i) Once the format string is consumed, a cursor short of the
end of input yields the pending `"Invalid time"` failure, never success;
(ii) a non-empty input against the empty format fails; (iii) the spec's
concrete trailing-format example fails; (iv) empty against empty succeeds
with the all-zero, null-zone record. -/
theorem C2_exhaustion :
    (∀ (s : List Char) (pos : Nat) (tm : Tm), pos ≠ s.length →
      strptime_loop s [] pos tm = some (Except.error "Invalid time")) ∧
    (∀ s : List Char, s ≠ [] →
      strptime s [] = some (Except.error "Invalid time")) ∧
    strptime "Fri Feb 13 15:31:30".toList "%a %b %e %T %Y".toList =
      some (Except.error "Invalid time") ∧
    strptime [] [] =
      some (Except.ok { tm_sec := 0, tm_min := 0, tm_hour := 0, tm_mday := 0, tm_mon := 0,
                        tm_year := 0, tm_wday := 0, tm_yday := 0, tm_isdst := 0,
                        tm_gmtoff := 0, tm_zone := none, tm_nsec := 0 }) := by
  refine ⟨?_, ?_, ?_, ?_⟩
  · intro s pos tm hne
    simp [strptime_loop, hne]
  · intro s hs
    match s with
    | [] => exact absurd rfl hs
    | c :: cs => simp [strptime, strptime_loop]
  · decide
  · decide

/-- C2 witness: the theorem applied at concrete inputs. -/
theorem C2_exhaustion_witness :
    strptime_loop "ab".toList [] 1 empty_tm = some (Except.error "Invalid time") ∧
    strptime "x".toList [] = some (Except.error "Invalid time") :=
  ⟨C2_exhaustion.1 "ab".toList 1 empty_tm (by decide),
   C2_exhaustion.2.1 "x".toList (by decide)⟩

/-! ## Claim C3 -/

/-- C3: 12-hour/24-hour symmetry of `%I` and `%p`.  Hour 0 formats as
`"12"`/`"AM"`, hour 15 as `"03"`/`"PM"`; parsing `"12 AM"` under
`"%I %p"` yields hour 0 (the parsed 12 is normalised to 0 and `%p` adds 0
for AM), and `"03 PM"` yields hour 15 (3 plus 12 for PM). -/
theorem C3_twelve_hour_symmetry :
    (∀ (ext : Tm → Int) (t : Tm), t.tm_hour = 0 →
      strftime ext "%I".toList t = some "12".toList) ∧
    (∀ (ext : Tm → Int) (t : Tm), t.tm_hour = 0 →
      strftime ext "%p".toList t = some "AM".toList) ∧
    (∀ (ext : Tm → Int) (t : Tm), t.tm_hour = 15 →
      strftime ext "%I".toList t = some "03".toList) ∧
    (∀ (ext : Tm → Int) (t : Tm), t.tm_hour = 15 →
      strftime ext "%p".toList t = some "PM".toList) ∧
    strptime "12 AM".toList "%I %p".toList =
      some (Except.ok { empty_tm with tm_hour := 0 }) ∧
    strptime "03 PM".toList "%I %p".toList =
      some (Except.ok { empty_tm with tm_hour := 15 }) := by
  refine ⟨?_, ?_, ?_, ?_, ?_, ?_⟩
  · intro ext t h
    have hf : strftime ext "%I".toList t = some (pad_zero 2 (12 : Int)) := by
      simp [strftime, strftime_go, format_type, format_I, h]
    rw [hf]
    decide
  · intro ext t h
    simp [strftime, strftime_go, format_type, format_p, h]
  · intro ext t h
    have hf : strftime ext "%I".toList t = some (pad_zero 2 (15 - 12 : Int)) := by
      simp [strftime, strftime_go, format_type, format_I, h]
    rw [hf]
    decide
  · intro ext t h
    have h12 : ¬ (t.tm_hour < 12) := by omega
    simp [strftime, strftime_go, format_type, format_p, h12]
  · decide
  · decide

/-- C3 witness: the formatting halves applied at concrete records. -/
theorem C3_twelve_hour_symmetry_witness :
    strftime (fun _ => 0) "%I".toList { empty_tm with tm_hour := 0 } = some "12".toList ∧
    strftime (fun _ => 0) "%p".toList { empty_tm with tm_hour := 15 } = some "PM".toList :=
  ⟨C3_twelve_hour_symmetry.1 (fun _ => 0) { empty_tm with tm_hour := 0 } rfl,
   C3_twelve_hour_symmetry.2.2.2.1 (fun _ => 0) { empty_tm with tm_hour := 15 } rfl⟩

/-! ## Claim C4 -/

/-- C4 counterexample: the `%Z` fallback consumes the delimiting space as
well.  Under the claim (stop before the space) the format `"%ZB"` against
`"A B"` would fail at the literal `'B'`; the code succeeds because `%Z`
consumed `"A "` and left the cursor on `'B'`. -/
theorem C4_counterexample :
    strptime "A B".toList "%ZB".toList = some (Except.ok empty_tm) := by decide

/-- Combined characterisation of the `%Z` fallback scan `z_skip_go`:
bounds, the exact value on the empty remainder, one-past-the-start on a
non-empty remainder, no interior space strictly before the last consumed
character, and termination either at end of input or on a consumed
space. -/
theorem z_skip_go_spec : ∀ (rem : List Char) (pos : Nat),
    (pos ≤ z_skip_go rem pos ∧ z_skip_go rem pos ≤ pos + rem.length) ∧
    (rem = [] → z_skip_go rem pos = pos) ∧
    (rem ≠ [] → pos + 1 ≤ z_skip_go rem pos) ∧
    (∀ i, pos ≤ i → i + 1 < z_skip_go rem pos → rem.get? (i - pos) ≠ some ' ') ∧
    (z_skip_go rem pos = pos + rem.length ∨
      rem.get? (z_skip_go rem pos - 1 - pos) = some ' ') := by
  intro rem
  induction rem with
  | nil =>
    intro pos
    refine ⟨⟨le_refl _, by simp [z_skip_go]⟩, fun _ => rfl, fun h => absurd rfl h, ?_, ?_⟩
    · intro i hi hlt
      simp [z_skip_go] at hlt
      omega
    · left; simp [z_skip_go]
  | cons c rest ih =>
    intro pos
    by_cases hc : c = ' '
    · subst hc
      have hval : z_skip_go (' ' :: rest) pos = pos + 1 := by simp [z_skip_go]
      refine ⟨⟨by omega, by rw [hval, List.length_cons]; omega⟩,
              by simp, fun _ => by omega, ?_, ?_⟩
      · intro i hi hlt
        rw [hval] at hlt
        omega
      · right
        have hidx : pos + 1 - 1 - pos = 0 := by omega
        rw [hval, hidx]
        rfl
    · have hgo : z_skip_go (c :: rest) pos = z_skip_go rest (pos + 1) := by
        simp [z_skip_go, hc]
      obtain ⟨⟨ihb1, ihb2⟩, ihe, ihne, ihmid, ihend⟩ := ih (pos + 1)
      refine ⟨⟨by omega, by simp; omega⟩, by simp, fun _ => by omega, ?_, ?_⟩
      · intro i hi hlt
        rw [hgo] at hlt
        rcases Nat.eq_or_lt_of_le hi with heq | hgt
        · subst heq
          simp [Nat.sub_self]
          exact fun hcon => hc hcon
        · have hidx : i - pos = (i - (pos + 1)) + 1 := by omega
          rw [hidx, List.get?_cons_succ]
          exact ihmid i (by omega) (by omega)
      · rcases ihend with hend | hsp
        · left
          rw [hgo, hend]
          simp
          omega
        · right
          have hrest : rest ≠ [] := by
            intro hr
            rw [hr] at hsp
            simp at hsp
          have hge : pos + 2 ≤ z_skip_go rest (pos + 1) := ihne hrest
          have hidx : z_skip_go (c :: rest) pos - 1 - pos =
              (z_skip_go rest (pos + 1) - 1 - (pos + 1)) + 1 := by
            rw [hgo]; omega
          rw [hidx, List.get?_cons_succ]
          exact hsp

/-- C4 (amended): parsing `%Z`.  A literal `"UTC"` or `"GMT"` at the cursor
sets the offset to 0, clears the zone label and advances by exactly 3.  Any
other token succeeds without touching any field, with the cursor advanced
by the fallback scan `z_skip`, which consumes characters up to AND
INCLUDING the first space (or to end of input) — and when the input ends
inside a proper prefix of `"UTC"`/`"GMT"` the bounds-checked comparison
aborts instead of succeeding. -/
theorem C4_zone_name_amended :
    (∀ (s : List Char) (pos : Nat) (tm : Tm),
      match_str s pos "UTC".toList = some true →
      parse_Z s pos tm =
        some (Except.ok (pos + 3, { tm with tm_gmtoff := 0, tm_zone := none }))) ∧
    (∀ (s : List Char) (pos : Nat) (tm : Tm),
      match_str s pos "UTC".toList = some false →
      match_str s pos "GMT".toList = some true →
      parse_Z s pos tm =
        some (Except.ok (pos + 3, { tm with tm_gmtoff := 0, tm_zone := none }))) ∧
    (∀ (s : List Char) (pos : Nat) (tm : Tm),
      match_str s pos "UTC".toList = some false →
      match_str s pos "GMT".toList = some false →
      parse_Z s pos tm = some (Except.ok (z_skip s pos, tm))) ∧
    (∀ (s : List Char) (pos : Nat), pos ≤ s.length →
      pos ≤ z_skip s pos ∧ z_skip s pos ≤ s.length ∧
      (∀ i, pos ≤ i → i + 1 < z_skip s pos → char_range_at s i ≠ some ' ') ∧
      (z_skip s pos = s.length ∨ char_range_at s (z_skip s pos - 1) = some ' ')) ∧
    (∀ (s : List Char) (pos : Nat) (tm : Tm),
      match_str s pos "UTC".toList = none → parse_Z s pos tm = none) ∧
    (∀ (s : List Char) (pos : Nat) (tm : Tm),
      match_str s pos "UTC".toList = some false →
      match_str s pos "GMT".toList = none → parse_Z s pos tm = none) := by
  refine ⟨?_, ?_, ?_, ?_, ?_, ?_⟩
  · intro s pos tm h
    rw [show ("UTC".toList : List Char) = ['U', 'T', 'C'] from rfl] at h
    simp [parse_Z, h]
  · intro s pos tm h1 h2
    rw [show ("UTC".toList : List Char) = ['U', 'T', 'C'] from rfl] at h1
    rw [show ("GMT".toList : List Char) = ['G', 'M', 'T'] from rfl] at h2
    simp [parse_Z, h1, h2]
  · intro s pos tm h1 h2
    rw [show ("UTC".toList : List Char) = ['U', 'T', 'C'] from rfl] at h1
    rw [show ("GMT".toList : List Char) = ['G', 'M', 'T'] from rfl] at h2
    simp [parse_Z, h1, h2]
  · intro s pos hp
    obtain ⟨⟨hb1, hb2⟩, hemp, hne, hmid, hend⟩ := z_skip_go_spec (s.drop pos) pos
    have hz : z_skip s pos = z_skip_go (s.drop pos) pos := rfl
    have hdl : (s.drop pos).length = s.length - pos := by simp
    rw [hdl] at hb2
    have hget : ∀ j, (s.drop pos).get? j = s.get? (pos + j) := by
      intro j
      simp [List.get?_drop]
    refine ⟨by rw [hz]; exact hb1, by rw [hz]; omega, ?_, ?_⟩
    · intro i hi hlt
      rw [hz] at hlt
      rw [char_range_at, show i = pos + (i - pos) by omega, ← hget]
      exact hmid i hi hlt
    · rcases hend with hl | hr
      · left
        rw [hdl] at hl
        rw [hz, hl]
        omega
      · right
        have hnonempty : s.drop pos ≠ [] := by
          intro hh
          rw [hh] at hr
          simp at hr
        have hge : pos + 1 ≤ z_skip_go (s.drop pos) pos := hne hnonempty
        rw [hz, char_range_at, show z_skip_go (s.drop pos) pos - 1 =
              pos + (z_skip_go (s.drop pos) pos - 1 - pos) by omega, ← hget]
        exact hr
  · intro s pos tm h
    rw [show ("UTC".toList : List Char) = ['U', 'T', 'C'] from rfl] at h
    simp [parse_Z, h]
  · intro s pos tm h1 h2
    rw [show ("UTC".toList : List Char) = ['U', 'T', 'C'] from rfl] at h1
    rw [show ("GMT".toList : List Char) = ['G', 'M', 'T'] from rfl] at h2
    simp [parse_Z, h1, h2]

/-- C4 witness: the amended theorem applied at concrete inputs. -/
theorem C4_zone_name_amended_witness :
    parse_Z "UTC".toList 0 empty_tm =
      some (Except.ok (0 + 3, { empty_tm with tm_gmtoff := 0, tm_zone := none })) ∧
    parse_Z "PST X".toList 0 empty_tm =
      some (Except.ok (z_skip "PST X".toList 0, empty_tm)) :=
  ⟨C4_zone_name_amended.1 "UTC".toList 0 empty_tm (by decide),
   C4_zone_name_amended.2.2.1 "PST X".toList 0 empty_tm (by decide) (by decide)⟩

/-! ## Claim C5 -/

/-- C5 counterexample: `"+00"` under `%z` does not fail with an error as
the claim requires — the fixed-width digit scan runs off the end of the
input and the bounds check aborts (modelled `none`). -/
theorem C5_counterexample : strptime "+00".toList "%z".toList = none := by decide

/-- C5 (amended): parsing `%z`.  A cursor character other than `'+'`/`'-'`
is an `"Invalid zone offset"` error; a sign followed by four characters
containing a non-digit is the same error; a sign followed by four digits
succeeds and advances by exactly 5, setting offset 0 and clearing the zone
label when the value is 0000 and changing nothing otherwise; when the
input ends at the cursor, or within four characters of the sign, the
bounds-checked read aborts instead of erroring. -/
theorem C5_numeric_zone_amended :
    (∀ (s : List Char) (pos : Nat) (tm : Tm) (c : Char),
      char_range_at s pos = some c → ¬ (c = '+' ∨ c = '-') →
      parse_z s pos tm = some (Except.error "Invalid zone offset")) ∧
    (∀ (s : List Char) (pos : Nat) (tm : Tm) (v : Int) (p : Nat),
      (char_range_at s pos = some '+' ∨ char_range_at s pos = some '-') →
      match_digits s (pos + 1) 4 false = some (some (v, p)) →
      parse_z s pos tm =
        some (Except.ok (p, if v = 0 then { tm with tm_gmtoff := 0, tm_zone := none }
                            else tm)) ∧ p = pos + 5) ∧
    (∀ (s : List Char) (pos : Nat) (tm : Tm),
      (char_range_at s pos = some '+' ∨ char_range_at s pos = some '-') →
      match_digits s (pos + 1) 4 false = some none →
      parse_z s pos tm = some (Except.error "Invalid zone offset")) ∧
    (∀ (s : List Char) (pos : Nat) (tm : Tm),
      char_range_at s pos = none → parse_z s pos tm = none) ∧
    (∀ (s : List Char) (pos : Nat) (tm : Tm),
      (char_range_at s pos = some '+' ∨ char_range_at s pos = some '-') →
      match_digits s (pos + 1) 4 false = none → parse_z s pos tm = none) := by
  refine ⟨?_, ?_, ?_, ?_, ?_⟩
  · intro s pos tm c hc hne
    simp [parse_z, hc, hne]
  · intro s pos tm v p hsign hmd
    constructor
    · rcases hsign with hs | hs <;> by_cases hv : v = 0 <;> simp [parse_z, hs, hmd, hv]
    · have := match_digits_pos hmd
      omega
  · intro s pos tm hsign hmd
    rcases hsign with hs | hs <;> simp [parse_z, hs, hmd]
  · intro s pos tm hc
    simp [parse_z, hc]
  · intro s pos tm hsign hmd
    rcases hsign with hs | hs <;> simp [parse_z, hs, hmd]

/-- C5 witness: the sign-plus-four-digits case applied at `"+0000"` and the
error case at `"x"`. -/
theorem C5_numeric_zone_amended_witness :
    (parse_z "+0000".toList 0 empty_tm =
      some (Except.ok (5, if (0 : Int) = 0 then { empty_tm with tm_gmtoff := 0, tm_zone := none }
                          else empty_tm)) ∧ (5 : Nat) = 0 + 5) ∧
    parse_z "x".toList 0 empty_tm = some (Except.error "Invalid zone offset") :=
  ⟨C5_numeric_zone_amended.2.1 "+0000".toList 0 empty_tm 0 5 (Or.inl (by decide)) (by decide),
   C5_numeric_zone_amended.1 "x".toList 0 empty_tm 'x' (by decide) (by decide)⟩

/-! ## Claim C6 -/

/-- C6 counterexample: a digit followed by a blank in a space-padded field
is accepted, contradicting the leftmost-padding-only claim — `"3 "` parses
under `%e` with day 3 (the blank is a no-op at any position). -/
theorem C6_counterexample :
    strptime "3 ".toList "%e".toList = some (Except.ok { empty_tm with tm_mday := 3 }) := by
  decide

/-- C6 (amended): in a fixed-width numeric field, a blank is accepted only
under space-padded specifiers, but at ANY position of the field (acting as
a no-op on the accumulated value), not only before the first digit; under
zero-padded specifiers a blank anywhere in the scanned window prevents
success. -/
theorem C6_blank_digits_amended :
    strptime "3 ".toList "%e".toList = some (Except.ok { empty_tm with tm_mday := 3 }) ∧
    (∀ (s : List Char) (p : Nat) (v : Int) (d : Nat),
      char_range_at s p = some ' ' →
      match_digits_go s true p v (d + 1) = match_digits_go s true (p + 1) v d) ∧
    (∀ (s : List Char) (pos : Nat) (d : Nat),
      char_range_at s pos = some ' ' →
      match_digits s pos (d + 1) false = some none) ∧
    (∀ (d : Nat) (s : List Char) (pos : Nat) (v w : Int) (p : Nat),
      (∃ i, i < d ∧ char_range_at s (pos + i) = some ' ') →
      match_digits_go s false pos v d ≠ some (some (w, p))) ∧
    strptime " 3".toList "%d".toList = some (Except.error "Invalid day of the month") ∧
    strptime "3 ".toList "%d".toList = some (Except.error "Invalid day of the month") := by
  refine ⟨by decide, ?_, ?_, ?_, by decide, by decide⟩
  · intro s p v d h
    exact match_digits_go_step_blank h
  · intro s pos d h
    have hnd : ¬ ('0' ≤ ' ' ∧ ' ' ≤ '9') := by decide
    rw [match_digits, match_digits_go, h]
    simp [hnd]
  · intro d
    induction d with
    | zero =>
      intro s pos v w p h
      obtain ⟨i, hi, _⟩ := h
      omega
    | succ d ih =>
      intro s pos v w p h
      obtain ⟨i, hi, hsp⟩ := h
      match hc : char_range_at s pos with
      | none =>
        rw [match_digits_go, hc]
        simp
      | some ch =>
        rw [match_digits_go, hc]
        by_cases hdig : '0' ≤ ch ∧ ch ≤ '9'
        · match i with
          | 0 =>
            rw [show pos + 0 = pos by omega, hc] at hsp
            injection hsp with hsp
            subst hsp
            exact absurd hdig (by decide)
          | i' + 1 =>
            simp only [hdig, if_pos]
            exact ih s (pos + 1) _ w p ⟨i', by omega,
              by rw [show pos + 1 + i' = pos + (i' + 1) by omega]; exact hsp⟩
        · have hnws : ¬ (ch = ' ' ∧ False) := by simp
          simp [hdig]

/-- C6 witness: the blank-step rule applied at a concrete position. -/
theorem C6_blank_digits_amended_witness :
    match_digits_go " 3".toList true 0 0 (1 + 1) = match_digits_go " 3".toList true (0 + 1) 0 1 :=
  C6_blank_digits_amended.2.1 " 3".toList 0 0 1 (by decide)

/-! ## Claim C7 -/

/-- C7 counterexample: `strftime` is not total for every tm record — the
name-table dispatches are `alt check`, so `%A` with `tm_wday = 7` is a
check failure (abort), not a string. -/
theorem C7_counterexample :
    strftime (fun _ => 0) "%A".toList { empty_tm with tm_wday := 7 } = none := by decide

/-- The weekday/month name arms are defined on their documented domains. -/
theorem format_A_total (tm : Tm) (h1 : 0 ≤ tm.tm_wday) (h2 : tm.tm_wday < 7) :
    (format_A tm).isSome = true := by
  obtain ⟨n, hn, hlt⟩ : ∃ n : Nat, tm.tm_wday = (n : Int) ∧ n < 7 :=
    ⟨tm.tm_wday.toNat, by omega, by omega⟩
  interval_cases n <;> simp [format_A, hn]

theorem format_a_total (tm : Tm) (h1 : 0 ≤ tm.tm_wday) (h2 : tm.tm_wday < 7) :
    (format_a tm).isSome = true := by
  obtain ⟨n, hn, hlt⟩ : ∃ n : Nat, tm.tm_wday = (n : Int) ∧ n < 7 :=
    ⟨tm.tm_wday.toNat, by omega, by omega⟩
  interval_cases n <;> simp [format_a, hn]

theorem format_B_total (tm : Tm) (h1 : 0 ≤ tm.tm_mon) (h2 : tm.tm_mon < 12) :
    (format_B tm).isSome = true := by
  obtain ⟨n, hn, hlt⟩ : ∃ n : Nat, tm.tm_mon = (n : Int) ∧ n < 12 :=
    ⟨tm.tm_mon.toNat, by omega, by omega⟩
  interval_cases n <;> simp [format_B, hn]

theorem format_b_total (tm : Tm) (h1 : 0 ≤ tm.tm_mon) (h2 : tm.tm_mon < 12) :
    (format_b tm).isSome = true := by
  obtain ⟨n, hn, hlt⟩ : ∃ n : Nat, tm.tm_mon = (n : Int) ∧ n < 12 :=
    ⟨tm.tm_mon.toNat, by omega, by omega⟩
  interval_cases n <;> simp [format_b, hn]

/-- Every specifier letter of the formatting table renders (no `alt check`
escape) provided the name-table fields are in range. -/
theorem format_type_total (ch : Char) (hch : ch ∈ format_table) (ext : Tm → Int) (tm : Tm)
    (hw1 : 0 ≤ tm.tm_wday) (hw2 : tm.tm_wday < 7)
    (hm1 : 0 ≤ tm.tm_mon) (hm2 : tm.tm_mon < 12) :
    (format_type ext ch tm).isSome = true := by
  rw [show format_table = ['A', 'a', 'B', 'b', 'h', 'C', 'c', 'D', 'x', 'd', 'e', 'F', 'H',
      'I', 'j', 'k', 'l', 'M', 'm', 'n', 'P', 'p', 'R', 'r', 'S', 's', 'T', 'X', 't', 'u',
      'v', 'w', 'Y', 'y', 'Z', 'z', '%'] from rfl] at hch
  fin_cases hch
  all_goals try rfl
  · rw [show format_type ext 'A' tm = format_A tm from rfl]
    exact format_A_total tm hw1 hw2
  · rw [show format_type ext 'a' tm = format_a tm from rfl]
    exact format_a_total tm hw1 hw2
  · rw [show format_type ext 'B' tm = format_B tm from rfl]
    exact format_B_total tm hm1 hm2
  · rw [show format_type ext 'b' tm = format_b tm from rfl]
    exact format_b_total tm hm1 hm2
  · rw [show format_type ext 'h' tm = format_b tm from rfl]
    exact format_b_total tm hm1 hm2
  · obtain ⟨oa, ha⟩ := Option.isSome_iff_exists.mp (format_a_total tm hw1 hw2)
    obtain ⟨ob, hb⟩ := Option.isSome_iff_exists.mp (format_b_total tm hm1 hm2)
    simp [format_type, ha, hb]
  · obtain ⟨ob, hb⟩ := Option.isSome_iff_exists.mp (format_b_total tm hm1 hm2)
    simp [format_type, hb]

theorem well_formed_format_percent (f : Char) (rest2 : List Char) :
    well_formed_format ('%' :: f :: rest2) =
      (format_table.contains f && well_formed_format rest2) := rfl

theorem well_formed_format_skip {c : Char} (rest : List Char) (hc : c ≠ '%') :
    well_formed_format (c :: rest) = well_formed_format rest := by
  rw [well_formed_format.eq_def]
  simp [hc]

theorem strftime_go_total (ext : Tm → Int) (tm : Tm)
    (hw1 : 0 ≤ tm.tm_wday) (hw2 : tm.tm_wday < 7)
    (hm1 : 0 ≤ tm.tm_mon) (hm2 : tm.tm_mon < 12) :
    ∀ (n : Nat) (fmt : List Char), fmt.length ≤ n → well_formed_format fmt = true →
      (strftime_go ext fmt tm).isSome = true := by
  intro n
  induction n with
  | zero =>
    intro fmt hlen _
    match fmt with
    | [] => rfl
    | c :: rest => simp at hlen
  | succ n ih =>
    intro fmt hlen hwf
    match fmt with
    | [] => rfl
    | c :: rest =>
      by_cases hc : c = '%'
      · subst hc
        match rest with
        | [] =>
          rw [well_formed_format.eq_def] at hwf
          simp at hwf
        | f :: rest2 =>
          rw [well_formed_format_percent, Bool.and_eq_true] at hwf
          obtain ⟨hf, hwf2⟩ := hwf
          have hmem : f ∈ format_table := by simpa using hf
          have hft := format_type_total f hmem ext tm hw1 hw2 hm1 hm2
          match hfe : format_type ext f tm with
          | none => rw [hfe] at hft; simp at hft
          | some o =>
            have hlen2 : rest2.length ≤ n := by
              have h2 : ('%' :: f :: rest2).length = rest2.length + 2 := by simp
              omega
            have hrec := ih rest2 hlen2 hwf2
            match hre : strftime_go ext rest2 tm with
            | none => rw [hre] at hrec; simp at hrec
            | some tail =>
              simp [strftime_go, hfe, hre]
      · have hwf2 : well_formed_format rest = true := by
          rwa [well_formed_format_skip rest hc] at hwf
        have hlen2 : rest.length ≤ n := by
          have h2 : (c :: rest).length = rest.length + 1 := by simp
          omega
        have hrec := ih rest hlen2 hwf2
        match hre : strftime_go ext rest tm with
        | none => rw [hre] at hrec; simp at hrec
        | some out =>
          rw [strftime_go.eq_def]
          simp [hc, hre]

/-- C7 (amended): `strftime` is total — returns a string rather than
aborting — for every format string in which each `'%'` is followed by a
table letter, PROVIDED the fields consumed by the name tables are in their
documented domains (`tm_wday ∈ [0,6]`, `tm_mon ∈ [0,11]`); outside those
domains the `alt check` dispatch aborts (see the counterexample). -/
theorem C7_strftime_total_amended (ext : Tm → Int) (fmt : List Char) (tm : Tm)
    (hwf : well_formed_format fmt = true)
    (hw1 : 0 ≤ tm.tm_wday) (hw2 : tm.tm_wday < 7)
    (hm1 : 0 ≤ tm.tm_mon) (hm2 : tm.tm_mon < 12) :
    ∃ out, strftime ext fmt tm = some out := by
  have := strftime_go_total ext tm hw1 hw2 hm1 hm2 fmt.length fmt (le_refl _) hwf
  rw [strftime]
  exact Option.isSome_iff_exists.mp this

/-- C7 witness: totality applied to a concrete format covering name,
numeric, composite, zone and escape specifiers. -/
theorem C7_strftime_total_amended_witness :
    ∃ out, strftime (fun _ => 0) "%a %c %z %Z %s %%".toList empty_tm = some out :=
  C7_strftime_total_amended (fun _ => 0) "%a %c %z %Z %s %%".toList empty_tm
    (by decide) (by decide) (by decide) (by decide) (by decide)

/-! ## Claim C8 -/

/-- C8 counterexample: input ending inside a named literal is not surfaced
as an error — matching the `"Sunday"` candidate against `"Su"` indexes past
the end of the input, a bounds-check task failure (abort), not `err`. -/
theorem C8_counterexample : strptime "Su".toList "%A".toList = none := by decide

/-- C8 (amended): `strptime` reports premature end of input as a parse
error when the end falls at a specifier/literal boundary — in particular
the empty input never aborts under any format — but input ending in the
middle of a token (named literal, fixed-width numeric run, `%z` digits, a
pending literal character) hits a bounds-checked read and aborts. -/
theorem C8_error_channel_amended :
    (∀ fmt : List Char, fmt ≠ [] →
      strptime [] fmt = some (Except.error "Invalid time")) ∧
    strptime "Fri Feb".toList "%a %b %e".toList = some (Except.error "Invalid time") ∧
    strptime "Su".toList "%A".toList = none := by
  refine ⟨?_, by decide, by decide⟩
  intro fmt hfmt
  match fmt with
  | [] => exact absurd rfl hfmt
  | c :: rest =>
    rw [strptime, strptime_loop.eq_def]
    simp

/-- C8 witness: empty input against a non-empty format. -/
theorem C8_error_channel_amended_witness :
    strptime [] "%d".toList = some (Except.error "Invalid time") :=
  C8_error_channel_amended.1 "%d".toList (by decide)

/-! ## Claim C10: frame lemmas for every parsing arm -/

theorem parse_H_frame {s : List Char} {pos : Nat} {tm : Tm} {p : Nat} {tm' : Tm}
    (hP : tm.tm_isdst = 0 ∧ tm.tm_nsec = 0 ∧ tm.tm_zone = none)
    (h : parse_H s pos tm = some (Except.ok (p, tm'))) :
    tm'.tm_isdst = 0 ∧ tm'.tm_nsec = 0 ∧ tm'.tm_zone = none := by
  unfold parse_H at h
  match hmd : match_digits s pos 2 false with
  | none => rw [hmd] at h; simp at h
  | some none => rw [hmd] at h; simp at h
  | some (some (v, q)) =>
    rw [hmd] at h
    simp at h
    obtain ⟨hq, htm⟩ := h
    exact htm ▸ ⟨hP.1, hP.2.1, hP.2.2⟩

theorem parse_I_frame {s : List Char} {pos : Nat} {tm : Tm} {p : Nat} {tm' : Tm}
    (hP : tm.tm_isdst = 0 ∧ tm.tm_nsec = 0 ∧ tm.tm_zone = none)
    (h : parse_I s pos tm = some (Except.ok (p, tm'))) :
    tm'.tm_isdst = 0 ∧ tm'.tm_nsec = 0 ∧ tm'.tm_zone = none := by
  unfold parse_I at h
  match hmd : match_digits s pos 2 false with
  | none => rw [hmd] at h; simp at h
  | some none => rw [hmd] at h; simp at h
  | some (some (v, q)) =>
    rw [hmd] at h
    simp at h
    obtain ⟨hq, htm⟩ := h
    exact htm ▸ ⟨hP.1, hP.2.1, hP.2.2⟩

theorem parse_k_frame {s : List Char} {pos : Nat} {tm : Tm} {p : Nat} {tm' : Tm}
    (hP : tm.tm_isdst = 0 ∧ tm.tm_nsec = 0 ∧ tm.tm_zone = none)
    (h : parse_k s pos tm = some (Except.ok (p, tm'))) :
    tm'.tm_isdst = 0 ∧ tm'.tm_nsec = 0 ∧ tm'.tm_zone = none := by
  unfold parse_k at h
  match hmd : match_digits s pos 2 true with
  | none => rw [hmd] at h; simp at h
  | some none => rw [hmd] at h; simp at h
  | some (some (v, q)) =>
    rw [hmd] at h
    simp at h
    obtain ⟨hq, htm⟩ := h
    exact htm ▸ ⟨hP.1, hP.2.1, hP.2.2⟩

theorem parse_l_frame {s : List Char} {pos : Nat} {tm : Tm} {p : Nat} {tm' : Tm}
    (hP : tm.tm_isdst = 0 ∧ tm.tm_nsec = 0 ∧ tm.tm_zone = none)
    (h : parse_l s pos tm = some (Except.ok (p, tm'))) :
    tm'.tm_isdst = 0 ∧ tm'.tm_nsec = 0 ∧ tm'.tm_zone = none := by
  unfold parse_l at h
  match hmd : match_digits s pos 2 true with
  | none => rw [hmd] at h; simp at h
  | some none => rw [hmd] at h; simp at h
  | some (some (v, q)) =>
    rw [hmd] at h
    simp at h
    obtain ⟨hq, htm⟩ := h
    exact htm ▸ ⟨hP.1, hP.2.1, hP.2.2⟩

theorem parse_M_frame {s : List Char} {pos : Nat} {tm : Tm} {p : Nat} {tm' : Tm}
    (hP : tm.tm_isdst = 0 ∧ tm.tm_nsec = 0 ∧ tm.tm_zone = none)
    (h : parse_M s pos tm = some (Except.ok (p, tm'))) :
    tm'.tm_isdst = 0 ∧ tm'.tm_nsec = 0 ∧ tm'.tm_zone = none := by
  unfold parse_M at h
  match hmd : match_digits s pos 2 false with
  | none => rw [hmd] at h; simp at h
  | some none => rw [hmd] at h; simp at h
  | some (some (v, q)) =>
    rw [hmd] at h
    simp at h
    obtain ⟨hq, htm⟩ := h
    exact htm ▸ ⟨hP.1, hP.2.1, hP.2.2⟩

theorem parse_m_frame {s : List Char} {pos : Nat} {tm : Tm} {p : Nat} {tm' : Tm}
    (hP : tm.tm_isdst = 0 ∧ tm.tm_nsec = 0 ∧ tm.tm_zone = none)
    (h : parse_m s pos tm = some (Except.ok (p, tm'))) :
    tm'.tm_isdst = 0 ∧ tm'.tm_nsec = 0 ∧ tm'.tm_zone = none := by
  unfold parse_m at h
  match hmd : match_digits s pos 2 false with
  | none => rw [hmd] at h; simp at h
  | some none => rw [hmd] at h; simp at h
  | some (some (v, q)) =>
    rw [hmd] at h
    simp at h
    obtain ⟨hq, htm⟩ := h
    exact htm ▸ ⟨hP.1, hP.2.1, hP.2.2⟩

theorem parse_S_frame {s : List Char} {pos : Nat} {tm : Tm} {p : Nat} {tm' : Tm}
    (hP : tm.tm_isdst = 0 ∧ tm.tm_nsec = 0 ∧ tm.tm_zone = none)
    (h : parse_S s pos tm = some (Except.ok (p, tm'))) :
    tm'.tm_isdst = 0 ∧ tm'.tm_nsec = 0 ∧ tm'.tm_zone = none := by
  unfold parse_S at h
  match hmd : match_digits s pos 2 false with
  | none => rw [hmd] at h; simp at h
  | some none => rw [hmd] at h; simp at h
  | some (some (v, q)) =>
    rw [hmd] at h
    simp at h
    obtain ⟨hq, htm⟩ := h
    exact htm ▸ ⟨hP.1, hP.2.1, hP.2.2⟩

theorem parse_d_frame {s : List Char} {pos : Nat} {tm : Tm} {p : Nat} {tm' : Tm}
    (hP : tm.tm_isdst = 0 ∧ tm.tm_nsec = 0 ∧ tm.tm_zone = none)
    (h : parse_d s pos tm = some (Except.ok (p, tm'))) :
    tm'.tm_isdst = 0 ∧ tm'.tm_nsec = 0 ∧ tm'.tm_zone = none := by
  unfold parse_d at h
  match hmd : match_digits s pos 2 false with
  | none => rw [hmd] at h; simp at h
  | some none => rw [hmd] at h; simp at h
  | some (some (v, q)) =>
    rw [hmd] at h
    simp at h
    obtain ⟨hq, htm⟩ := h
    exact htm ▸ ⟨hP.1, hP.2.1, hP.2.2⟩

theorem parse_e_frame {s : List Char} {pos : Nat} {tm : Tm} {p : Nat} {tm' : Tm}
    (hP : tm.tm_isdst = 0 ∧ tm.tm_nsec = 0 ∧ tm.tm_zone = none)
    (h : parse_e s pos tm = some (Except.ok (p, tm'))) :
    tm'.tm_isdst = 0 ∧ tm'.tm_nsec = 0 ∧ tm'.tm_zone = none := by
  unfold parse_e at h
  match hmd : match_digits s pos 2 true with
  | none => rw [hmd] at h; simp at h
  | some none => rw [hmd] at h; simp at h
  | some (some (v, q)) =>
    rw [hmd] at h
    simp at h
    obtain ⟨hq, htm⟩ := h
    exact htm ▸ ⟨hP.1, hP.2.1, hP.2.2⟩

theorem parse_j_frame {s : List Char} {pos : Nat} {tm : Tm} {p : Nat} {tm' : Tm}
    (hP : tm.tm_isdst = 0 ∧ tm.tm_nsec = 0 ∧ tm.tm_zone = none)
    (h : parse_j s pos tm = some (Except.ok (p, tm'))) :
    tm'.tm_isdst = 0 ∧ tm'.tm_nsec = 0 ∧ tm'.tm_zone = none := by
  unfold parse_j at h
  match hmd : match_digits s pos 3 false with
  | none => rw [hmd] at h; simp at h
  | some none => rw [hmd] at h; simp at h
  | some (some (v, q)) =>
    rw [hmd] at h
    simp at h
    obtain ⟨hq, htm⟩ := h
    exact htm ▸ ⟨hP.1, hP.2.1, hP.2.2⟩

theorem parse_u_frame {s : List Char} {pos : Nat} {tm : Tm} {p : Nat} {tm' : Tm}
    (hP : tm.tm_isdst = 0 ∧ tm.tm_nsec = 0 ∧ tm.tm_zone = none)
    (h : parse_u s pos tm = some (Except.ok (p, tm'))) :
    tm'.tm_isdst = 0 ∧ tm'.tm_nsec = 0 ∧ tm'.tm_zone = none := by
  unfold parse_u at h
  match hmd : match_digits s pos 1 false with
  | none => rw [hmd] at h; simp at h
  | some none => rw [hmd] at h; simp at h
  | some (some (v, q)) =>
    rw [hmd] at h
    simp at h
    obtain ⟨hq, htm⟩ := h
    exact htm ▸ ⟨hP.1, hP.2.1, hP.2.2⟩

theorem parse_w_frame {s : List Char} {pos : Nat} {tm : Tm} {p : Nat} {tm' : Tm}
    (hP : tm.tm_isdst = 0 ∧ tm.tm_nsec = 0 ∧ tm.tm_zone = none)
    (h : parse_w s pos tm = some (Except.ok (p, tm'))) :
    tm'.tm_isdst = 0 ∧ tm'.tm_nsec = 0 ∧ tm'.tm_zone = none := by
  unfold parse_w at h
  match hmd : match_digits s pos 1 false with
  | none => rw [hmd] at h; simp at h
  | some none => rw [hmd] at h; simp at h
  | some (some (v, q)) =>
    rw [hmd] at h
    simp at h
    obtain ⟨hq, htm⟩ := h
    exact htm ▸ ⟨hP.1, hP.2.1, hP.2.2⟩

theorem parse_Y_frame {s : List Char} {pos : Nat} {tm : Tm} {p : Nat} {tm' : Tm}
    (hP : tm.tm_isdst = 0 ∧ tm.tm_nsec = 0 ∧ tm.tm_zone = none)
    (h : parse_Y s pos tm = some (Except.ok (p, tm'))) :
    tm'.tm_isdst = 0 ∧ tm'.tm_nsec = 0 ∧ tm'.tm_zone = none := by
  unfold parse_Y at h
  match hmd : match_digits s pos 4 false with
  | none => rw [hmd] at h; simp at h
  | some none => rw [hmd] at h; simp at h
  | some (some (v, q)) =>
    rw [hmd] at h
    simp at h
    obtain ⟨hq, htm⟩ := h
    exact htm ▸ ⟨hP.1, hP.2.1, hP.2.2⟩

theorem parse_y_frame {s : List Char} {pos : Nat} {tm : Tm} {p : Nat} {tm' : Tm}
    (hP : tm.tm_isdst = 0 ∧ tm.tm_nsec = 0 ∧ tm.tm_zone = none)
    (h : parse_y s pos tm = some (Except.ok (p, tm'))) :
    tm'.tm_isdst = 0 ∧ tm'.tm_nsec = 0 ∧ tm'.tm_zone = none := by
  unfold parse_y at h
  match hmd : match_digits s pos 2 false with
  | none => rw [hmd] at h; simp at h
  | some none => rw [hmd] at h; simp at h
  | some (some (v, q)) =>
    rw [hmd] at h
    simp at h
    obtain ⟨hq, htm⟩ := h
    exact htm ▸ ⟨hP.1, hP.2.1, hP.2.2⟩

theorem parse_C_frame {s : List Char} {pos : Nat} {tm : Tm} {p : Nat} {tm' : Tm}
    (hP : tm.tm_isdst = 0 ∧ tm.tm_nsec = 0 ∧ tm.tm_zone = none)
    (h : parse_C s pos tm = some (Except.ok (p, tm'))) :
    tm'.tm_isdst = 0 ∧ tm'.tm_nsec = 0 ∧ tm'.tm_zone = none := by
  unfold parse_C at h
  match hmd : match_digits s pos 2 false with
  | none => rw [hmd] at h; simp at h
  | some none => rw [hmd] at h; simp at h
  | some (some (v, q)) =>
    rw [hmd] at h
    simp at h
    obtain ⟨hq, htm⟩ := h
    exact htm ▸ ⟨hP.1, hP.2.1, hP.2.2⟩

theorem parse_A_frame {s : List Char} {pos : Nat} {tm : Tm} {p : Nat} {tm' : Tm}
    (hP : tm.tm_isdst = 0 ∧ tm.tm_nsec = 0 ∧ tm.tm_zone = none)
    (h : parse_A s pos tm = some (Except.ok (p, tm'))) :
    tm'.tm_isdst = 0 ∧ tm'.tm_nsec = 0 ∧ tm'.tm_zone = none := by
  unfold parse_A at h
  match hmd : match_strs s pos weekdays_full with
  | none => rw [hmd] at h; simp at h
  | some none => rw [hmd] at h; simp at h
  | some (some (v, q)) =>
    rw [hmd] at h
    simp at h
    obtain ⟨hq, htm⟩ := h
    exact htm ▸ ⟨hP.1, hP.2.1, hP.2.2⟩

theorem parse_a_frame {s : List Char} {pos : Nat} {tm : Tm} {p : Nat} {tm' : Tm}
    (hP : tm.tm_isdst = 0 ∧ tm.tm_nsec = 0 ∧ tm.tm_zone = none)
    (h : parse_a s pos tm = some (Except.ok (p, tm'))) :
    tm'.tm_isdst = 0 ∧ tm'.tm_nsec = 0 ∧ tm'.tm_zone = none := by
  unfold parse_a at h
  match hmd : match_strs s pos weekdays_abbrev with
  | none => rw [hmd] at h; simp at h
  | some none => rw [hmd] at h; simp at h
  | some (some (v, q)) =>
    rw [hmd] at h
    simp at h
    obtain ⟨hq, htm⟩ := h
    exact htm ▸ ⟨hP.1, hP.2.1, hP.2.2⟩

theorem parse_B_frame {s : List Char} {pos : Nat} {tm : Tm} {p : Nat} {tm' : Tm}
    (hP : tm.tm_isdst = 0 ∧ tm.tm_nsec = 0 ∧ tm.tm_zone = none)
    (h : parse_B s pos tm = some (Except.ok (p, tm'))) :
    tm'.tm_isdst = 0 ∧ tm'.tm_nsec = 0 ∧ tm'.tm_zone = none := by
  unfold parse_B at h
  match hmd : match_strs s pos months_full with
  | none => rw [hmd] at h; simp at h
  | some none => rw [hmd] at h; simp at h
  | some (some (v, q)) =>
    rw [hmd] at h
    simp at h
    obtain ⟨hq, htm⟩ := h
    exact htm ▸ ⟨hP.1, hP.2.1, hP.2.2⟩

theorem parse_b_frame {s : List Char} {pos : Nat} {tm : Tm} {p : Nat} {tm' : Tm}
    (hP : tm.tm_isdst = 0 ∧ tm.tm_nsec = 0 ∧ tm.tm_zone = none)
    (h : parse_b s pos tm = some (Except.ok (p, tm'))) :
    tm'.tm_isdst = 0 ∧ tm'.tm_nsec = 0 ∧ tm'.tm_zone = none := by
  unfold parse_b at h
  match hmd : match_strs s pos months_abbrev with
  | none => rw [hmd] at h; simp at h
  | some none => rw [hmd] at h; simp at h
  | some (some (v, q)) =>
    rw [hmd] at h
    simp at h
    obtain ⟨hq, htm⟩ := h
    exact htm ▸ ⟨hP.1, hP.2.1, hP.2.2⟩

theorem parse_P_frame {s : List Char} {pos : Nat} {tm : Tm} {p : Nat} {tm' : Tm}
    (hP : tm.tm_isdst = 0 ∧ tm.tm_nsec = 0 ∧ tm.tm_zone = none)
    (h : parse_P s pos tm = some (Except.ok (p, tm'))) :
    tm'.tm_isdst = 0 ∧ tm'.tm_nsec = 0 ∧ tm'.tm_zone = none := by
  unfold parse_P at h
  match hmd : match_strs s pos ampm_lower with
  | none => rw [hmd] at h; simp at h
  | some none => rw [hmd] at h; simp at h
  | some (some (v, q)) =>
    rw [hmd] at h
    simp at h
    obtain ⟨hq, htm⟩ := h
    exact htm ▸ ⟨hP.1, hP.2.1, hP.2.2⟩

theorem parse_p_frame {s : List Char} {pos : Nat} {tm : Tm} {p : Nat} {tm' : Tm}
    (hP : tm.tm_isdst = 0 ∧ tm.tm_nsec = 0 ∧ tm.tm_zone = none)
    (h : parse_p s pos tm = some (Except.ok (p, tm'))) :
    tm'.tm_isdst = 0 ∧ tm'.tm_nsec = 0 ∧ tm'.tm_zone = none := by
  unfold parse_p at h
  match hmd : match_strs s pos ampm_upper with
  | none => rw [hmd] at h; simp at h
  | some none => rw [hmd] at h; simp at h
  | some (some (v, q)) =>
    rw [hmd] at h
    simp at h
    obtain ⟨hq, htm⟩ := h
    exact htm ▸ ⟨hP.1, hP.2.1, hP.2.2⟩

theorem parse_char_t_frame {s : List Char} {pos : Nat} {c : Char} {tm : Tm} {p : Nat}
    {tm' : Tm}
    (hP : tm.tm_isdst = 0 ∧ tm.tm_nsec = 0 ∧ tm.tm_zone = none)
    (h : parse_char_t s pos c tm = some (Except.ok (p, tm'))) :
    tm'.tm_isdst = 0 ∧ tm'.tm_nsec = 0 ∧ tm'.tm_zone = none := by
  unfold parse_char_t at h
  match hpc : parse_char s pos c with
  | none => rw [hpc] at h; simp at h
  | some (Except.error e) => rw [hpc] at h; simp at h
  | some (Except.ok q) =>
    rw [hpc] at h
    simp at h
    obtain ⟨hq, htm⟩ := h
    exact htm ▸ hP

theorem parse_Z_frame {s : List Char} {pos : Nat} {tm : Tm} {p : Nat} {tm' : Tm}
    (hP : tm.tm_isdst = 0 ∧ tm.tm_nsec = 0 ∧ tm.tm_zone = none)
    (h : parse_Z s pos tm = some (Except.ok (p, tm'))) :
    tm'.tm_isdst = 0 ∧ tm'.tm_nsec = 0 ∧ tm'.tm_zone = none := by
  unfold parse_Z at h
  match h1 : match_str s pos "UTC".toList with
  | none => rw [h1] at h; simp at h
  | some true =>
    rw [h1] at h
    simp at h
    obtain ⟨hq, htm⟩ := h
    exact htm ▸ ⟨hP.1, hP.2.1, rfl⟩
  | some false =>
    rw [h1] at h
    match h2 : match_str s pos "GMT".toList with
    | none => rw [h2] at h; simp at h
    | some true =>
      rw [h2] at h
      simp at h
      obtain ⟨hq, htm⟩ := h
      exact htm ▸ ⟨hP.1, hP.2.1, rfl⟩
    | some false =>
      rw [h2] at h
      simp at h
      obtain ⟨hq, htm⟩ := h
      exact htm ▸ hP

theorem parse_z_frame {s : List Char} {pos : Nat} {tm : Tm} {p : Nat} {tm' : Tm}
    (hP : tm.tm_isdst = 0 ∧ tm.tm_nsec = 0 ∧ tm.tm_zone = none)
    (h : parse_z s pos tm = some (Except.ok (p, tm'))) :
    tm'.tm_isdst = 0 ∧ tm'.tm_nsec = 0 ∧ tm'.tm_zone = none := by
  unfold parse_z at h
  match h1 : char_range_at s pos with
  | none => rw [h1] at h; simp at h
  | some ch =>
    rw [h1] at h
    by_cases hsign : ch = '+' ∨ ch = '-'
    · match h2 : match_digits s (pos + 1) 4 false with
      | none => rw [h2] at h; simp [hsign] at h
      | some none => rw [h2] at h; simp [hsign] at h
      | some (some (v, q)) =>
        rw [h2] at h
        by_cases hv : v = 0
        · simp [hsign, hv] at h
          obtain ⟨hq, htm⟩ := h
          exact htm ▸ ⟨hP.1, hP.2.1, rfl⟩
        · simp [hsign, hv] at h
          obtain ⟨hq, htm⟩ := h
          exact htm ▸ hP
    · simp [hsign] at h

theorem pbind_ok {α β : Type} {x : Option (Except String α)}
    {f : α → Option (Except String β)} {b : β}
    (h : pbind x f = some (Except.ok b)) :
    ∃ a, x = some (Except.ok a) ∧ f a = some (Except.ok b) := by
  match x with
  | none => simp [pbind] at h
  | some (Except.error e) => simp [pbind] at h
  | some (Except.ok a) => exact ⟨a, rfl, h⟩

theorem parse_T_frame {s : List Char} {pos : Nat} {tm : Tm} {p : Nat} {tm' : Tm}
    (hP : tm.tm_isdst = 0 ∧ tm.tm_nsec = 0 ∧ tm.tm_zone = none)
    (h : parse_T s pos tm = some (Except.ok (p, tm'))) :
    tm'.tm_isdst = 0 ∧ tm'.tm_nsec = 0 ∧ tm'.tm_zone = none := by
  unfold parse_T at h
  obtain ⟨a0, ha0, h⟩ := pbind_ok h
  obtain ⟨q0, t0⟩ := a0
  have hP0 := parse_H_frame hP ha0
  obtain ⟨a1, ha1, h⟩ := pbind_ok h
  obtain ⟨q1, t1⟩ := a1
  have hP1 := parse_char_t_frame hP0 ha1
  obtain ⟨a2, ha2, h⟩ := pbind_ok h
  obtain ⟨q2, t2⟩ := a2
  have hP2 := parse_M_frame hP1 ha2
  obtain ⟨a3, ha3, h⟩ := pbind_ok h
  obtain ⟨q3, t3⟩ := a3
  have hP3 := parse_char_t_frame hP2 ha3
  exact parse_S_frame hP3 h

theorem parse_R_frame {s : List Char} {pos : Nat} {tm : Tm} {p : Nat} {tm' : Tm}
    (hP : tm.tm_isdst = 0 ∧ tm.tm_nsec = 0 ∧ tm.tm_zone = none)
    (h : parse_R s pos tm = some (Except.ok (p, tm'))) :
    tm'.tm_isdst = 0 ∧ tm'.tm_nsec = 0 ∧ tm'.tm_zone = none := by
  unfold parse_R at h
  obtain ⟨a0, ha0, h⟩ := pbind_ok h
  obtain ⟨q0, t0⟩ := a0
  have hP0 := parse_H_frame hP ha0
  obtain ⟨a1, ha1, h⟩ := pbind_ok h
  obtain ⟨q1, t1⟩ := a1
  have hP1 := parse_char_t_frame hP0 ha1
  exact parse_M_frame hP1 h

theorem parse_r_frame {s : List Char} {pos : Nat} {tm : Tm} {p : Nat} {tm' : Tm}
    (hP : tm.tm_isdst = 0 ∧ tm.tm_nsec = 0 ∧ tm.tm_zone = none)
    (h : parse_r s pos tm = some (Except.ok (p, tm'))) :
    tm'.tm_isdst = 0 ∧ tm'.tm_nsec = 0 ∧ tm'.tm_zone = none := by
  unfold parse_r at h
  obtain ⟨a0, ha0, h⟩ := pbind_ok h
  obtain ⟨q0, t0⟩ := a0
  have hP0 := parse_I_frame hP ha0
  obtain ⟨a1, ha1, h⟩ := pbind_ok h
  obtain ⟨q1, t1⟩ := a1
  have hP1 := parse_char_t_frame hP0 ha1
  obtain ⟨a2, ha2, h⟩ := pbind_ok h
  obtain ⟨q2, t2⟩ := a2
  have hP2 := parse_M_frame hP1 ha2
  obtain ⟨a3, ha3, h⟩ := pbind_ok h
  obtain ⟨q3, t3⟩ := a3
  have hP3 := parse_char_t_frame hP2 ha3
  obtain ⟨a4, ha4, h⟩ := pbind_ok h
  obtain ⟨q4, t4⟩ := a4
  have hP4 := parse_S_frame hP3 ha4
  obtain ⟨a5, ha5, h⟩ := pbind_ok h
  obtain ⟨q5, t5⟩ := a5
  have hP5 := parse_char_t_frame hP4 ha5
  exact parse_p_frame hP5 h

theorem parse_D_frame {s : List Char} {pos : Nat} {tm : Tm} {p : Nat} {tm' : Tm}
    (hP : tm.tm_isdst = 0 ∧ tm.tm_nsec = 0 ∧ tm.tm_zone = none)
    (h : parse_D s pos tm = some (Except.ok (p, tm'))) :
    tm'.tm_isdst = 0 ∧ tm'.tm_nsec = 0 ∧ tm'.tm_zone = none := by
  unfold parse_D at h
  obtain ⟨a0, ha0, h⟩ := pbind_ok h
  obtain ⟨q0, t0⟩ := a0
  have hP0 := parse_m_frame hP ha0
  obtain ⟨a1, ha1, h⟩ := pbind_ok h
  obtain ⟨q1, t1⟩ := a1
  have hP1 := parse_char_t_frame hP0 ha1
  obtain ⟨a2, ha2, h⟩ := pbind_ok h
  obtain ⟨q2, t2⟩ := a2
  have hP2 := parse_d_frame hP1 ha2
  obtain ⟨a3, ha3, h⟩ := pbind_ok h
  obtain ⟨q3, t3⟩ := a3
  have hP3 := parse_char_t_frame hP2 ha3
  exact parse_y_frame hP3 h

theorem parse_F_frame {s : List Char} {pos : Nat} {tm : Tm} {p : Nat} {tm' : Tm}
    (hP : tm.tm_isdst = 0 ∧ tm.tm_nsec = 0 ∧ tm.tm_zone = none)
    (h : parse_F s pos tm = some (Except.ok (p, tm'))) :
    tm'.tm_isdst = 0 ∧ tm'.tm_nsec = 0 ∧ tm'.tm_zone = none := by
  unfold parse_F at h
  obtain ⟨a0, ha0, h⟩ := pbind_ok h
  obtain ⟨q0, t0⟩ := a0
  have hP0 := parse_Y_frame hP ha0
  obtain ⟨a1, ha1, h⟩ := pbind_ok h
  obtain ⟨q1, t1⟩ := a1
  have hP1 := parse_char_t_frame hP0 ha1
  obtain ⟨a2, ha2, h⟩ := pbind_ok h
  obtain ⟨q2, t2⟩ := a2
  have hP2 := parse_m_frame hP1 ha2
  obtain ⟨a3, ha3, h⟩ := pbind_ok h
  obtain ⟨q3, t3⟩ := a3
  have hP3 := parse_char_t_frame hP2 ha3
  exact parse_d_frame hP3 h

theorem parse_v_frame {s : List Char} {pos : Nat} {tm : Tm} {p : Nat} {tm' : Tm}
    (hP : tm.tm_isdst = 0 ∧ tm.tm_nsec = 0 ∧ tm.tm_zone = none)
    (h : parse_v s pos tm = some (Except.ok (p, tm'))) :
    tm'.tm_isdst = 0 ∧ tm'.tm_nsec = 0 ∧ tm'.tm_zone = none := by
  unfold parse_v at h
  obtain ⟨a0, ha0, h⟩ := pbind_ok h
  obtain ⟨q0, t0⟩ := a0
  have hP0 := parse_e_frame hP ha0
  obtain ⟨a1, ha1, h⟩ := pbind_ok h
  obtain ⟨q1, t1⟩ := a1
  have hP1 := parse_char_t_frame hP0 ha1
  obtain ⟨a2, ha2, h⟩ := pbind_ok h
  obtain ⟨q2, t2⟩ := a2
  have hP2 := parse_b_frame hP1 ha2
  obtain ⟨a3, ha3, h⟩ := pbind_ok h
  obtain ⟨q3, t3⟩ := a3
  have hP3 := parse_char_t_frame hP2 ha3
  exact parse_Y_frame hP3 h

theorem parse_c_frame {s : List Char} {pos : Nat} {tm : Tm} {p : Nat} {tm' : Tm}
    (hP : tm.tm_isdst = 0 ∧ tm.tm_nsec = 0 ∧ tm.tm_zone = none)
    (h : parse_c s pos tm = some (Except.ok (p, tm'))) :
    tm'.tm_isdst = 0 ∧ tm'.tm_nsec = 0 ∧ tm'.tm_zone = none := by
  unfold parse_c at h
  obtain ⟨a0, ha0, h⟩ := pbind_ok h
  obtain ⟨q0, t0⟩ := a0
  have hP0 := parse_a_frame hP ha0
  obtain ⟨a1, ha1, h⟩ := pbind_ok h
  obtain ⟨q1, t1⟩ := a1
  have hP1 := parse_char_t_frame hP0 ha1
  obtain ⟨a2, ha2, h⟩ := pbind_ok h
  obtain ⟨q2, t2⟩ := a2
  have hP2 := parse_b_frame hP1 ha2
  obtain ⟨a3, ha3, h⟩ := pbind_ok h
  obtain ⟨q3, t3⟩ := a3
  have hP3 := parse_char_t_frame hP2 ha3
  obtain ⟨a4, ha4, h⟩ := pbind_ok h
  obtain ⟨q4, t4⟩ := a4
  have hP4 := parse_e_frame hP3 ha4
  obtain ⟨a5, ha5, h⟩ := pbind_ok h
  obtain ⟨q5, t5⟩ := a5
  have hP5 := parse_char_t_frame hP4 ha5
  obtain ⟨a6, ha6, h⟩ := pbind_ok h
  obtain ⟨q6, t6⟩ := a6
  have hP6 := parse_T_frame hP5 ha6
  obtain ⟨a7, ha7, h⟩ := pbind_ok h
  obtain ⟨q7, t7⟩ := a7
  have hP7 := parse_char_t_frame hP6 ha7
  exact parse_Y_frame hP7 h

/-- Every specifier arm preserves the never-written fields (`tm_isdst`,
`tm_nsec`) and the only zone-pointer writes store null. -/
theorem parse_type_frame {s : List Char} {pos : Nat} {ch : Char} {tm : Tm} {p : Nat}
    {tm' : Tm}
    (hP : tm.tm_isdst = 0 ∧ tm.tm_nsec = 0 ∧ tm.tm_zone = none)
    (h : parse_type s pos ch tm = some (Except.ok (p, tm'))) :
    tm'.tm_isdst = 0 ∧ tm'.tm_nsec = 0 ∧ tm'.tm_zone = none := by
  unfold parse_type at h
  split at h
  · exact parse_A_frame hP h
  · exact parse_a_frame hP h
  · exact parse_B_frame hP h
  · exact parse_b_frame hP h
  · exact parse_b_frame hP h
  · exact parse_C_frame hP h
  · exact parse_c_frame hP h
  · exact parse_D_frame hP h
  · exact parse_D_frame hP h
  · exact parse_d_frame hP h
  · exact parse_e_frame hP h
  · exact parse_F_frame hP h
  · exact parse_H_frame hP h
  · exact parse_I_frame hP h
  · exact parse_j_frame hP h
  · exact parse_k_frame hP h
  · exact parse_l_frame hP h
  · exact parse_M_frame hP h
  · exact parse_m_frame hP h
  · exact parse_char_t_frame hP h
  · exact parse_P_frame hP h
  · exact parse_p_frame hP h
  · exact parse_R_frame hP h
  · exact parse_r_frame hP h
  · exact parse_S_frame hP h
  · exact parse_T_frame hP h
  · exact parse_T_frame hP h
  · exact parse_char_t_frame hP h
  · exact parse_u_frame hP h
  · exact parse_v_frame hP h
  · exact parse_w_frame hP h
  · exact parse_Y_frame hP h
  · exact parse_y_frame hP h
  · exact parse_Z_frame hP h
  · exact parse_z_frame hP h
  · exact parse_char_t_frame hP h
  · simp at h


/-- One-step equations for the main loop, with the guards discharged. -/
theorem strptime_loop_percent (s : List Char) (f : Char) (rest2 : List Char) (pos : Nat)
    (tm : Tm) (hpos : pos < s.length) :
    strptime_loop s ('%' :: f :: rest2) pos tm =
      match parse_type s pos f tm with
      | none => none
      | some (Except.error e) => some (Except.error e)
      | some (Except.ok (p, t)) => strptime_loop s rest2 p t := by
  rw [strptime_loop.eq_def]
  simp [hpos]

theorem strptime_loop_percent_nil (s : List Char) (pos : Nat) (tm : Tm)
    (hpos : pos < s.length) :
    strptime_loop s ['%'] pos tm = some (Except.error "unknown formatting type: ") := by
  rw [strptime_loop.eq_def]
  simp [hpos]

theorem strptime_loop_literal (s : List Char) (c : Char) (rest : List Char) (pos : Nat)
    (tm : Tm) (hpos : pos < s.length) (hc : c ≠ '%') :
    strptime_loop s (c :: rest) pos tm =
      match char_range_at s pos with
      | none => none
      | some ch => if c = ch then strptime_loop s rest (pos + 1) tm
                   else some (Except.error "Invalid time") := by
  rw [strptime_loop.eq_def]
  simp [hpos, hc]

theorem strptime_loop_stop (s : List Char) (c : Char) (rest : List Char) (pos : Nat)
    (tm : Tm) (hpos : ¬ pos < s.length) :
    strptime_loop s (c :: rest) pos tm = some (Except.error "Invalid time") := by
  rw [strptime_loop.eq_def]
  simp [hpos]

/-- Reading past the end of the input aborts. -/
theorem char_range_at_past {s : List Char} {pos : Nat} (h : s.length ≤ pos) :
    char_range_at s pos = none := by
  simp [char_range_at, List.get?_eq_none, h]

theorem char_range_at_within {s : List Char} {pos : Nat} (h : pos < s.length) :
    ∃ ch, char_range_at s pos = some ch :=
  ⟨s.get ⟨pos, h⟩, List.get?_eq_get h⟩

theorem match_digits_past (s : List Char) (pos d : Nat) (ws : Bool) (h : s.length ≤ pos) :
    match_digits s pos (d + 1) ws = none := by
  simp [match_digits, match_digits_go, char_range_at_past h]

theorem parse_type_is_T (s : List Char) (pos : Nat) (tm : Tm) :
    parse_type s pos 'T' tm = parse_T s pos tm := rfl

theorem parse_type_is_H (s : List Char) (pos : Nat) (tm : Tm) :
    parse_type s pos 'H' tm = parse_H s pos tm := rfl

theorem parse_type_is_M (s : List Char) (pos : Nat) (tm : Tm) :
    parse_type s pos 'M' tm = parse_M s pos tm := rfl

theorem parse_type_is_S (s : List Char) (pos : Nat) (tm : Tm) :
    parse_type s pos 'S' tm = parse_S s pos tm := rfl

theorem strptime_T_HMS_ok_iff (s : List Char) (t : Tm) :
    strptime s "%T".toList = some (Except.ok t) ↔
    strptime s "%H:%M:%S".toList = some (Except.ok t) := by
  rw [show ("%T".toList : List Char) = ['%', 'T'] from rfl,
      show ("%H:%M:%S".toList : List Char) = ['%', 'H', ':', '%', 'M', ':', '%', 'S'] from rfl,
      strptime, strptime]
  by_cases h0 : 0 < s.length
  · rw [strptime_loop_percent s 'T' [] 0 empty_tm h0,
        strptime_loop_percent s 'H' [':', '%', 'M', ':', '%', 'S'] 0 empty_tm h0,
        parse_type_is_T, parse_type_is_H]
    simp only [parse_T]
    rcases hd1 : match_digits s 0 2 false with _ | (_ | ⟨v1, p1⟩)
    · simp [parse_H, hd1, pbind]
    · simp [parse_H, hd1, pbind]
    · have hp1 : p1 = 2 := by have := match_digits_pos hd1; omega
      subst hp1
      simp only [parse_H, hd1, pbind]
      by_cases h2 : 2 < s.length
      · obtain ⟨ch, hc2⟩ := char_range_at_within h2
        rw [strptime_loop_literal s ':' ['%', 'M', ':', '%', 'S'] 2 _ h2 (by decide)]
        by_cases hch : (':' : Char) = ch
        · subst hch
          simp only [parse_char_t, parse_char, hc2, ite_true, if_pos rfl, pbind, Nat.reduceAdd]
          by_cases h3 : 3 < s.length
          · rw [strptime_loop_percent s 'M' [':', '%', 'S'] 3 _ h3, parse_type_is_M]
            rcases hd2 : match_digits s 3 2 false with _ | (_ | ⟨v2, p2⟩)
            · simp [parse_M, hd2, pbind]
            · simp [parse_M, hd2, pbind]
            · have hp2 : p2 = 5 := by have := match_digits_pos hd2; omega
              subst hp2
              simp only [parse_M, hd2, pbind]
              by_cases h5 : 5 < s.length
              · obtain ⟨ch2, hc5⟩ := char_range_at_within h5
                rw [strptime_loop_literal s ':' ['%', 'S'] 5 _ h5 (by decide)]
                by_cases hch2 : (':' : Char) = ch2
                · subst hch2
                  simp only [parse_char_t, parse_char, hc5, ite_true, if_pos rfl, pbind,
                    Nat.reduceAdd]
                  by_cases h6 : 6 < s.length
                  · rw [strptime_loop_percent s 'S' [] 6 _ h6, parse_type_is_S]
                  · have hmd : match_digits s 6 2 false = none :=
                      match_digits_past s 6 1 false (by omega)
                    rw [strptime_loop_stop s '%' ['S'] 6 _ h6]
                    simp [parse_S, hmd]
                · simp only [hc5]
                  rw [if_neg hch2]
                  simp [parse_char_t, parse_char, hc5, hch2, pbind]
              · have hc5 : char_range_at s 5 = none := char_range_at_past (by omega)
                rw [strptime_loop_stop s ':' ['%', 'S'] 5 _ h5]
                simp [parse_char_t, parse_char, hc5, pbind]
          · have hmd : match_digits s 3 2 false = none :=
              match_digits_past s 3 1 false (by omega)
            rw [strptime_loop_stop s '%' ['M', ':', '%', 'S'] 3 _ h3]
            simp [parse_M, hmd, pbind]
        · simp only [hc2]
          rw [if_neg hch]
          simp [parse_char_t, parse_char, hc2, hch, pbind]
      · have hc2 : char_range_at s 2 = none := char_range_at_past (by omega)
        rw [strptime_loop_stop s ':' ['%', 'M', ':', '%', 'S'] 2 _ h2]
        simp [parse_char_t, parse_char, hc2, pbind]
  · rw [strptime_loop_stop s '%' ['T'] 0 empty_tm h0,
        strptime_loop_stop s '%' ['H', ':', '%', 'M', ':', '%', 'S'] 0 empty_tm h0]

/-- The main loop preserves the frame fields from the zero-initialised
working record to the returned one. -/
theorem strptime_loop_frame (s : List Char) :
    ∀ (n : Nat) (fmt : List Char), fmt.length ≤ n → ∀ (pos : Nat) (tm t : Tm),
      tm.tm_isdst = 0 ∧ tm.tm_nsec = 0 ∧ tm.tm_zone = none →
      strptime_loop s fmt pos tm = some (Except.ok t) →
      t.tm_isdst = 0 ∧ t.tm_nsec = 0 ∧ t.tm_zone = none := by
  intro n
  induction n with
  | zero =>
    intro fmt hlen pos tm t hP h
    match fmt with
    | [] =>
      rw [strptime_loop] at h
      by_cases hp : pos = s.length
      · rw [if_pos hp] at h
        simp at h
        exact h ▸ hP
      · rw [if_neg hp] at h
        simp at h
    | c :: rest => simp at hlen
  | succ n ih =>
    intro fmt hlen pos tm t hP h
    match fmt with
    | [] =>
      rw [strptime_loop] at h
      by_cases hp : pos = s.length
      · rw [if_pos hp] at h
        simp at h
        exact h ▸ hP
      · rw [if_neg hp] at h
        simp at h
    | c :: rest =>
      by_cases hpos : pos < s.length
      · by_cases hc : c = '%'
        · subst hc
          match rest with
          | [] =>
            rw [strptime_loop_percent_nil s pos tm hpos] at h
            simp at h
          | f :: rest2 =>
            rw [strptime_loop_percent s f rest2 pos tm hpos] at h
            match hpt : parse_type s pos f tm with
            | none => rw [hpt] at h; simp at h
            | some (Except.error e) => rw [hpt] at h; simp at h
            | some (Except.ok (p2, t2)) =>
              rw [hpt] at h
              have hP2 := parse_type_frame hP hpt
              have hlen2 : rest2.length ≤ n := by
                have h2 : ('%' :: f :: rest2).length = rest2.length + 2 := by simp
                omega
              exact ih rest2 hlen2 p2 t2 t hP2 h
        · rw [strptime_loop_literal s c rest pos tm hpos hc] at h
          match hcr : char_range_at s pos with
          | none => rw [hcr] at h; simp at h
          | some ch =>
            rw [hcr] at h
            by_cases hch : c = ch
            · simp only [hch, if_pos] at h
              have hlen2 : rest.length ≤ n := by
                have h2 : (c :: rest).length = rest.length + 1 := by simp
                omega
              exact ih rest hlen2 (pos + 1) tm t hP h
            · simp [hch] at h
      · rw [strptime_loop_stop s c rest pos tm hpos] at h
        simp at h

theorem tm_field_eq_refl (a : Tm) (fl : TmField) : tm_field_eq a a fl := by
  cases fl <;> rfl

theorem tm_field_eq_trans {a b c : Tm} {fl : TmField}
    (h1 : tm_field_eq a b fl) (h2 : tm_field_eq b c fl) : tm_field_eq a c fl := by
  cases fl <;> exact Eq.trans h1 h2

theorem format_writes_literal {c : Char} (rest : List Char) (fl : TmField) (hc : c ≠ '%') :
    format_writes (c :: rest) fl = format_writes rest fl := by
  rw [format_writes.eq_def]
  simp [hc]

theorem format_writes_percent (f : Char) (rest2 : List Char) (fl : TmField) :
    format_writes ('%' :: f :: rest2) fl =
      (decide (fl ∈ spec_writes f) || format_writes rest2 fl) := by
  rw [format_writes.eq_def]
  simp

theorem parse_H_agrees {s : List Char} {pos : Nat} {tm : Tm} {p : Nat} {tm' : Tm}
    (h : parse_H s pos tm = some (Except.ok (p, tm'))) :
    ∀ fl : TmField, fl ∉ spec_writes 'H' → tm_field_eq tm' tm fl := by
  unfold parse_H at h
  match hmd : match_digits s pos 2 false with
  | none => rw [hmd] at h; simp at h
  | some none => rw [hmd] at h; simp at h
  | some (some (v, q)) =>
    rw [hmd] at h
    simp at h
    obtain ⟨hq, htm⟩ := h
    subst htm
    intro fl hfl
    cases fl <;> first | rfl | simp [spec_writes] at hfl

theorem parse_C_agrees {s : List Char} {pos : Nat} {tm : Tm} {p : Nat} {tm' : Tm}
    (h : parse_C s pos tm = some (Except.ok (p, tm'))) :
    ∀ fl : TmField, fl ∉ spec_writes 'C' → tm_field_eq tm' tm fl := by
  unfold parse_C at h
  match hmd : match_digits s pos 2 false with
  | none => rw [hmd] at h; simp at h
  | some none => rw [hmd] at h; simp at h
  | some (some (v, q)) =>
    rw [hmd] at h
    simp at h
    obtain ⟨hq, htm⟩ := h
    subst htm
    intro fl hfl
    cases fl <;> first | rfl | simp [spec_writes] at hfl

theorem parse_d_agrees {s : List Char} {pos : Nat} {tm : Tm} {p : Nat} {tm' : Tm}
    (h : parse_d s pos tm = some (Except.ok (p, tm'))) :
    ∀ fl : TmField, fl ∉ spec_writes 'd' → tm_field_eq tm' tm fl := by
  unfold parse_d at h
  match hmd : match_digits s pos 2 false with
  | none => rw [hmd] at h; simp at h
  | some none => rw [hmd] at h; simp at h
  | some (some (v, q)) =>
    rw [hmd] at h
    simp at h
    obtain ⟨hq, htm⟩ := h
    subst htm
    intro fl hfl
    cases fl <;> first | rfl | simp [spec_writes] at hfl

theorem parse_e_agrees {s : List Char} {pos : Nat} {tm : Tm} {p : Nat} {tm' : Tm}
    (h : parse_e s pos tm = some (Except.ok (p, tm'))) :
    ∀ fl : TmField, fl ∉ spec_writes 'e' → tm_field_eq tm' tm fl := by
  unfold parse_e at h
  match hmd : match_digits s pos 2 true with
  | none => rw [hmd] at h; simp at h
  | some none => rw [hmd] at h; simp at h
  | some (some (v, q)) =>
    rw [hmd] at h
    simp at h
    obtain ⟨hq, htm⟩ := h
    subst htm
    intro fl hfl
    cases fl <;> first | rfl | simp [spec_writes] at hfl

theorem parse_I_agrees {s : List Char} {pos : Nat} {tm : Tm} {p : Nat} {tm' : Tm}
    (h : parse_I s pos tm = some (Except.ok (p, tm'))) :
    ∀ fl : TmField, fl ∉ spec_writes 'I' → tm_field_eq tm' tm fl := by
  unfold parse_I at h
  match hmd : match_digits s pos 2 false with
  | none => rw [hmd] at h; simp at h
  | some none => rw [hmd] at h; simp at h
  | some (some (v, q)) =>
    rw [hmd] at h
    simp at h
    obtain ⟨hq, htm⟩ := h
    subst htm
    intro fl hfl
    cases fl <;> first | rfl | simp [spec_writes] at hfl

theorem parse_j_agrees {s : List Char} {pos : Nat} {tm : Tm} {p : Nat} {tm' : Tm}
    (h : parse_j s pos tm = some (Except.ok (p, tm'))) :
    ∀ fl : TmField, fl ∉ spec_writes 'j' → tm_field_eq tm' tm fl := by
  unfold parse_j at h
  match hmd : match_digits s pos 3 false with
  | none => rw [hmd] at h; simp at h
  | some none => rw [hmd] at h; simp at h
  | some (some (v, q)) =>
    rw [hmd] at h
    simp at h
    obtain ⟨hq, htm⟩ := h
    subst htm
    intro fl hfl
    cases fl <;> first | rfl | simp [spec_writes] at hfl

theorem parse_k_agrees {s : List Char} {pos : Nat} {tm : Tm} {p : Nat} {tm' : Tm}
    (h : parse_k s pos tm = some (Except.ok (p, tm'))) :
    ∀ fl : TmField, fl ∉ spec_writes 'k' → tm_field_eq tm' tm fl := by
  unfold parse_k at h
  match hmd : match_digits s pos 2 true with
  | none => rw [hmd] at h; simp at h
  | some none => rw [hmd] at h; simp at h
  | some (some (v, q)) =>
    rw [hmd] at h
    simp at h
    obtain ⟨hq, htm⟩ := h
    subst htm
    intro fl hfl
    cases fl <;> first | rfl | simp [spec_writes] at hfl

theorem parse_l_agrees {s : List Char} {pos : Nat} {tm : Tm} {p : Nat} {tm' : Tm}
    (h : parse_l s pos tm = some (Except.ok (p, tm'))) :
    ∀ fl : TmField, fl ∉ spec_writes 'l' → tm_field_eq tm' tm fl := by
  unfold parse_l at h
  match hmd : match_digits s pos 2 true with
  | none => rw [hmd] at h; simp at h
  | some none => rw [hmd] at h; simp at h
  | some (some (v, q)) =>
    rw [hmd] at h
    simp at h
    obtain ⟨hq, htm⟩ := h
    subst htm
    intro fl hfl
    cases fl <;> first | rfl | simp [spec_writes] at hfl

theorem parse_M_agrees {s : List Char} {pos : Nat} {tm : Tm} {p : Nat} {tm' : Tm}
    (h : parse_M s pos tm = some (Except.ok (p, tm'))) :
    ∀ fl : TmField, fl ∉ spec_writes 'M' → tm_field_eq tm' tm fl := by
  unfold parse_M at h
  match hmd : match_digits s pos 2 false with
  | none => rw [hmd] at h; simp at h
  | some none => rw [hmd] at h; simp at h
  | some (some (v, q)) =>
    rw [hmd] at h
    simp at h
    obtain ⟨hq, htm⟩ := h
    subst htm
    intro fl hfl
    cases fl <;> first | rfl | simp [spec_writes] at hfl

theorem parse_m_agrees {s : List Char} {pos : Nat} {tm : Tm} {p : Nat} {tm' : Tm}
    (h : parse_m s pos tm = some (Except.ok (p, tm'))) :
    ∀ fl : TmField, fl ∉ spec_writes 'm' → tm_field_eq tm' tm fl := by
  unfold parse_m at h
  match hmd : match_digits s pos 2 false with
  | none => rw [hmd] at h; simp at h
  | some none => rw [hmd] at h; simp at h
  | some (some (v, q)) =>
    rw [hmd] at h
    simp at h
    obtain ⟨hq, htm⟩ := h
    subst htm
    intro fl hfl
    cases fl <;> first | rfl | simp [spec_writes] at hfl

theorem parse_S_agrees {s : List Char} {pos : Nat} {tm : Tm} {p : Nat} {tm' : Tm}
    (h : parse_S s pos tm = some (Except.ok (p, tm'))) :
    ∀ fl : TmField, fl ∉ spec_writes 'S' → tm_field_eq tm' tm fl := by
  unfold parse_S at h
  match hmd : match_digits s pos 2 false with
  | none => rw [hmd] at h; simp at h
  | some none => rw [hmd] at h; simp at h
  | some (some (v, q)) =>
    rw [hmd] at h
    simp at h
    obtain ⟨hq, htm⟩ := h
    subst htm
    intro fl hfl
    cases fl <;> first | rfl | simp [spec_writes] at hfl

theorem parse_u_agrees {s : List Char} {pos : Nat} {tm : Tm} {p : Nat} {tm' : Tm}
    (h : parse_u s pos tm = some (Except.ok (p, tm'))) :
    ∀ fl : TmField, fl ∉ spec_writes 'u' → tm_field_eq tm' tm fl := by
  unfold parse_u at h
  match hmd : match_digits s pos 1 false with
  | none => rw [hmd] at h; simp at h
  | some none => rw [hmd] at h; simp at h
  | some (some (v, q)) =>
    rw [hmd] at h
    simp at h
    obtain ⟨hq, htm⟩ := h
    subst htm
    intro fl hfl
    cases fl <;> first | rfl | simp [spec_writes] at hfl

theorem parse_w_agrees {s : List Char} {pos : Nat} {tm : Tm} {p : Nat} {tm' : Tm}
    (h : parse_w s pos tm = some (Except.ok (p, tm'))) :
    ∀ fl : TmField, fl ∉ spec_writes 'w' → tm_field_eq tm' tm fl := by
  unfold parse_w at h
  match hmd : match_digits s pos 1 false with
  | none => rw [hmd] at h; simp at h
  | some none => rw [hmd] at h; simp at h
  | some (some (v, q)) =>
    rw [hmd] at h
    simp at h
    obtain ⟨hq, htm⟩ := h
    subst htm
    intro fl hfl
    cases fl <;> first | rfl | simp [spec_writes] at hfl

theorem parse_Y_agrees {s : List Char} {pos : Nat} {tm : Tm} {p : Nat} {tm' : Tm}
    (h : parse_Y s pos tm = some (Except.ok (p, tm'))) :
    ∀ fl : TmField, fl ∉ spec_writes 'Y' → tm_field_eq tm' tm fl := by
  unfold parse_Y at h
  match hmd : match_digits s pos 4 false with
  | none => rw [hmd] at h; simp at h
  | some none => rw [hmd] at h; simp at h
  | some (some (v, q)) =>
    rw [hmd] at h
    simp at h
    obtain ⟨hq, htm⟩ := h
    subst htm
    intro fl hfl
    cases fl <;> first | rfl | simp [spec_writes] at hfl

theorem parse_y_agrees {s : List Char} {pos : Nat} {tm : Tm} {p : Nat} {tm' : Tm}
    (h : parse_y s pos tm = some (Except.ok (p, tm'))) :
    ∀ fl : TmField, fl ∉ spec_writes 'y' → tm_field_eq tm' tm fl := by
  unfold parse_y at h
  match hmd : match_digits s pos 2 false with
  | none => rw [hmd] at h; simp at h
  | some none => rw [hmd] at h; simp at h
  | some (some (v, q)) =>
    rw [hmd] at h
    simp at h
    obtain ⟨hq, htm⟩ := h
    subst htm
    intro fl hfl
    cases fl <;> first | rfl | simp [spec_writes] at hfl

theorem parse_A_agrees {s : List Char} {pos : Nat} {tm : Tm} {p : Nat} {tm' : Tm}
    (h : parse_A s pos tm = some (Except.ok (p, tm'))) :
    ∀ fl : TmField, fl ∉ spec_writes 'A' → tm_field_eq tm' tm fl := by
  unfold parse_A at h
  match hmd : match_strs s pos weekdays_full with
  | none => rw [hmd] at h; simp at h
  | some none => rw [hmd] at h; simp at h
  | some (some (v, q)) =>
    rw [hmd] at h
    simp at h
    obtain ⟨hq, htm⟩ := h
    subst htm
    intro fl hfl
    cases fl <;> first | rfl | simp [spec_writes] at hfl

theorem parse_a_agrees {s : List Char} {pos : Nat} {tm : Tm} {p : Nat} {tm' : Tm}
    (h : parse_a s pos tm = some (Except.ok (p, tm'))) :
    ∀ fl : TmField, fl ∉ spec_writes 'a' → tm_field_eq tm' tm fl := by
  unfold parse_a at h
  match hmd : match_strs s pos weekdays_abbrev with
  | none => rw [hmd] at h; simp at h
  | some none => rw [hmd] at h; simp at h
  | some (some (v, q)) =>
    rw [hmd] at h
    simp at h
    obtain ⟨hq, htm⟩ := h
    subst htm
    intro fl hfl
    cases fl <;> first | rfl | simp [spec_writes] at hfl

theorem parse_B_agrees {s : List Char} {pos : Nat} {tm : Tm} {p : Nat} {tm' : Tm}
    (h : parse_B s pos tm = some (Except.ok (p, tm'))) :
    ∀ fl : TmField, fl ∉ spec_writes 'B' → tm_field_eq tm' tm fl := by
  unfold parse_B at h
  match hmd : match_strs s pos months_full with
  | none => rw [hmd] at h; simp at h
  | some none => rw [hmd] at h; simp at h
  | some (some (v, q)) =>
    rw [hmd] at h
    simp at h
    obtain ⟨hq, htm⟩ := h
    subst htm
    intro fl hfl
    cases fl <;> first | rfl | simp [spec_writes] at hfl

theorem parse_b_agrees {s : List Char} {pos : Nat} {tm : Tm} {p : Nat} {tm' : Tm}
    (h : parse_b s pos tm = some (Except.ok (p, tm'))) :
    ∀ fl : TmField, fl ∉ spec_writes 'b' → tm_field_eq tm' tm fl := by
  unfold parse_b at h
  match hmd : match_strs s pos months_abbrev with
  | none => rw [hmd] at h; simp at h
  | some none => rw [hmd] at h; simp at h
  | some (some (v, q)) =>
    rw [hmd] at h
    simp at h
    obtain ⟨hq, htm⟩ := h
    subst htm
    intro fl hfl
    cases fl <;> first | rfl | simp [spec_writes] at hfl

theorem parse_P_agrees {s : List Char} {pos : Nat} {tm : Tm} {p : Nat} {tm' : Tm}
    (h : parse_P s pos tm = some (Except.ok (p, tm'))) :
    ∀ fl : TmField, fl ∉ spec_writes 'P' → tm_field_eq tm' tm fl := by
  unfold parse_P at h
  match hmd : match_strs s pos ampm_lower with
  | none => rw [hmd] at h; simp at h
  | some none => rw [hmd] at h; simp at h
  | some (some (v, q)) =>
    rw [hmd] at h
    simp at h
    obtain ⟨hq, htm⟩ := h
    subst htm
    intro fl hfl
    cases fl <;> first | rfl | simp [spec_writes] at hfl

theorem parse_p_agrees {s : List Char} {pos : Nat} {tm : Tm} {p : Nat} {tm' : Tm}
    (h : parse_p s pos tm = some (Except.ok (p, tm'))) :
    ∀ fl : TmField, fl ∉ spec_writes 'p' → tm_field_eq tm' tm fl := by
  unfold parse_p at h
  match hmd : match_strs s pos ampm_upper with
  | none => rw [hmd] at h; simp at h
  | some none => rw [hmd] at h; simp at h
  | some (some (v, q)) =>
    rw [hmd] at h
    simp at h
    obtain ⟨hq, htm⟩ := h
    subst htm
    intro fl hfl
    cases fl <;> first | rfl | simp [spec_writes] at hfl

theorem parse_char_t_agrees {s : List Char} {pos : Nat} {c : Char} {tm : Tm} {p : Nat}
    {tm' : Tm}
    (h : parse_char_t s pos c tm = some (Except.ok (p, tm'))) :
    ∀ fl : TmField, tm_field_eq tm' tm fl := by
  unfold parse_char_t at h
  match hpc : parse_char s pos c with
  | none => rw [hpc] at h; simp at h
  | some (Except.error e) => rw [hpc] at h; simp at h
  | some (Except.ok q) =>
    rw [hpc] at h
    simp at h
    obtain ⟨hq, htm⟩ := h
    subst htm
    intro fl
    exact tm_field_eq_refl tm fl

theorem parse_Z_agrees {s : List Char} {pos : Nat} {tm : Tm} {p : Nat} {tm' : Tm}
    (h : parse_Z s pos tm = some (Except.ok (p, tm'))) :
    ∀ fl : TmField, fl ∉ spec_writes 'Z' → tm_field_eq tm' tm fl := by
  unfold parse_Z at h
  match h1 : match_str s pos "UTC".toList with
  | none => rw [h1] at h; simp at h
  | some true =>
    rw [h1] at h
    simp at h
    obtain ⟨hq, htm⟩ := h
    subst htm
    intro fl hfl
    cases fl <;> first | rfl | simp [spec_writes] at hfl
  | some false =>
    rw [h1] at h
    match h2 : match_str s pos "GMT".toList with
    | none => rw [h2] at h; simp at h
    | some true =>
      rw [h2] at h
      simp at h
      obtain ⟨hq, htm⟩ := h
      subst htm
      intro fl hfl
      cases fl <;> first | rfl | simp [spec_writes] at hfl
    | some false =>
      rw [h2] at h
      simp at h
      obtain ⟨hq, htm⟩ := h
      subst htm
      intro fl hfl
      exact tm_field_eq_refl tm fl

theorem parse_z_agrees {s : List Char} {pos : Nat} {tm : Tm} {p : Nat} {tm' : Tm}
    (h : parse_z s pos tm = some (Except.ok (p, tm'))) :
    ∀ fl : TmField, fl ∉ spec_writes 'z' → tm_field_eq tm' tm fl := by
  unfold parse_z at h
  match h1 : char_range_at s pos with
  | none => rw [h1] at h; simp at h
  | some ch =>
    rw [h1] at h
    by_cases hsign : ch = '+' ∨ ch = '-'
    · match h2 : match_digits s (pos + 1) 4 false with
      | none => rw [h2] at h; simp [hsign] at h
      | some none => rw [h2] at h; simp [hsign] at h
      | some (some (v, q)) =>
        rw [h2] at h
        by_cases hv : v = 0
        · simp [hsign, hv] at h
          obtain ⟨hq, htm⟩ := h
          subst htm
          intro fl hfl
          cases fl <;> first | rfl | simp [spec_writes] at hfl
        · simp [hsign, hv] at h
          obtain ⟨hq, htm⟩ := h
          subst htm
          intro fl hfl
          exact tm_field_eq_refl tm fl
    · simp [hsign] at h

theorem parse_T_agrees {s : List Char} {pos : Nat} {tm : Tm} {p : Nat} {tm' : Tm}
    (h : parse_T s pos tm = some (Except.ok (p, tm'))) :
    ∀ fl : TmField, fl ∉ spec_writes 'T' → tm_field_eq tm' tm fl := by
  unfold parse_T at h
  obtain ⟨a0, ha0, h⟩ := pbind_ok h
  obtain ⟨q0, t0⟩ := a0
  obtain ⟨a1, ha1, h⟩ := pbind_ok h
  obtain ⟨q1, t1⟩ := a1
  obtain ⟨a2, ha2, h⟩ := pbind_ok h
  obtain ⟨q2, t2⟩ := a2
  obtain ⟨a3, ha3, h⟩ := pbind_ok h
  obtain ⟨q3, t3⟩ := a3
  intro fl hfl
  simp [spec_writes] at hfl
  obtain ⟨hw0, hw1, hw2⟩ := hfl
  have e0 := parse_H_agrees ha0 fl (by simp [spec_writes, hw0])
  have e1 := parse_char_t_agrees ha1 fl
  have e2 := parse_M_agrees ha2 fl (by simp [spec_writes, hw1])
  have e3 := parse_char_t_agrees ha3 fl
  have e4 := parse_S_agrees h fl (by simp [spec_writes, hw2])
  exact tm_field_eq_trans e4 (tm_field_eq_trans e3 (tm_field_eq_trans e2 (tm_field_eq_trans e1 e0)))

theorem parse_R_agrees {s : List Char} {pos : Nat} {tm : Tm} {p : Nat} {tm' : Tm}
    (h : parse_R s pos tm = some (Except.ok (p, tm'))) :
    ∀ fl : TmField, fl ∉ spec_writes 'R' → tm_field_eq tm' tm fl := by
  unfold parse_R at h
  obtain ⟨a0, ha0, h⟩ := pbind_ok h
  obtain ⟨q0, t0⟩ := a0
  obtain ⟨a1, ha1, h⟩ := pbind_ok h
  obtain ⟨q1, t1⟩ := a1
  intro fl hfl
  simp [spec_writes] at hfl
  obtain ⟨hw0, hw1⟩ := hfl
  have e0 := parse_H_agrees ha0 fl (by simp [spec_writes, hw0])
  have e1 := parse_char_t_agrees ha1 fl
  have e2 := parse_M_agrees h fl (by simp [spec_writes, hw1])
  exact tm_field_eq_trans e2 (tm_field_eq_trans e1 e0)

theorem parse_r_agrees {s : List Char} {pos : Nat} {tm : Tm} {p : Nat} {tm' : Tm}
    (h : parse_r s pos tm = some (Except.ok (p, tm'))) :
    ∀ fl : TmField, fl ∉ spec_writes 'r' → tm_field_eq tm' tm fl := by
  unfold parse_r at h
  obtain ⟨a0, ha0, h⟩ := pbind_ok h
  obtain ⟨q0, t0⟩ := a0
  obtain ⟨a1, ha1, h⟩ := pbind_ok h
  obtain ⟨q1, t1⟩ := a1
  obtain ⟨a2, ha2, h⟩ := pbind_ok h
  obtain ⟨q2, t2⟩ := a2
  obtain ⟨a3, ha3, h⟩ := pbind_ok h
  obtain ⟨q3, t3⟩ := a3
  obtain ⟨a4, ha4, h⟩ := pbind_ok h
  obtain ⟨q4, t4⟩ := a4
  obtain ⟨a5, ha5, h⟩ := pbind_ok h
  obtain ⟨q5, t5⟩ := a5
  intro fl hfl
  simp [spec_writes] at hfl
  obtain ⟨hw0, hw1, hw2⟩ := hfl
  have e0 := parse_I_agrees ha0 fl (by simp [spec_writes, hw0])
  have e1 := parse_char_t_agrees ha1 fl
  have e2 := parse_M_agrees ha2 fl (by simp [spec_writes, hw1])
  have e3 := parse_char_t_agrees ha3 fl
  have e4 := parse_S_agrees ha4 fl (by simp [spec_writes, hw2])
  have e5 := parse_char_t_agrees ha5 fl
  have e6 := parse_p_agrees h fl (by simp [spec_writes, hw0])
  exact tm_field_eq_trans e6 (tm_field_eq_trans e5 (tm_field_eq_trans e4 (tm_field_eq_trans e3 (tm_field_eq_trans e2 (tm_field_eq_trans e1 e0)))))

theorem parse_D_agrees {s : List Char} {pos : Nat} {tm : Tm} {p : Nat} {tm' : Tm}
    (h : parse_D s pos tm = some (Except.ok (p, tm'))) :
    ∀ fl : TmField, fl ∉ spec_writes 'D' → tm_field_eq tm' tm fl := by
  unfold parse_D at h
  obtain ⟨a0, ha0, h⟩ := pbind_ok h
  obtain ⟨q0, t0⟩ := a0
  obtain ⟨a1, ha1, h⟩ := pbind_ok h
  obtain ⟨q1, t1⟩ := a1
  obtain ⟨a2, ha2, h⟩ := pbind_ok h
  obtain ⟨q2, t2⟩ := a2
  obtain ⟨a3, ha3, h⟩ := pbind_ok h
  obtain ⟨q3, t3⟩ := a3
  intro fl hfl
  simp [spec_writes] at hfl
  obtain ⟨hw0, hw1, hw2⟩ := hfl
  have e0 := parse_m_agrees ha0 fl (by simp [spec_writes, hw0])
  have e1 := parse_char_t_agrees ha1 fl
  have e2 := parse_d_agrees ha2 fl (by simp [spec_writes, hw1])
  have e3 := parse_char_t_agrees ha3 fl
  have e4 := parse_y_agrees h fl (by simp [spec_writes, hw2])
  exact tm_field_eq_trans e4 (tm_field_eq_trans e3 (tm_field_eq_trans e2 (tm_field_eq_trans e1 e0)))

theorem parse_F_agrees {s : List Char} {pos : Nat} {tm : Tm} {p : Nat} {tm' : Tm}
    (h : parse_F s pos tm = some (Except.ok (p, tm'))) :
    ∀ fl : TmField, fl ∉ spec_writes 'F' → tm_field_eq tm' tm fl := by
  unfold parse_F at h
  obtain ⟨a0, ha0, h⟩ := pbind_ok h
  obtain ⟨q0, t0⟩ := a0
  obtain ⟨a1, ha1, h⟩ := pbind_ok h
  obtain ⟨q1, t1⟩ := a1
  obtain ⟨a2, ha2, h⟩ := pbind_ok h
  obtain ⟨q2, t2⟩ := a2
  obtain ⟨a3, ha3, h⟩ := pbind_ok h
  obtain ⟨q3, t3⟩ := a3
  intro fl hfl
  simp [spec_writes] at hfl
  obtain ⟨hw0, hw1, hw2⟩ := hfl
  have e0 := parse_Y_agrees ha0 fl (by simp [spec_writes, hw0])
  have e1 := parse_char_t_agrees ha1 fl
  have e2 := parse_m_agrees ha2 fl (by simp [spec_writes, hw1])
  have e3 := parse_char_t_agrees ha3 fl
  have e4 := parse_d_agrees h fl (by simp [spec_writes, hw2])
  exact tm_field_eq_trans e4 (tm_field_eq_trans e3 (tm_field_eq_trans e2 (tm_field_eq_trans e1 e0)))

theorem parse_v_agrees {s : List Char} {pos : Nat} {tm : Tm} {p : Nat} {tm' : Tm}
    (h : parse_v s pos tm = some (Except.ok (p, tm'))) :
    ∀ fl : TmField, fl ∉ spec_writes 'v' → tm_field_eq tm' tm fl := by
  unfold parse_v at h
  obtain ⟨a0, ha0, h⟩ := pbind_ok h
  obtain ⟨q0, t0⟩ := a0
  obtain ⟨a1, ha1, h⟩ := pbind_ok h
  obtain ⟨q1, t1⟩ := a1
  obtain ⟨a2, ha2, h⟩ := pbind_ok h
  obtain ⟨q2, t2⟩ := a2
  obtain ⟨a3, ha3, h⟩ := pbind_ok h
  obtain ⟨q3, t3⟩ := a3
  intro fl hfl
  simp [spec_writes] at hfl
  obtain ⟨hw0, hw1, hw2⟩ := hfl
  have e0 := parse_e_agrees ha0 fl (by simp [spec_writes, hw0])
  have e1 := parse_char_t_agrees ha1 fl
  have e2 := parse_b_agrees ha2 fl (by simp [spec_writes, hw1])
  have e3 := parse_char_t_agrees ha3 fl
  have e4 := parse_Y_agrees h fl (by simp [spec_writes, hw2])
  exact tm_field_eq_trans e4 (tm_field_eq_trans e3 (tm_field_eq_trans e2 (tm_field_eq_trans e1 e0)))

theorem parse_c_agrees {s : List Char} {pos : Nat} {tm : Tm} {p : Nat} {tm' : Tm}
    (h : parse_c s pos tm = some (Except.ok (p, tm'))) :
    ∀ fl : TmField, fl ∉ spec_writes 'c' → tm_field_eq tm' tm fl := by
  unfold parse_c at h
  obtain ⟨a0, ha0, h⟩ := pbind_ok h
  obtain ⟨q0, t0⟩ := a0
  obtain ⟨a1, ha1, h⟩ := pbind_ok h
  obtain ⟨q1, t1⟩ := a1
  obtain ⟨a2, ha2, h⟩ := pbind_ok h
  obtain ⟨q2, t2⟩ := a2
  obtain ⟨a3, ha3, h⟩ := pbind_ok h
  obtain ⟨q3, t3⟩ := a3
  obtain ⟨a4, ha4, h⟩ := pbind_ok h
  obtain ⟨q4, t4⟩ := a4
  obtain ⟨a5, ha5, h⟩ := pbind_ok h
  obtain ⟨q5, t5⟩ := a5
  obtain ⟨a6, ha6, h⟩ := pbind_ok h
  obtain ⟨q6, t6⟩ := a6
  obtain ⟨a7, ha7, h⟩ := pbind_ok h
  obtain ⟨q7, t7⟩ := a7
  intro fl hfl
  simp [spec_writes] at hfl
  obtain ⟨hw0, hw1, hw2, hw3, hw4, hw5, hw6⟩ := hfl
  have e0 := parse_a_agrees ha0 fl (by simp [spec_writes, hw0])
  have e1 := parse_char_t_agrees ha1 fl
  have e2 := parse_b_agrees ha2 fl (by simp [spec_writes, hw1])
  have e3 := parse_char_t_agrees ha3 fl
  have e4 := parse_e_agrees ha4 fl (by simp [spec_writes, hw2])
  have e5 := parse_char_t_agrees ha5 fl
  have e6 := parse_T_agrees ha6 fl (by simp [spec_writes, hw3, hw4, hw5])
  have e7 := parse_char_t_agrees ha7 fl
  have e8 := parse_Y_agrees h fl (by simp [spec_writes, hw6])
  exact tm_field_eq_trans e8 (tm_field_eq_trans e7 (tm_field_eq_trans e6 (tm_field_eq_trans e5 (tm_field_eq_trans e4 (tm_field_eq_trans e3 (tm_field_eq_trans e2 (tm_field_eq_trans e1 e0)))))))

theorem parse_type_agrees {s : List Char} {pos : Nat} {ch : Char} {tm : Tm} {p : Nat}
    {tm' : Tm}
    (h : parse_type s pos ch tm = some (Except.ok (p, tm'))) :
    ∀ fl : TmField, fl ∉ spec_writes ch → tm_field_eq tm' tm fl := by
  unfold parse_type at h
  split at h
  · exact parse_A_agrees h
  · exact parse_a_agrees h
  · exact parse_B_agrees h
  · exact parse_b_agrees h
  · exact parse_b_agrees h
  · exact parse_C_agrees h
  · exact parse_c_agrees h
  · exact parse_D_agrees h
  · exact parse_D_agrees h
  · exact parse_d_agrees h
  · exact parse_e_agrees h
  · exact parse_F_agrees h
  · exact parse_H_agrees h
  · exact parse_I_agrees h
  · exact parse_j_agrees h
  · exact parse_k_agrees h
  · exact parse_l_agrees h
  · exact parse_M_agrees h
  · exact parse_m_agrees h
  · exact fun fl _ => parse_char_t_agrees h fl
  · exact parse_P_agrees h
  · exact parse_p_agrees h
  · exact parse_R_agrees h
  · exact parse_r_agrees h
  · exact parse_S_agrees h
  · exact parse_T_agrees h
  · exact parse_T_agrees h
  · exact fun fl _ => parse_char_t_agrees h fl
  · exact parse_u_agrees h
  · exact parse_v_agrees h
  · exact parse_w_agrees h
  · exact parse_Y_agrees h
  · exact parse_y_agrees h
  · exact parse_Z_agrees h
  · exact parse_z_agrees h
  · exact fun fl _ => parse_char_t_agrees h fl
  · simp at h

theorem strptime_loop_agrees (s : List Char) :
    ∀ (n : Nat) (fmt : List Char), fmt.length ≤ n → ∀ (pos : Nat) (tm t : Tm),
      strptime_loop s fmt pos tm = some (Except.ok t) →
      ∀ fl : TmField, format_writes fmt fl = false → tm_field_eq t tm fl := by
  intro n
  induction n with
  | zero =>
    intro fmt hlen pos tm t h fl hfl
    match fmt with
    | [] =>
      rw [strptime_loop] at h
      by_cases hp : pos = s.length
      · rw [if_pos hp] at h
        simp at h
        cases h
        exact tm_field_eq_refl tm fl
      · rw [if_neg hp] at h
        simp at h
    | c :: rest => simp at hlen
  | succ n ih =>
    intro fmt hlen pos tm t h fl hfl
    match fmt with
    | [] =>
      rw [strptime_loop] at h
      by_cases hp : pos = s.length
      · rw [if_pos hp] at h
        simp at h
        cases h
        exact tm_field_eq_refl tm fl
      · rw [if_neg hp] at h
        simp at h
    | c :: rest =>
      by_cases hpos : pos < s.length
      · by_cases hc : c = '%'
        · subst hc
          match rest with
          | [] =>
            rw [strptime_loop_percent_nil s pos tm hpos] at h
            simp at h
          | f :: rest2 =>
            rw [strptime_loop_percent s f rest2 pos tm hpos] at h
            rw [format_writes_percent f rest2 fl] at hfl
            simp at hfl
            match hpt : parse_type s pos f tm with
            | none => rw [hpt] at h; simp at h
            | some (Except.error e) => rw [hpt] at h; simp at h
            | some (Except.ok (p2, t2)) =>
              rw [hpt] at h
              have e1 := parse_type_agrees hpt fl hfl.1
              have hlen2 : rest2.length ≤ n := by
                have h2 : ('%' :: f :: rest2).length = rest2.length + 2 := by simp
                omega
              have e2 := ih rest2 hlen2 p2 t2 t h fl hfl.2
              exact tm_field_eq_trans e2 e1
        · rw [strptime_loop_literal s c rest pos tm hpos hc] at h
          rw [format_writes_literal rest fl hc] at hfl
          match hcr : char_range_at s pos with
          | none => rw [hcr] at h; simp at h
          | some ch =>
            rw [hcr] at h
            by_cases hch : c = ch
            · simp only [hch, if_pos] at h
              have hlen2 : rest.length ≤ n := by
                have h2 : (c :: rest).length = rest.length + 1 := by simp
                omega
              exact ih rest hlen2 (pos + 1) tm t h fl hfl
            · simp [hch] at h
      · rw [strptime_loop_stop s c rest pos tm hpos] at h
        simp at h

/-! ## Claim C10 -/

/-- C10: frame property of parsing — in every record returned by a
successful `strptime`, each field that no specifier of the format string
writes keeps its zero initialisation (its value in the zero-initialised
starting record); and in particular, whatever the format, `tm_isdst` and
`tm_nsec` are 0 and `tm_zone` is the null pointer in every result, since
no specifier arm stores to the DST or nanosecond fields and the only
zone-pointer writes (`%Z`, `%z`) store null. -/
theorem C10_frame (s fmt : List Char) (t : Tm)
    (h : strptime s fmt = some (Except.ok t)) :
    (∀ fl : TmField, format_writes fmt fl = false → tm_field_eq t empty_tm fl) ∧
    (t.tm_isdst = 0 ∧ t.tm_nsec = 0 ∧ t.tm_zone = none) :=
  ⟨strptime_loop_agrees s fmt.length fmt (le_refl _) 0 empty_tm t h,
   strptime_loop_frame s fmt.length fmt (le_refl _) 0 empty_tm t ⟨rfl, rfl, rfl⟩ h⟩

/-- C10 witness: a concrete `%H` parse — `tm_min`, unwritten by `%H`,
keeps its zero value, and the three always-unwritten fields keep theirs. -/
theorem C10_frame_witness :
    tm_field_eq { empty_tm with tm_hour := 15 } empty_tm TmField.min ∧
    ({ empty_tm with tm_hour := 15 } : Tm).tm_isdst = 0 ∧
    ({ empty_tm with tm_hour := 15 } : Tm).tm_nsec = 0 ∧
    ({ empty_tm with tm_hour := 15 } : Tm).tm_zone = none :=
  ⟨(C10_frame "15".toList "%H".toList { empty_tm with tm_hour := 15 } (by decide)).1
      TmField.min (by decide),
   (C10_frame "15".toList "%H".toList { empty_tm with tm_hour := 15 } (by decide)).2⟩


/-- C9 counterexample: the two "identical results" halves fail on short or
mismatching input.  On input "15", `%T` crashes (the chained `parse_char`
indexes past the end of the input) while `%H:%M:%S` returns the pending
`Err("Invalid time")`; on "15x45:30" the two report different error
messages (`parse_char`'s "Expected :, found x" versus the literal-mismatch
"Invalid time"). -/
theorem C9_counterexample :
    strptime "15".toList "%T".toList = none ∧
    strptime "15".toList "%H:%M:%S".toList = some (Except.error "Invalid time") ∧
    strptime "15x45:30".toList "%T".toList =
      some (Except.error "Expected :, found x") ∧
    strptime "15x45:30".toList "%H:%M:%S".toList =
      some (Except.error "Invalid time") := ⟨rfl, rfl, rfl, rfl⟩

/-- C9 (amended): `%T` and `%H:%M:%S` are equivalent on the formatting side
for every record, and on the parsing side they succeed on exactly the same
inputs with exactly the same resulting record.  (Their failure *modes*
differ: `%T` aborts where the literal `:` of `%H:%M:%S` fails the main
loop's bounds check, and their error messages differ on a mismatched
separator.) -/
theorem C9_composite_equivalence_amended :
    (∀ (ext : Tm → Int) (t : Tm),
        strftime ext "%T".toList t = strftime ext "%H:%M:%S".toList t) ∧
    (∀ (s : List Char) (t : Tm),
        strptime s "%T".toList = some (Except.ok t) ↔
        strptime s "%H:%M:%S".toList = some (Except.ok t)) := by
  refine ⟨fun ext t => ?_, fun s t => strptime_T_HMS_ok_iff s t⟩
  simp [strftime, strftime_go, format_type]
